import Mathlib

/-!
# Item knowledge engine of FAangband (`src/identify.c`)

A shallow embedding of the dubiousness classifier (`item_dubious`), the two
feeling methods (`value_check_aux1`, `value_check_aux2`), the ego-inference rule
(`has_ego_properties`), the promotion routine (`label_as_ego`), the
other-property signature (`flags_other`), the full-knowledge evaluator
(`known_really`) and the notice operations (`notice_curse`, `notice_obj`,
`notice_other`), followed by theorems about them.

Flag sets (`bitflag` arrays handled through the `of_*`, `cf_*` and `if_*`
macros) are finite sets of flag indices.  The status word `ident` is a
natural number handled with the bitwise operators the source uses.  The
constants, tables and helper functions that `identify.c` takes from headers and
other translation units are fields of `Env`.
-/

namespace FAangband

/-! ## Data model -/

/-- A set of flags of one category: the `bitflag` arrays of the source. -/
abbrev FlagSet := Finset Nat

/-- The fields of `object_type` that `identify.c` reads or writes. -/
structure object_type where
  /-- Index into `k_info`. -/
  k_idx : Nat
  /-- Artifact index, 0 for none. -/
  name1 : Nat
  /-- Ego template index, 0 for none. -/
  name2 : Nat
  /-- Kind class, read by the slot and weapon/armour helpers. -/
  tval : Nat
  percent_res : Nat → Int
  bonus_stat : Nat → Int
  bonus_other : Nat → Int
  multiple_slay : Nat → Int
  multiple_brand : Nat → Int
  to_h : Int
  to_d : Int
  to_a : Int
  ac : Int
  flags_obj : FlagSet
  flags_curse : FlagSet
  id_curse : FlagSet
  id_obj : FlagSet
  id_other : FlagSet
  /-- Status bitmask (`IDENT_*`). -/
  ident : Nat

/-- The fields of `ego_item_type` that `identify.c` reads. -/
structure ego_item_type where
  flags_obj : FlagSet
  flags_curse : FlagSet
  id_curse : FlagSet
  id_obj : FlagSet
  id_other : FlagSet
  percent_res : Nat → Int
  multiple_slay : Nat → Int
  multiple_brand : Nat → Int
  everseen : Bool

/-- The field of `object_kind` that `identify.c` reads. -/
structure object_kind where
  to_h : Int

/-- An entry of the message log: the two `msg_format` calls of `label_as_ego`. -/
inductive Message where
  /-- Text for an equipment slot, `describe_use(item - 1)`. -/
  | equip (slot : Int) (o : object_type)
  /-- Text "In your pack". -/
  | pack (item : Int) (o : object_type)

/-- The fields of `player_type` that `identify.c` reads or writes. -/
structure player_type where
  inventory : Nat → object_type
  id_obj : FlagSet
  id_other : FlagSet
  notice : Nat
  redraw : Nat

/-- The global variables `identify.c` works on. -/
structure State where
  p_ptr : player_type
  o_list : Nat → object_type
  e_info : Nat → ego_item_type
  k_info : Nat → object_kind
  messages : List Message

/-- What an `object_type *` of the notice operations points at. -/
inductive ObjRef where
  /-- Pointer `&p_ptr->inventory[i]`. -/
  | inven (i : Nat)
  /-- Pointer `&o_list[i]`. -/
  | floor (i : Nat)
  deriving DecidableEq

/-- Constants, helper functions and collaborators that `identify.c` uses and
that are declared outside the sampled sources. -/
structure Env where
  MAX_P_RES : Nat
  A_MAX : Nat
  MAX_P_BONUS : Nat
  MAX_P_SLAY : Nat
  MAX_P_BRAND : Nat
  RES_LEVEL_BASE : Int
  BONUS_BASE : Int
  MULTIPLE_BASE : Int
  OBJECT_ID_BASE_RESIST : Nat
  OBJECT_ID_BASE_SLAY : Nat
  OBJECT_ID_BASE_BRAND : Nat
  IF_TO_H : Nat
  IF_TO_D : Nat
  IF_TO_A : Nat
  IF_AC : Nat
  IF_DD_DS : Nat
  OF_SHOW_MODS : Nat
  OF_SHOW_CURSE : Nat
  IDENT_KNOWN : Nat
  IDENT_WORN : Nat
  IDENT_CURSED : Nat
  IDENT_UNCURSED : Nat
  IDENT_KNOW_CURSES : Nat
  INVEN_WIELD : Nat
  INVEN_LEFT : Nat
  INVEN_RIGHT : Nat
  INVEN_NECK : Nat
  INVEN_LITE : Nat
  INVEN_FEET : Nat
  PN_COMBINE : Nat
  PN_REORDER : Nat
  PR_INVEN : Nat
  PR_EQUIP : Nat
  PR_BASIC : Nat
  PR_EXTRA : Nat
  /-- Equipment slot of an item, negative when it cannot be wielded. -/
  wield_slot : object_type → Int
  is_weapon : object_type → Bool
  is_armour : object_type → Bool
  /-- The full-identification collaborator, called on a pointer. -/
  identify_object : ObjRef → State → State
  /-- The pending-request processor called by `label_as_ego`. -/
  handle_stuff : State → State

/-! ## Flag-set macros -/

/-- Modelled from the spec: the macros `of_is_subset`, `cf_is_subset` and
`if_is_subset` are not in the sampled sources; section 4.1 gives
`is_subset(a, b)` as true when every bit in `a` is also in `b`. -/
def flag_is_subset (a b : FlagSet) : Bool := decide (a ⊆ b)

/-- Modelled from the spec: the macros `of_is_inter`, `cf_is_inter` and
`if_is_inter` are not in the sampled sources; section 4.1 gives
`intersects(a, b)` as true when some bit is set in both. -/
def flag_is_inter (a b : FlagSet) : Bool := decide ((a ∩ b).Nonempty)

/-- Modelled from the spec: the macros `of_has`, `cf_has` and `if_has` are not
in the sampled sources; section 4.1 gives `test(bit)`. -/
def flag_has (f : FlagSet) (flag : Nat) : Bool := decide (flag ∈ f)

/-- Modelled from the spec: the macros `of_on`, `cf_on` and `if_on` are not in
the sampled sources; section 4.1 gives `set(bit)`. -/
def flag_on (f : FlagSet) (flag : Nat) : FlagSet := insert flag f

/-- Modelled from the spec: the macros `of_union` and `cf_union` are not in the
sampled sources; section 4.1 gives `union_into(dst, src)`. -/
def flag_union (dst src : FlagSet) : FlagSet := dst ∪ src

/-! ## Pure functions of `identify.c` -/

/-- The source's `has_ego_properties` (lines 172-202), reading `e_info`. -/
def has_ego_properties (E : Env) (e_info : Nat → ego_item_type) (o : object_type) : Bool :=
  let e := e_info o.name2
  if o.name2 = 0 then false
  else if o.ident &&& E.IDENT_KNOWN ≠ 0 then true
  else if !e.everseen then false
  else if flag_is_inter e.id_curse o.id_curse then true
  else if flag_is_inter e.id_obj o.id_obj then true
  else if flag_is_inter e.id_other o.id_other then true
  else false

/-- One of the marking loops `for (j = 0; j < n; j++) if (vals[j] != neutral)
if_on(flags, first + j);` shared by `flags_other` and `label_as_ego`. -/
def mark_deviations (n : Nat) (vals : Nat → Int) (neutral : Int) (first : Nat)
    (flags : FlagSet) : FlagSet :=
  (List.range n).foldl
    (fun f j => if vals j ≠ neutral then flag_on f (first + j) else f) flags

/-- The source's `flags_other` (lines 267-300); the result is the filled
`all_flags` bitmap. -/
def flags_other (E : Env) (o : object_type) : FlagSet :=
  let f0 : FlagSet := ∅
  let f1 := mark_deviations E.MAX_P_RES o.percent_res E.RES_LEVEL_BASE E.OBJECT_ID_BASE_RESIST f0
  let f2 := mark_deviations E.MAX_P_SLAY o.multiple_slay E.MULTIPLE_BASE E.OBJECT_ID_BASE_SLAY f1
  let f3 := mark_deviations E.MAX_P_BRAND o.multiple_brand E.MULTIPLE_BASE E.OBJECT_ID_BASE_BRAND f2
  let f4 := if o.to_h ≠ 0 || E.is_weapon o || flag_has o.flags_obj E.OF_SHOW_MODS
    then flag_on f3 E.IF_TO_H else f3
  let f5 := if o.to_d ≠ 0 || E.is_weapon o || flag_has o.flags_obj E.OF_SHOW_MODS
    then flag_on f4 E.IF_TO_D else f4
  let f6 := if o.to_a ≠ 0 || E.is_armour o then flag_on f5 E.IF_TO_A else f5
  let f7 := if o.ac ≠ 0 || E.is_armour o
    then flag_on (flag_on f6 E.IF_AC) E.IF_TO_A else f6
  flag_on f7 E.IF_DD_DS

/-- The source's `has_bonuses` (lines 305-321). -/
def has_bonuses (E : Env) (o : object_type) : Bool :=
  if (List.range E.A_MAX).any (fun j => o.bonus_stat j ≠ 0) then true
  else if (List.range E.MAX_P_BONUS).any (fun j => o.bonus_other j ≠ 0) then true
  else false

/-- The source's `known_really` (lines 327-361). -/
def known_really (E : Env) (e_info : Nat → ego_item_type) (o : object_type) : Bool :=
  let needs_to_be_worn := has_bonuses E o
  let otherflags := flags_other E o
  if o.name2 ≠ 0 && !(e_info o.name2).everseen then false
  else if flag_is_subset o.id_obj o.flags_obj then false
  else if flag_is_subset o.id_other otherflags then false
  else if needs_to_be_worn && !(o.ident &&& E.IDENT_WORN ≠ 0) then false
  else if o.ident &&& E.IDENT_KNOWN ≠ 0 then false
  else if E.wield_slot o < 0 then false
  else true

/-- The source's `known_really` (lines 327-361) read with the other operand
order of the subset macros, that of `flag_is_subset` in Angband's
`z-bitflag.c`, where `of_is_subset(f1, f2)` holds when every flag of `f2` is in
`f1`.  It shows which results do not depend on the operand order. -/
def known_really_swapped (E : Env) (e_info : Nat → ego_item_type) (o : object_type) : Bool :=
  let needs_to_be_worn := has_bonuses E o
  let otherflags := flags_other E o
  if o.name2 ≠ 0 && !(e_info o.name2).everseen then false
  else if flag_is_subset o.flags_obj o.id_obj then false
  else if flag_is_subset otherflags o.id_other then false
  else if needs_to_be_worn && !(o.ident &&& E.IDENT_WORN ≠ 0) then false
  else if o.ident &&& E.IDENT_KNOWN ≠ 0 then false
  else if E.wield_slot o < 0 then false
  else true

/-- Modelled from the spec: the macro `if_wipe` is not in the sampled sources;
it clears every flag of a flag set of section 4.1. -/
def flag_wipe (_f : FlagSet) : FlagSet := ∅

/-- The source's `flags_other` (lines 267-300) with the output bitmap as an
argument: `all_flags` holds the previous contents of the buffer and the result
is the buffer when the function returns.  (The parameter is spelled `allflags`
in the signature and `all_flags` in the body.) -/
def flags_other_into (E : Env) (o : object_type) (all_flags : FlagSet) : FlagSet :=
  let f0 := flag_wipe all_flags
  let f1 := mark_deviations E.MAX_P_RES o.percent_res E.RES_LEVEL_BASE E.OBJECT_ID_BASE_RESIST f0
  let f2 := mark_deviations E.MAX_P_SLAY o.multiple_slay E.MULTIPLE_BASE E.OBJECT_ID_BASE_SLAY f1
  let f3 := mark_deviations E.MAX_P_BRAND o.multiple_brand E.MULTIPLE_BASE E.OBJECT_ID_BASE_BRAND f2
  let f4 := if o.to_h ≠ 0 || E.is_weapon o || flag_has o.flags_obj E.OF_SHOW_MODS
    then flag_on f3 E.IF_TO_H else f3
  let f5 := if o.to_d ≠ 0 || E.is_weapon o || flag_has o.flags_obj E.OF_SHOW_MODS
    then flag_on f4 E.IF_TO_D else f4
  let f6 := if o.to_a ≠ 0 || E.is_armour o then flag_on f5 E.IF_TO_A else f5
  let f7 := if o.ac ≠ 0 || E.is_armour o
    then flag_on (flag_on f6 E.IF_AC) E.IF_TO_A else f6
  flag_on f7 E.IF_DD_DS

/-- Modelled from the spec: the macro `cursed_p` is not in the sampled
sources; section 4.2 reads it as "the item actually carries any curse", that
is, its curse-flag set is not empty. -/
def cursed_p (o : object_type) : Bool := decide (o.flags_curse.Nonempty)

/-- Modelled from the spec: the macro `artifact_p` is not in the sampled
sources; an item is an artifact when it refers to an artifact record, `name1`
nonzero, in the way `has_ego_properties` tests `name2` for an ego template. -/
def artifact_p (o : object_type) : Bool := decide (o.name1 ≠ 0)

/-- Modelled from the spec: the macro `ego_item_p` is not in the sampled
sources; section 3 gives an item an optional ego template, which
`has_ego_properties` tests as `name2` nonzero. -/
def ego_item_p (o : object_type) : Bool := decide (o.name2 ≠ 0)

/-- Modelled from the spec: the feeling codes `FEEL_*` are not in the sampled
sources; section 4.3 lists them as none, special, perilous, excellent, dubious
(strong/weak), good (strong/weak) and average, nine distinct values. -/
inductive Feeling where
  /-- Code `FEEL_NONE`. -/
  | FEEL_NONE
  /-- Code `FEEL_SPECIAL`. -/
  | FEEL_SPECIAL
  /-- Code `FEEL_PERILOUS`. -/
  | FEEL_PERILOUS
  /-- Code `FEEL_EXCELLENT`. -/
  | FEEL_EXCELLENT
  /-- Code `FEEL_DUBIOUS_STRONG`. -/
  | FEEL_DUBIOUS_STRONG
  /-- Code `FEEL_DUBIOUS_WEAK`. -/
  | FEEL_DUBIOUS_WEAK
  /-- Code `FEEL_GOOD_STRONG`. -/
  | FEEL_GOOD_STRONG
  /-- Code `FEEL_GOOD_WEAK`. -/
  | FEEL_GOOD_WEAK
  /-- Code `FEEL_AVERAGE`. -/
  | FEEL_AVERAGE
  deriving DecidableEq

open Feeling

/-- The source's `item_dubious` (lines 27-65), reading `k_info`. -/
def item_dubious (E : Env) (k_info : Nat → object_kind) (o : object_type)
    (unknown : Bool) : Bool :=
  let k := k_info o.k_idx
  if (List.range E.MAX_P_RES).any (fun i => o.percent_res i > E.RES_LEVEL_BASE) then true
  else if (List.range E.A_MAX).any (fun i => o.bonus_stat i < E.BONUS_BASE) then true
  else if (List.range E.MAX_P_BONUS).any (fun i => o.bonus_other i < E.BONUS_BASE) then true
  else if (List.range E.MAX_P_SLAY).any (fun i => o.multiple_slay i < E.MULTIPLE_BASE) then true
  else if (List.range E.MAX_P_BRAND).any (fun i => o.multiple_brand i < E.MULTIPLE_BASE) then true
  else if o.to_h + o.to_d < k.to_h then true
  else if o.to_a < 0 then true
  else if unknown && cursed_p o then true
  else false

/-- The statement `o_ptr->ident |= (IDENT_UNCURSED | IDENT_KNOW_CURSES);` of
the two feeling methods. -/
def mark_uncursed (E : Env) (o : object_type) : object_type :=
  { o with ident := o.ident ||| (E.IDENT_UNCURSED ||| E.IDENT_KNOW_CURSES) }

/-- The source's `value_check_aux1` (lines 71-121), the heavy method: the
feeling returned and the object as the function leaves it. -/
def value_check_aux1 (E : Env) (k_info : Nat → object_kind) (o : object_type) :
    Feeling × object_type :=
  let slot := E.wield_slot o
  if slot < 0 then (FEEL_NONE, o)
  else if slot = E.INVEN_LITE then (FEEL_NONE, o)
  else if artifact_p o then (FEEL_SPECIAL, o)
  else if ego_item_p o then
    if item_dubious E k_info o true then (FEEL_PERILOUS, o)
    else (FEEL_EXCELLENT, mark_uncursed E o)
  else if item_dubious E k_info o true then (FEEL_DUBIOUS_STRONG, o)
  else
    let o1 := mark_uncursed E o
    if slot ≥ E.INVEN_LEFT && slot ≤ E.INVEN_NECK then (FEEL_GOOD_STRONG, o1)
    else if o1.to_a > 0 then (FEEL_GOOD_STRONG, o1)
    else if o1.to_h + o1.to_d > 0 then (FEEL_GOOD_STRONG, o1)
    else (FEEL_AVERAGE, o1)

/-- The source's `value_check_aux2` (lines 127-165), the light method: the
feeling returned and the object as the function leaves it. -/
def value_check_aux2 (E : Env) (k_info : Nat → object_kind) (o : object_type) :
    Feeling × object_type :=
  let slot := E.wield_slot o
  if slot < 0 then (FEEL_NONE, o)
  else if slot = E.INVEN_LITE then (FEEL_NONE, o)
  else if item_dubious E k_info o true then (FEEL_DUBIOUS_WEAK, o)
  else
    let o1 := mark_uncursed E o
    if artifact_p o1 then (FEEL_GOOD_WEAK, o1)
    else if ego_item_p o1 then (FEEL_GOOD_WEAK, o1)
    else if o1.to_a > 0 then (FEEL_GOOD_WEAK, o1)
    else if o1.to_h + o1.to_d > 0 then (FEEL_GOOD_WEAK, o1)
    else (FEEL_AVERAGE, o1)

/-! ## State access -/

/-- Dereference of an `object_type *`. -/
def State.obj (s : State) : ObjRef → object_type
  | .inven i => s.p_ptr.inventory i
  | .floor i => s.o_list i

/-- Store through an `object_type *`. -/
def State.set_obj (s : State) (r : ObjRef) (o : object_type) : State :=
  match r with
  | .inven i =>
    { s with p_ptr := { s.p_ptr with inventory := Function.update s.p_ptr.inventory i o } }
  | .floor i => { s with o_list := Function.update s.o_list i o }

/-- The pointer selected by a nonzero `item`: `&p_ptr->inventory[item - 1]`
when `item > 0`, else `&o_list[0 - item]`. -/
def target (item : Int) : ObjRef :=
  if item > 0 then .inven (item - 1).toNat else .floor (0 - item).toNat

/-- The slots visited by `for (i = INVEN_WIELD; i <= INVEN_FEET; i++)`. -/
def equipment_slots (E : Env) : List Nat :=
  List.range' E.INVEN_WIELD (E.INVEN_FEET + 1 - E.INVEN_WIELD)

/-! ## Promotion and the notice operations -/

/-- The knowledge updates of `label_as_ego` (lines 215-241) on the object,
given its ego template `e`: the template's object flags are united into
`id_obj`, its curses into `id_curse` when it has `OF_SHOW_CURSE`, and the
three loops mark the resists, slays and brands in which the template deviates. -/
def label_object (E : Env) (e : ego_item_type) (o : object_type) : object_type :=
  { o with
    id_obj := flag_union o.id_obj e.flags_obj
    id_curse :=
      if flag_has e.flags_obj E.OF_SHOW_CURSE then flag_union o.id_curse e.flags_curse
      else o.id_curse
    id_other :=
      mark_deviations E.MAX_P_BRAND e.multiple_brand E.MULTIPLE_BASE E.OBJECT_ID_BASE_BRAND
        (mark_deviations E.MAX_P_SLAY e.multiple_slay E.MULTIPLE_BASE E.OBJECT_ID_BASE_SLAY
          (mark_deviations E.MAX_P_RES e.percent_res E.RES_LEVEL_BASE E.OBJECT_ID_BASE_RESIST
            o.id_other)) }

/-- The requests of `label_as_ego` (lines 243-247):
`p_ptr->notice |= (PN_COMBINE | PN_REORDER);
p_ptr->redraw |= (PR_INVEN | PR_EQUIP | PR_BASIC | PR_EXTRA);`. -/
def label_requests (E : Env) (s : State) : State :=
  { s with p_ptr :=
    { s.p_ptr with
      notice := s.p_ptr.notice ||| (E.PN_COMBINE ||| E.PN_REORDER)
      redraw := s.p_ptr.redraw ||| (E.PR_INVEN ||| E.PR_EQUIP ||| E.PR_BASIC ||| E.PR_EXTRA) } }

/-- The description of `label_as_ego` (lines 252-261): a message for an
equipment slot, for a pack slot, or none. -/
def label_describe (E : Env) (r : ObjRef) (item : Int) (s : State) : State :=
  if item - 1 ≥ (E.INVEN_WIELD : Int) then
    { s with messages := s.messages ++ [Message.equip (item - 1) (s.obj r)] }
  else if item - 1 ≥ 0 then
    { s with messages := s.messages ++ [Message.pack item (s.obj r)] }
  else s

/-- The source's `label_as_ego` (lines 208-262) on the object `r` points at. -/
def label_as_ego (E : Env) (r : ObjRef) (item : Int) (s : State) : State :=
  let o := s.obj r
  let e := s.e_info o.name2
  let s1 := s.set_obj r (label_object E e o)
  let s2 := label_requests E s1
  let s3 := E.handle_stuff s2
  label_describe E r item s3

/-- The step "Ego item?" of every notice path:
`if (already_ego != has_ego_properties(o_ptr)) label_as_ego(o_ptr, item);`. -/
def ego_item_check (E : Env) (already_ego : Bool) (r : ObjRef) (item : Int) (s : State) : State :=
  if already_ego != has_ego_properties E s.e_info (s.obj r) then label_as_ego E r item s else s

/-- The step "Fully identified now?" of every notice path:
`if (known_really(o_ptr)) identify_object(o_ptr);`. -/
def fully_identified_now (E : Env) (r : ObjRef) (s : State) : State :=
  if known_really E s.e_info (s.obj r) then E.identify_object r s else s

/-- The evidence of `notice_curse`: `cf_on(o_ptr->id_curse, curse_flag);
o_ptr->ident |= IDENT_CURSED;`. -/
def curse_evidence (E : Env) (curse_flag : Nat) (r : ObjRef) (s : State) : State :=
  let o := s.obj r
  s.set_obj r { o with id_curse := flag_on o.id_curse curse_flag, ident := o.ident ||| E.IDENT_CURSED }

/-- The per-object body of `notice_curse` (lines 379-391, and 399-414 in the
loop, where line 404 lacks the comma between the two arguments of `cf_on`). -/
def notice_curse_at (E : Env) (curse_flag : Nat) (item : Int) (r : ObjRef) (s : State) : State :=
  let already_ego := has_ego_properties E s.e_info (s.obj r)
  let s1 := if flag_has (s.obj r).flags_curse curse_flag
    then ego_item_check E already_ego r item (curse_evidence E curse_flag r s) else s
  fully_identified_now E r s1

/-- The source's `notice_curse` (lines 367-416). -/
def notice_curse (E : Env) (curse_flag : Nat) (item : Int) (s : State) : State :=
  if item ≠ 0 then notice_curse_at E curse_flag item (target item) s
  else (equipment_slots E).foldl (fun s i => notice_curse_at E curse_flag item (.inven i) s) s

/-- The evidence of `notice_obj`: `of_on(o_ptr->id_obj, obj_flag);` and, when
the slot index `slot` is a ring or amulet slot, `of_on(p_ptr->id_obj, obj_flag);`. -/
def obj_evidence (E : Env) (obj_flag : Nat) (slot : Int) (r : ObjRef) (s : State) : State :=
  let o := s.obj r
  let s1 := s.set_obj r { o with id_obj := flag_on o.id_obj obj_flag }
  if slot = E.INVEN_RIGHT || slot = E.INVEN_LEFT || slot = E.INVEN_NECK then
    { s1 with p_ptr := { s1.p_ptr with id_obj := flag_on s1.p_ptr.id_obj obj_flag } }
  else s1

/-- The per-object body of `notice_obj` (lines 433-450 with `slot = item - 1`,
lines 458-474 with `slot = i`). -/
def notice_obj_at (E : Env) (obj_flag : Nat) (item : Int) (slot : Int) (r : ObjRef)
    (s : State) : State :=
  let already_ego := has_ego_properties E s.e_info (s.obj r)
  let s1 := obj_evidence E obj_flag slot r s
  let s2 := ego_item_check E already_ego r item s1
  fully_identified_now E r s2

/-- The source's `notice_obj` (lines 421-476). -/
def notice_obj (E : Env) (obj_flag : Nat) (item : Int) (s : State) : State :=
  if item ≠ 0 then notice_obj_at E obj_flag item (item - 1) (target item) s
  else (equipment_slots E).foldl (fun (s : State) (i : Nat) => notice_obj_at E obj_flag item (i : Int) (.inven i) s) s

/-- One of the loops over resists, slays or brands of `notice_other`:
`for (j = 0; j < n; j++) { if (other_flag != first + j) continue;
if (vals[j] != neutral) { if_on(o_ptr->id_other, other_flag); if (sensed j) extra; } }`. -/
def notice_deviation (n : Nat) (vals : object_type → Nat → Int) (neutral : Int) (first : Nat)
    (other_flag : Nat) (sensed : Nat → Bool) (extra : State → State) (r : ObjRef)
    (s : State) : State :=
  (List.range n).foldl
    (fun s j =>
      if other_flag ≠ first + j then s
      else if vals (s.obj r) j ≠ neutral then
        let o := s.obj r
        let s1 := s.set_obj r { o with id_other := flag_on o.id_other other_flag }
        if sensed j then extra s1 else s1
      else s) s

/-- The block "Others" of `notice_other` (lines 531-541 and 595-605).  The
source writes the tests as `if_has(other_flag, IF_TO_H)` on the integer
`other_flag`; they are read as `other_flag == IF_TO_H`. -/
def notice_other_misc (E : Env) (other_flag : Nat) (r : ObjRef) (s : State) : State :=
  let mark (flag : Nat) (s : State) : State :=
    let o := s.obj r
    s.set_obj r { o with id_other := flag_on o.id_other flag }
  let s1 := if other_flag = E.IF_TO_H && ((s.obj r).to_h ≠ 0 || E.is_weapon (s.obj r))
    then mark E.IF_TO_H s else s
  let s2 := if other_flag = E.IF_TO_D && ((s1.obj r).to_d ≠ 0 || E.is_weapon (s1.obj r))
    then mark E.IF_TO_D s1 else s1
  let s3 := if other_flag = E.IF_TO_A && ((s2.obj r).ac ≠ 0 || E.is_armour (s2.obj r))
    then mark E.IF_TO_A s2 else s2
  let s4 := if other_flag = E.IF_AC && ((s3.obj r).ac ≠ 0 || E.is_armour (s3.obj r))
    then mark E.IF_AC s3 else s3
  if other_flag = E.IF_DD_DS then mark E.IF_DD_DS s4 else s4

/-- The evidence of `notice_other`: the three loops and the block "Others".
`sensed` and `extra` are the inner test and statement of the loops, which
differ between the single-item path and the equipment loop. -/
def other_evidence (E : Env) (other_flag : Nat) (sensed : Nat → Bool) (extra : State → State)
    (r : ObjRef) (s : State) : State :=
  let s1 := notice_deviation E.MAX_P_RES (fun o => o.percent_res) E.RES_LEVEL_BASE
    E.OBJECT_ID_BASE_RESIST other_flag sensed extra r s
  let s2 := notice_deviation E.MAX_P_SLAY (fun o => o.multiple_slay) E.MULTIPLE_BASE
    E.OBJECT_ID_BASE_SLAY other_flag sensed extra r s1
  let s3 := notice_deviation E.MAX_P_BRAND (fun o => o.multiple_brand) E.MULTIPLE_BASE
    E.OBJECT_ID_BASE_BRAND other_flag sensed extra r s2
  notice_other_misc E other_flag r s3

/-- The inner test and statement of the loops on the single-item path of
`notice_other` (lines 500-503): `if (((item - 1) == INVEN_RIGHT) || ((item - 1)
== INVEN_LEFT) || ((item - 1) == INVEN_NECK)) if_on(p_ptr->id_other, other_flag);`. -/
def other_sensed_single (E : Env) (item : Int) : Nat → Bool :=
  fun _ => item - 1 = E.INVEN_RIGHT || item - 1 = E.INVEN_LEFT || item - 1 = E.INVEN_NECK

/-- Statement `if_on(p_ptr->id_other, other_flag);` (line 502). -/
def other_extra_single (other_flag : Nat) (s : State) : State :=
  { s with p_ptr := { s.p_ptr with id_other := flag_on s.p_ptr.id_other other_flag } }

/-- The inner test of the loops on the equipment path of `notice_other`
(lines 564-565): `(j == INVEN_RIGHT) || (j == INVEN_LEFT) || (j == INVEN_NECK)`,
on the loop counter `j` of the resist, slay or brand loop. -/
def other_sensed_body (E : Env) : Nat → Bool :=
  fun j => j = E.INVEN_RIGHT || j = E.INVEN_LEFT || j = E.INVEN_NECK

/-- Statement `if_on(o_ptr->id_other, other_flag);` (line 566). -/
def other_extra_body (other_flag : Nat) (r : ObjRef) (s : State) : State :=
  let o := s.obj r
  s.set_obj r { o with id_other := flag_on o.id_other other_flag }

/-- The per-object body of `notice_other`: lines 493-549 on the single-item
path, lines 557-613 in the equipment loop. -/
def notice_other_at (E : Env) (other_flag : Nat) (item : Int) (sensed : Nat → Bool)
    (extra : State → State) (r : ObjRef) (s : State) : State :=
  let already_ego := has_ego_properties E s.e_info (s.obj r)
  let s1 := other_evidence E other_flag sensed extra r s
  let s2 := ego_item_check E already_ego r item s1
  fully_identified_now E r s2

/-- The source's `notice_other` (lines 481-615). -/
def notice_other (E : Env) (other_flag : Nat) (item : Int) (s : State) : State :=
  if item ≠ 0 then
    notice_other_at E other_flag item (other_sensed_single E item)
      (other_extra_single other_flag) (target item) s
  else
    (equipment_slots E).foldl
      (fun s i => notice_other_at E other_flag item (other_sensed_body E)
        (other_extra_body other_flag (.inven i)) (.inven i) s) s

/-! ## A concrete environment -/

/-- Slot helper of the concrete environment: swords (23) go to the weapon
slot 24, rings (45) to slot 26, amulets (40) to slot 28, lights (39) to slot
29, body armour (36) to slot 30; anything else cannot be wielded. -/
def sample_wield_slot (o : object_type) : Int :=
  if o.tval = 23 then 24
  else if o.tval = 45 then 26
  else if o.tval = 40 then 28
  else if o.tval = 39 then 29
  else if o.tval = 36 then 30
  else -1

/-- Modelled from the spec: `identify_object` is not in the sampled sources;
sections 1 and 3 say it records that the item is fully identified and that the
`everseen` flag of its ego type is set.  The status bit is `IDENT_KNOWN = 0x08`. -/
def sample_identify_object (r : ObjRef) (s : State) : State :=
  let o := s.obj r
  let s1 := s.set_obj r { o with ident := o.ident ||| 0x08 }
  if o.name2 ≠ 0 then
    { s1 with e_info :=
        Function.update s1.e_info o.name2 { s1.e_info o.name2 with everseen := true } }
  else s1

/-- Request processor of the concrete environment: the redraw requests are
served, which clears them. -/
def sample_handle_stuff (s : State) : State :=
  { s with p_ptr := { s.p_ptr with redraw := 0 } }

/-- A concrete environment, used to evaluate the definitions on inputs. -/
def sample_env : Env where
  MAX_P_RES := 14
  A_MAX := 6
  MAX_P_BONUS := 8
  MAX_P_SLAY := 8
  MAX_P_BRAND := 5
  RES_LEVEL_BASE := 100
  BONUS_BASE := 0
  MULTIPLE_BASE := 10
  OBJECT_ID_BASE_RESIST := 1
  OBJECT_ID_BASE_SLAY := 15
  OBJECT_ID_BASE_BRAND := 23
  IF_TO_H := 28
  IF_TO_D := 29
  IF_TO_A := 30
  IF_AC := 31
  IF_DD_DS := 32
  OF_SHOW_MODS := 40
  OF_SHOW_CURSE := 41
  IDENT_KNOWN := 0x08
  IDENT_WORN := 0x20
  IDENT_CURSED := 0x40
  IDENT_UNCURSED := 0x80
  IDENT_KNOW_CURSES := 0x100
  INVEN_WIELD := 24
  INVEN_LEFT := 26
  INVEN_RIGHT := 27
  INVEN_NECK := 28
  INVEN_LITE := 29
  INVEN_FEET := 35
  PN_COMBINE := 0x01
  PN_REORDER := 0x02
  PR_INVEN := 0x01
  PR_EQUIP := 0x02
  PR_BASIC := 0x04
  PR_EXTRA := 0x08
  wield_slot := sample_wield_slot
  is_weapon := fun o => decide (o.tval = 23)
  is_armour := fun o => decide (o.tval = 36)
  identify_object := sample_identify_object
  handle_stuff := sample_handle_stuff

/-- An item of kind class `tval` with every numeric property neutral, no
flags, no template, nothing known and no status bit. -/
def plain_item (tval : Nat) : object_type where
  k_idx := 1
  name1 := 0
  name2 := 0
  tval := tval
  percent_res := fun _ => 100
  bonus_stat := fun _ => 0
  bonus_other := fun _ => 0
  multiple_slay := fun _ => 10
  multiple_brand := fun _ => 10
  to_h := 0
  to_d := 0
  to_a := 0
  ac := 0
  flags_obj := ∅
  flags_curse := ∅
  id_curse := ∅
  id_obj := ∅
  id_other := ∅
  ident := 0

/-- An ego template with no flags and neutral values. -/
def plain_ego (everseen : Bool) : ego_item_type where
  flags_obj := ∅
  flags_curse := ∅
  id_curse := ∅
  id_obj := ∅
  id_other := ∅
  percent_res := fun _ => 100
  multiple_slay := fun _ => 10
  multiple_brand := fun _ => 10
  everseen := everseen

/-- An ego template that has been seen and whose acid resistance deviates. -/
def seen_ego : ego_item_type :=
  { plain_ego true with percent_res := fun j => if j = 0 then 60 else 100 }

/-- Template table with `seen_ego` at every index. -/
def seen_table : Nat → ego_item_type := fun _ => seen_ego

/-- Template table whose templates have never been seen. -/
def unseen_table : Nat → ego_item_type := fun _ => plain_ego false

/-- An ego ring carrying object flags 1 and 2 of which the player knows 2, next
to flag 3 (noticed on the whole body) and the template's acid bit; flag 1 and
the dice bit are not known. -/
def ring_partly_known : object_type :=
  { plain_item 45 with name2 := 1, flags_obj := {1, 2}, id_obj := {2, 3}, id_other := {1} }

/-- An ego sword with object flag 1 unknown; of its other-property signature
(to-hit 28, to-damage 29, dice 32) only to-hit is known, with the template's
acid bit. -/
def sword_partly_known : object_type :=
  { plain_item 23 with name2 := 1, flags_obj := {1}, id_obj := {2}, id_other := {1, 28} }

/-- A ring with a +1 bonus to the first stat and object flag 5, every flag and
the whole other-property signature known, never worn. -/
def unworn_ring_of_strength : object_type :=
  { plain_item 45 with
    bonus_stat := fun j => if j = 0 then 1 else 0
    flags_obj := {5}, id_obj := {5}, id_other := {32} }

/-- The same ring once it is marked worn (`IDENT_WORN = 0x20`). -/
def worn_ring_of_strength : object_type :=
  { unworn_ring_of_strength with ident := 0x20 }

/-- A never-worn ring with a +1 stat bonus whose known sets hold more than its
actual flags, so that the two subset tests of `known_really` let it through. -/
def unworn_ring_overknown : object_type :=
  { unworn_ring_of_strength with id_obj := {5, 6}, id_other := {1, 32} }

/-- An ego sword flagged fully identified (`IDENT_KNOWN = 0x08`). -/
def identified_ego_sword : object_type :=
  { plain_item 23 with name2 := 1, ident := 0x08 }

/-- An ego sword, not identified, of which the player knows curse 4. -/
def curse_known_ego_sword : object_type :=
  { plain_item 23 with name2 := 1, flags_curse := {4}, id_curse := {4} }

/-! ## Vocabulary of the statements -/

/-- The known-curse, known-object-flag and known-other sets of `o` are
contained in those of `o2`. -/
def known_le (o o2 : object_type) : Prop :=
  o.id_curse ⊆ o2.id_curse ∧ o.id_obj ⊆ o2.id_obj ∧ o.id_other ⊆ o2.id_other

/-- From `s` to `t` no knowledge is retracted: the known sets of every
inventory slot and floor object, and the player-wide aggregate sets, of `s` are
contained in those of `t`. -/
def knowledge_le (s t : State) : Prop :=
  (∀ r : ObjRef, known_le (s.obj r) (t.obj r)) ∧
    s.p_ptr.id_obj ⊆ t.p_ptr.id_obj ∧ s.p_ptr.id_other ⊆ t.p_ptr.id_other

/-- Assumption on the two collaborators called by the notice operations:
neither `handle_stuff` nor `identify_object` retracts knowledge. -/
def Env.keeps_knowledge (E : Env) : Prop :=
  (∀ s : State, knowledge_le s (E.handle_stuff s)) ∧
    ∀ (r : ObjRef) (s : State), knowledge_le s (E.identify_object r s)

/-- A call of one of the three notice operations. -/
inductive NoticeCall where
  /-- Call `notice_curse(flag, item)`. -/
  | curse (flag : Nat) (item : Int)
  /-- Call `notice_obj(flag, item)`. -/
  | obj (flag : Nat) (item : Int)
  /-- Call `notice_other(flag, item)`. -/
  | other (flag : Nat) (item : Int)

/-- Effect of a notice call on the state. -/
def NoticeCall.run (E : Env) (c : NoticeCall) (s : State) : State :=
  match c with
  | .curse flag item => notice_curse E flag item s
  | .obj flag item => notice_obj E flag item s
  | .other flag item => notice_other E flag item s

/-- Effect of a sequence of notice calls, first call first. -/
def run_calls (E : Env) (calls : List NoticeCall) (s : State) : State :=
  calls.foldl (fun s c => c.run E s) s

/-- A state in which every slot and floor object is `o`, with the template
table `tbl`, empty aggregate sets, no pending request and no message. -/
def uniform_state (o : object_type) (tbl : Nat → ego_item_type) : State where
  p_ptr := { inventory := fun _ => o, id_obj := ∅, id_other := ∅, notice := 0, redraw := 0 }
  o_list := fun _ => o
  e_info := tbl
  k_info := fun _ => { to_h := 0 }
  messages := []

/-- The state once `notice_curse` has applied its evidence to the object `r`
points at: the evidence is applied when the object carries the curse. -/
def curse_step (E : Env) (curse_flag : Nat) (r : ObjRef) (s : State) : State :=
  if flag_has (s.obj r).flags_curse curse_flag then curse_evidence E curse_flag r s else s

/-- The ego inference for the object `r` points at is false in `s0` and true
in `s1`. -/
def ego_transition (E : Env) (s0 s1 : State) (r : ObjRef) : Prop :=
  has_ego_properties E s0.e_info (s0.obj r) = false ∧
    has_ego_properties E s1.e_info (s1.obj r) = true

/-- In `t` the known-object-flag set of the object `r` points at contains the
full object-flag set of the ego template that object has in `s0`. -/
def promoted (s0 : State) (r : ObjRef) (t : State) : Prop :=
  (s0.e_info (s0.obj r).name2).flags_obj ⊆ (t.obj r).id_obj

/-- From `s` to `t` neither the template table nor the template index of any
object has changed. -/
def same_templates (s t : State) : Prop :=
  t.e_info = s.e_info ∧ ∀ r : ObjRef, (t.obj r).name2 = (s.obj r).name2

/-- An ego sword that carries curse 4, unknown so far, with nothing known. -/
def cursed_ego_sword : object_type :=
  { plain_item 23 with name2 := 1, flags_curse := {4} }

/-- An ego template that has been seen, with object flags 7 and 8 and curse 4
as identification clue. -/
def cursing_ego : ego_item_type :=
  { plain_ego true with flags_obj := {7, 8}, flags_curse := {4}, id_curse := {4} }

/-- A state whose slots all hold `cursed_ego_sword`, with `cursing_ego` as
every template. -/
def cursed_sword_state : State := uniform_state cursed_ego_sword (fun _ => cursing_ego)

/-- Every bit of `mask` is set in the status word `x`. -/
def has_bits (x mask : Nat) : Prop := x &&& mask = mask

/-- From `s` to `t` no ego inference is lost: an object for which
`has_ego_properties` is true in `s` still has it true in `t`. -/
def inference_le (E : Env) (s t : State) : Prop :=
  ∀ r : ObjRef, has_ego_properties E s.e_info (s.obj r) = true →
    has_ego_properties E t.e_info (t.obj r) = true

/-- Assumption on the two collaborators called by the notice operations:
neither `handle_stuff` nor `identify_object` turns a true ego inference false. -/
def Env.keeps_inference (E : Env) : Prop :=
  (∀ s : State, inference_le E s (E.handle_stuff s)) ∧
    ∀ (r : ObjRef) (s : State), inference_le E s (E.identify_object r s)

/-- The indices of the other-property flags are pairwise distinct: the resist,
slay and brand ranges do not overlap each other, and the five single flags
`IF_TO_H`, `IF_TO_D`, `IF_TO_A`, `IF_AC`, `IF_DD_DS` lie outside the ranges and
differ from each other. -/
def Env.other_flags_distinct (E : Env) : Prop :=
  (∀ j k, j < E.MAX_P_RES → k < E.MAX_P_SLAY →
      E.OBJECT_ID_BASE_RESIST + j ≠ E.OBJECT_ID_BASE_SLAY + k) ∧
    (∀ j k, j < E.MAX_P_RES → k < E.MAX_P_BRAND →
      E.OBJECT_ID_BASE_RESIST + j ≠ E.OBJECT_ID_BASE_BRAND + k) ∧
    (∀ j k, j < E.MAX_P_SLAY → k < E.MAX_P_BRAND →
      E.OBJECT_ID_BASE_SLAY + j ≠ E.OBJECT_ID_BASE_BRAND + k) ∧
    (∀ f, f ∈ [E.IF_TO_H, E.IF_TO_D, E.IF_TO_A, E.IF_AC, E.IF_DD_DS] →
      (∀ j, j < E.MAX_P_RES → E.OBJECT_ID_BASE_RESIST + j ≠ f) ∧
      (∀ j, j < E.MAX_P_SLAY → E.OBJECT_ID_BASE_SLAY + j ≠ f) ∧
      (∀ j, j < E.MAX_P_BRAND → E.OBJECT_ID_BASE_BRAND + j ≠ f)) ∧
    [E.IF_TO_H, E.IF_TO_D, E.IF_TO_A, E.IF_AC, E.IF_DD_DS].Nodup

/-- Kind table in which every kind has the expected to-hit `to_h`. -/
def kinds_with_to_h (to_h : Int) : Nat → object_kind := fun _ => { to_h := to_h }

/-- A dagger-like weapon with to-hit -2 and to-damage +1, nothing else. -/
def clumsy_blade : object_type := { plain_item 23 with to_h := -2, to_d := 1 }

/-- A weapon with to-hit +1 and to-damage +1, nothing else. -/
def keen_blade : object_type := { plain_item 23 with to_h := 1, to_d := 1 }

/-- An ordinary body armour with to-armor +2, nothing else. -/
def padded_armour : object_type := { plain_item 36 with to_a := 2 }

/-- An artifact weapon that carries curse 4 and has to-armor -1. -/
def cursed_artifact_blade : object_type :=
  { plain_item 23 with name1 := 1, flags_curse := {4}, to_a := -1 }

/-- An ego weapon without any negative property. -/
def sound_ego_blade : object_type := { plain_item 23 with name2 := 1 }

/-- An ego weapon that carries curse 4. -/
def perilous_ego_blade : object_type := { plain_item 23 with name2 := 1, flags_curse := {4} }

/-- A ring that is no weapon, with to-hit and to-damage 0, carrying the object
flag `OF_SHOW_MODS` (40 in the concrete environment). -/
def show_mods_ring : object_type := { plain_item 45 with flags_obj := {40} }

/-- A ring with a -1 bonus to the first stat, nothing else. -/
def weakening_ring : object_type :=
  { plain_item 45 with bonus_stat := fun j => if j = 0 then -1 else 0 }

/-- A light source, nothing else (kind class 39, slot 29 `INVEN_LITE`). -/
def plain_torch : object_type := plain_item 39

/-- An item that cannot be wielded (kind class 75). -/
def plain_potion : object_type := plain_item 75

/-- A ring whose first percentage resistance is 60 instead of the neutral
100, nothing else. -/
def acid_ring : object_type :=
  { plain_item 45 with percent_res := fun j => if j = 0 then 60 else 100 }

/-- A weapon, no armour, with base armour class 1 and to-armor 0. -/
def guarding_blade : object_type := { plain_item 23 with ac := 1 }

/-- A ring, no armour, with to-armor +3 and base armour class 0. -/
def protection_ring : object_type := { plain_item 45 with to_a := 3 }

/-- Assumption on `handle_stuff`: it serves pending requests and leaves every
object, the template table and the player-wide aggregate sets as they are. -/
def Env.handle_stuff_quiet (E : Env) : Prop :=
  ∀ s : State, (∀ r : ObjRef, (E.handle_stuff s).obj r = s.obj r) ∧
    (E.handle_stuff s).e_info = s.e_info ∧
    (E.handle_stuff s).p_ptr.id_obj = s.p_ptr.id_obj ∧
    (E.handle_stuff s).p_ptr.id_other = s.p_ptr.id_other

/-- Assumption on `handle_stuff`: the request words it leaves behind are a
function of the request words it finds (`gn` for `notice`, `gr` for `redraw`),
and requests that it has served stay served when requests are added anew. -/
def Env.handle_stuff_serves (E : Env) : Prop :=
  ∃ gn gr : Nat → Nat,
    (∀ s : State, (E.handle_stuff s).p_ptr.notice = gn s.p_ptr.notice ∧
      (E.handle_stuff s).p_ptr.redraw = gr s.p_ptr.redraw) ∧
    (∀ x m : Nat, gn (gn x ||| m) = gn (x ||| m)) ∧
    (∀ x m : Nat, gr (gr x ||| m) = gr (x ||| m))

/-- An ego template that has been seen, carrying the marker `OF_SHOW_CURSE`
(41 in the concrete environment) next to object flag 7, with curse 4, and
deviating in the first resist and the second brand. -/
def show_curse_ego : ego_item_type :=
  { plain_ego true with
    flags_obj := {7, 41}, flags_curse := {4}
    percent_res := fun j => if j = 0 then 60 else 100
    multiple_brand := fun j => if j = 1 then 20 else 10 }

/-- A state whose slots all hold `cursed_ego_sword`, with `show_curse_ego` as
every template. -/
def show_curse_state : State := uniform_state cursed_ego_sword (fun _ => show_curse_ego)

/-- From `s` to `t` the player-wide aggregate sets have not changed. -/
def same_aggregate (s t : State) : Prop :=
  t.p_ptr.id_obj = s.p_ptr.id_obj ∧ t.p_ptr.id_other = s.p_ptr.id_other

/-- Assumption on the two collaborators called by the notice operations:
neither `handle_stuff` nor `identify_object` writes the player-wide aggregate
sets. -/
def Env.leaves_aggregate (E : Env) : Prop :=
  (∀ s : State, same_aggregate s (E.handle_stuff s)) ∧
    ∀ (r : ObjRef) (s : State), same_aggregate s (E.identify_object r s)

/-- From `s` to `t` no status bit of any object is cleared. -/
def status_le (s t : State) : Prop :=
  ∀ (r : ObjRef) (mask : Nat), has_bits (s.obj r).ident mask → has_bits (t.obj r).ident mask

/-- Assumption on the two collaborators called by the notice operations:
neither `handle_stuff` nor `identify_object` clears a status bit of an object. -/
def Env.keeps_status_bits (E : Env) : Prop :=
  (∀ s : State, status_le s (E.handle_stuff s)) ∧
    ∀ (r : ObjRef) (s : State), status_le s (E.identify_object r s)

/-- A state in which the left ring slot (26) holds `acid_ring` and every other
slot and floor object a plain item of kind class 0; nothing is known. -/
def ring_worn_state : State where
  p_ptr :=
    { inventory := fun i => if i = 26 then acid_ring else plain_item 0
      id_obj := ∅, id_other := ∅, notice := 0, redraw := 0 }
  o_list := fun _ => plain_item 0
  e_info := fun _ => plain_ego false
  k_info := fun _ => { to_h := 0 }
  messages := []

/-- The object `o2` agrees with `o` on every field but the known sets and the
status word: kind, artifact and template indices, numeric properties, actual
object flags and actual curses. -/
structure same_actual (o o2 : object_type) : Prop where
  k_idx : o2.k_idx = o.k_idx
  name1 : o2.name1 = o.name1
  name2 : o2.name2 = o.name2
  tval : o2.tval = o.tval
  percent_res : o2.percent_res = o.percent_res
  bonus_stat : o2.bonus_stat = o.bonus_stat
  bonus_other : o2.bonus_other = o.bonus_other
  multiple_slay : o2.multiple_slay = o.multiple_slay
  multiple_brand : o2.multiple_brand = o.multiple_brand
  to_h : o2.to_h = o.to_h
  to_d : o2.to_d = o.to_d
  to_a : o2.to_a = o.to_a
  ac : o2.ac = o.ac
  flags_obj : o2.flags_obj = o.flags_obj
  flags_curse : o2.flags_curse = o.flags_curse

/-- Assumption on the helpers `is_weapon`, `is_armour` and `wield_slot`: their
result depends on the actual fields of the object only, not on what is known
of it. -/
def Env.helpers_read_actual (E : Env) : Prop :=
  ∀ o o2 : object_type, same_actual o o2 →
    E.is_weapon o2 = E.is_weapon o ∧ E.is_armour o2 = E.is_armour o ∧
      E.wield_slot o2 = E.wield_slot o

/-- Assumption on the two collaborators called by the notice operations:
neither `handle_stuff` nor `identify_object` changes an actual field of an
object. -/
def Env.keeps_actual (E : Env) : Prop :=
  (∀ (s : State) (r : ObjRef), same_actual (s.obj r) ((E.handle_stuff s).obj r)) ∧
    ∀ (r0 : ObjRef) (s : State) (r : ObjRef),
      same_actual (s.obj r) ((E.identify_object r0 s).obj r)

/-- Assumption on the two collaborators called by the notice operations:
`handle_stuff` makes no object functionally known, and `identify_object`, called
on a functionally known object, leaves that object not functionally known and
makes no other object functionally known. -/
def Env.keeps_unsettled (E : Env) : Prop :=
  (∀ (s : State) (r : ObjRef),
      known_really E (E.handle_stuff s).e_info ((E.handle_stuff s).obj r) = true →
        known_really E s.e_info (s.obj r) = true) ∧
    ∀ (r0 : ObjRef) (s : State), known_really E s.e_info (s.obj r0) = true →
      ∀ r : ObjRef,
        known_really E (E.identify_object r0 s).e_info ((E.identify_object r0 s).obj r) = true →
          r ≠ r0 ∧ known_really E s.e_info (s.obj r) = true

/-- The test of one loop of `notice_other` in closed form: the flag `f` is the
flag `first + j` of an index `j` below `n` whose value deviates. -/
def deviation_noticed (n : Nat) (vals : Nat → Int) (neutral : Int) (first f : Nat) : Bool :=
  decide (first ≤ f ∧ f - first < n ∧ vals (f - first) ≠ neutral)

/-- One of the three loops of `notice_other` marks the flag `f` on `o`. -/
def rsb_noticed (E : Env) (o : object_type) (f : Nat) : Bool :=
  deviation_noticed E.MAX_P_RES o.percent_res E.RES_LEVEL_BASE E.OBJECT_ID_BASE_RESIST f ||
    deviation_noticed E.MAX_P_SLAY o.multiple_slay E.MULTIPLE_BASE E.OBJECT_ID_BASE_SLAY f ||
    deviation_noticed E.MAX_P_BRAND o.multiple_brand E.MULTIPLE_BASE E.OBJECT_ID_BASE_BRAND f

/-- The block "Others" of `notice_other` marks the flag `f` on `o`. -/
def misc_noticed (E : Env) (o : object_type) (f : Nat) : Bool :=
  (f = E.IF_TO_H && (o.to_h ≠ 0 || E.is_weapon o)) ||
    (f = E.IF_TO_D && (o.to_d ≠ 0 || E.is_weapon o)) ||
    (f = E.IF_TO_A && (o.ac ≠ 0 || E.is_armour o)) ||
    (f = E.IF_AC && (o.ac ≠ 0 || E.is_armour o)) ||
    f = E.IF_DD_DS

/-- The evidence of `notice_other` marks the flag `f` on `o`. -/
def notice_rule (E : Env) (o : object_type) (f : Nat) : Bool :=
  rsb_noticed E o f || misc_noticed E o f

/-- One of the three loops of `notice_other` runs its inner statement for the
flag `f` on `o`: the loop marks the flag and its inner test `sensed` holds of
the index. -/
def sensed_fired (E : Env) (sensed : Nat → Bool) (o : object_type) (f : Nat) : Bool :=
  (deviation_noticed E.MAX_P_RES o.percent_res E.RES_LEVEL_BASE E.OBJECT_ID_BASE_RESIST f &&
      sensed (f - E.OBJECT_ID_BASE_RESIST)) ||
    (deviation_noticed E.MAX_P_SLAY o.multiple_slay E.MULTIPLE_BASE E.OBJECT_ID_BASE_SLAY f &&
      sensed (f - E.OBJECT_ID_BASE_SLAY)) ||
    (deviation_noticed E.MAX_P_BRAND o.multiple_brand E.MULTIPLE_BASE E.OBJECT_ID_BASE_BRAND f &&
      sensed (f - E.OBJECT_ID_BASE_BRAND))

/-- The object `o` with the flag `f` marked known: the effect of
`if_on(o_ptr->id_other, f)` on the object. -/
def marked_other (f : Nat) (o : object_type) : object_type :=
  { o with id_other := flag_on o.id_other f }

/-- One guarded marking of `notice_other`: when the test `c` holds of the
object, the flag `f` is marked known on it and, when `a` holds as well, the
inner statement `extra` runs. -/
def notice_stage (c : object_type → Bool) (a : Bool) (f : Nat) (extra : State → State)
    (r : ObjRef) (s : State) : State :=
  if c (s.obj r) then
    (if a then extra (other_extra_body f r s) else other_extra_body f r s)
  else s

/-- A sequence of guarded markings, run in order. -/
def run_stages (l : List ((object_type → Bool) × Bool)) (f : Nat) (extra : State → State)
    (r : ObjRef) (s : State) : State :=
  l.foldl (fun s p => notice_stage p.1 p.2 f extra r s) s

/-- The guarded markings that make up the evidence of `notice_other` for the
flag `f`: the three loops, with the inner test `sensed` of the index, and the
five tests of the block "Others". -/
def evidence_stages (E : Env) (f : Nat) (sensed : Nat → Bool) :
    List ((object_type → Bool) × Bool) :=
  [(fun o => deviation_noticed E.MAX_P_RES o.percent_res E.RES_LEVEL_BASE
      E.OBJECT_ID_BASE_RESIST f, sensed (f - E.OBJECT_ID_BASE_RESIST)),
   (fun o => deviation_noticed E.MAX_P_SLAY o.multiple_slay E.MULTIPLE_BASE
      E.OBJECT_ID_BASE_SLAY f, sensed (f - E.OBJECT_ID_BASE_SLAY)),
   (fun o => deviation_noticed E.MAX_P_BRAND o.multiple_brand E.MULTIPLE_BASE
      E.OBJECT_ID_BASE_BRAND f, sensed (f - E.OBJECT_ID_BASE_BRAND)),
   (fun o => f = E.IF_TO_H && (o.to_h ≠ 0 || E.is_weapon o), false),
   (fun o => f = E.IF_TO_D && (o.to_d ≠ 0 || E.is_weapon o), false),
   (fun o => f = E.IF_TO_A && (o.ac ≠ 0 || E.is_armour o), false),
   (fun o => f = E.IF_AC && (o.ac ≠ 0 || E.is_armour o), false),
   (fun _ => f = E.IF_DD_DS, false)]

/-- What the statements about the evidence of `notice_other` need of the inner
statement `extra` of its loops, for the flag `f` and the object `r` points at:
it retracts no knowledge and changes no template, it leaves the object as it is
or marks `f` on it, it leaves every other object as it is, and it establishes a
condition `Q` that later knowledge keeps and under which it changes nothing. -/
structure extra_spec (f : Nat) (r : ObjRef) (extra : State → State) (Q : State → Prop) :
    Prop where
  keeps : ∀ t, knowledge_le t (extra t)
  templates : ∀ t, same_templates t (extra t)
  target : ∀ t, (extra t).obj r = t.obj r ∨ (extra t).obj r = marked_other f (t.obj r)
  others : ∀ t r2, r2 ≠ r → (extra t).obj r2 = t.obj r2
  reaches : ∀ t, Q (extra t)
  mono : ∀ t u, knowledge_le t u → Q t → Q u
  fixes : ∀ t, Q t → extra t = t

/-- A second run of the body of `notice_other` for the flag `f` finds nothing to
do on the object `r` points at: the flag is known where the evidence marks it,
the condition `Q` of the inner statement holds where that statement runs, and
the object is not functionally known. -/
def evidence_settled (E : Env) (f : Nat) (sensed : Nat → Bool) (Q : State → Prop)
    (r : ObjRef) (s : State) : Prop :=
  (notice_rule E (s.obj r) f = true → f ∈ (s.obj r).id_other) ∧
    (sensed_fired E sensed (s.obj r) f = true → Q s) ∧
    known_really E s.e_info (s.obj r) = false

/-- An ego sword, not identified, of which the player knows curse 4 and
object flag 7. -/
def curse_and_flag_known_ego_sword : object_type :=
  { curse_known_ego_sword with id_obj := {7} }

/-- The template `e2` agrees with `e` on every field but `everseen`: the flag
sets, the identification sets and the numeric values. -/
structure same_template (e e2 : ego_item_type) : Prop where
  flags_obj : e2.flags_obj = e.flags_obj
  flags_curse : e2.flags_curse = e.flags_curse
  id_curse : e2.id_curse = e.id_curse
  id_obj : e2.id_obj = e.id_obj
  id_other : e2.id_other = e.id_other
  percent_res : e2.percent_res = e.percent_res
  multiple_slay : e2.multiple_slay = e.multiple_slay
  multiple_brand : e2.multiple_brand = e.multiple_brand

/-- From `s` to `t` only knowledge has changed: every inventory slot and floor
object has its actual fields, and every ego template its fields other than
`everseen`. -/
def only_knowledge (s t : State) : Prop :=
  (∀ r : ObjRef, same_actual (s.obj r) (t.obj r)) ∧
    ∀ n : Nat, same_template (s.e_info n) (t.e_info n)

/-- Assumption on the two collaborators called by the notice operations:
`handle_stuff` and `identify_object` change only knowledge. -/
def Env.changes_only_knowledge (E : Env) : Prop :=
  (∀ s : State, only_knowledge s (E.handle_stuff s)) ∧
    ∀ (r : ObjRef) (s : State), only_knowledge s (E.identify_object r s)

/-- From `s` to `t` the known-object-flag set of every object has gained at
most actual object flags of the object, the flag `f` and, for an object with an
ego template, the object flags of that template. -/
def object_flags_within (f : Nat) (s t : State) : Prop :=
  ∀ r : ObjRef, (t.obj r).id_obj ⊆ (s.obj r).id_obj ∪ (s.obj r).flags_obj ∪
    insert f (if (s.obj r).name2 = 0 then ∅ else (s.e_info (s.obj r).name2).flags_obj)

/-- Assumption on the two collaborators called by the notice operations: what
`handle_stuff` and `identify_object` add to the known-object-flag set of an
object are actual object flags of that object. -/
def Env.learns_actual_flags (E : Env) : Prop :=
  (∀ (s : State) (r : ObjRef),
      ((E.handle_stuff s).obj r).id_obj ⊆ (s.obj r).id_obj ∪ (s.obj r).flags_obj) ∧
    ∀ (r0 : ObjRef) (s : State) (r : ObjRef),
      ((E.identify_object r0 s).obj r).id_obj ⊆ (s.obj r).id_obj ∪ (s.obj r).flags_obj

/-- Assumption on the two collaborators called by the notice operations:
`handle_stuff` changes no object, and `identify_object` changes no object but
the one it is called on. -/
def Env.touches_target_only (E : Env) : Prop :=
  (∀ (s : State) (r : ObjRef), (E.handle_stuff s).obj r = s.obj r) ∧
    ∀ (r0 : ObjRef) (s : State) (r : ObjRef), r ≠ r0 →
      (E.identify_object r0 s).obj r = s.obj r

/-- An ego template that has been seen, with object flags 7 and 8 and curse 4
among its actual flags and with empty identification sets. -/
def curse_flag_ego : ego_item_type :=
  { plain_ego true with flags_obj := {7, 8}, flags_curse := {4} }

/-- A state whose slots all hold `cursed_ego_sword`, with `curse_flag_ego` as
every template. -/
def curse_flag_state : State := uniform_state cursed_ego_sword (fun _ => curse_flag_ego)

/-- Assumption on the two collaborators called by the notice operations:
`handle_stuff` leaves the template table as it is, and so does
`identify_object` when it is called on a functionally known object. -/
def Env.leaves_templates (E : Env) : Prop :=
  (∀ s : State, (E.handle_stuff s).e_info = s.e_info) ∧
    ∀ (r : ObjRef) (s : State), known_really E s.e_info (s.obj r) = true →
      (E.identify_object r s).e_info = s.e_info

/-! ## Theorems: the full-knowledge evaluator -/

/-- Characterisation of `has_bonuses`: some stat bonus or some other bonus
within the scanned ranges is nonzero. -/
theorem has_bonuses_iff (E : Env) (o : object_type) :
    has_bonuses E o = true ↔
      (∃ j, j < E.A_MAX ∧ o.bonus_stat j ≠ 0) ∨ (∃ j, j < E.MAX_P_BONUS ∧ o.bonus_other j ≠ 0) := by
  unfold has_bonuses
  by_cases h1 : (List.range E.A_MAX).any (fun j => o.bonus_stat j ≠ 0) = true
  · simp only [h1, if_true, true_iff]
    left
    simpa [List.any_eq_true] using h1
  · by_cases h2 : (List.range E.MAX_P_BONUS).any (fun j => o.bonus_other j ≠ 0) = true
    · simp only [h2, if_true, ite_self, true_iff]
      right
      simpa [List.any_eq_true] using h2
    · simp only [h1, h2, if_false]
      simp only [List.any_eq_true, List.mem_range, decide_eq_true_eq, not_exists, not_and] at h1 h2
      constructor
      · intro h; cases h
      · rintro (⟨j, hj, hne⟩ | ⟨j, hj, hne⟩)
        · exact absurd hne (h1 j hj)
        · exact absurd hne (h2 j hj)

/-- C1 (violated by the code): `known_really` answers true for an ego ring
whose actual object flag 1 is not in its known-object-flag set.  The test at
line 340 returns FALSE when `of_is_subset(id_obj, flags_obj)` holds instead of
when containment fails; the two sets of this ring are incomparable, so the
outcome is the same with the other operand order of the macro (last part). -/
theorem known_really_true_with_unknown_object_flag :
    known_really sample_env seen_table ring_partly_known = true ∧
      1 ∈ ring_partly_known.flags_obj ∧ 1 ∉ ring_partly_known.id_obj ∧
      ¬ ring_partly_known.flags_obj ⊆ ring_partly_known.id_obj ∧
      known_really_swapped sample_env seen_table ring_partly_known = true := by
  decide

/-- C2 (violated by the code): `known_really` answers true for an ego sword
whose other-property signature holds the to-damage bit 29 and the dice bit 32
while its known-other set holds neither.  The test at line 344 returns FALSE
when `if_is_subset(id_other, otherflags)` holds instead of when containment
fails; the two sets are incomparable here, and the outcome is the same with the
other operand order of the macro (last part). -/
theorem known_really_true_with_unknown_other_flag :
    known_really sample_env seen_table sword_partly_known = true ∧
      flags_other sample_env sword_partly_known = {28, 29, 32} ∧
      sword_partly_known.id_other = {1, 28} ∧
      ¬ flags_other sample_env sword_partly_known ⊆ sword_partly_known.id_other ∧
      known_really_swapped sample_env seen_table sword_partly_known = true := by
  decide

/-- C3 (violated by the code): the ring with a +1 stat bonus whose flags and
other-property signature are all known is wieldable, not fully identified,
has no ego template, and `known_really` is false for it both before and after
it is marked worn, also with the other operand order of the subset macros
(last part). -/
theorem known_really_false_for_worn_known_ring :
    0 ≤ sample_env.wield_slot worn_ring_of_strength ∧
      worn_ring_of_strength.ident &&& sample_env.IDENT_KNOWN = 0 ∧
      worn_ring_of_strength.ident &&& sample_env.IDENT_WORN ≠ 0 ∧
      worn_ring_of_strength.name2 = 0 ∧
      worn_ring_of_strength.flags_obj ⊆ worn_ring_of_strength.id_obj ∧
      flags_other sample_env worn_ring_of_strength ⊆ worn_ring_of_strength.id_other ∧
      known_really sample_env seen_table unworn_ring_of_strength = false ∧
      known_really sample_env seen_table worn_ring_of_strength = false ∧
      known_really_swapped sample_env seen_table worn_ring_of_strength = false := by
  decide

/-- C4: an item with a nonzero stat bonus or other bonus whose `IDENT_WORN`
bit is clear is never functionally known, whatever its known sets hold. -/
theorem known_really_false_of_unworn_bonus (E : Env) (e_info : Nat → ego_item_type)
    (o : object_type)
    (hb : (∃ j, j < E.A_MAX ∧ o.bonus_stat j ≠ 0) ∨
      (∃ j, j < E.MAX_P_BONUS ∧ o.bonus_other j ≠ 0))
    (hw : o.ident &&& E.IDENT_WORN = 0) :
    known_really E e_info o = false := by
  have hbon : has_bonuses E o = true := (has_bonuses_iff E o).2 hb
  unfold known_really
  simp only [hbon, hw]
  split_ifs <;> simp_all

/-- Witness for C4: a never-worn ring with a +1 stat bonus whose known sets
exceed its actual flags. -/
theorem known_really_false_of_unworn_bonus_witness :
    ((∃ j, j < sample_env.A_MAX ∧ unworn_ring_overknown.bonus_stat j ≠ 0) ∨
      (∃ j, j < sample_env.MAX_P_BONUS ∧ unworn_ring_overknown.bonus_other j ≠ 0)) ∧
      unworn_ring_overknown.ident &&& sample_env.IDENT_WORN = 0 ∧
      known_really sample_env seen_table unworn_ring_overknown = false :=
  ⟨Or.inl ⟨0, by decide, by decide⟩, by decide,
    known_really_false_of_unworn_bonus sample_env seen_table unworn_ring_overknown
      (Or.inl ⟨0, by decide, by decide⟩) (by decide)⟩

/-- C5: `known_really` is false for an item flagged fully identified, for an
item without equipment slot, and for an item whose ego template has not been
seen; hence the step "Fully identified now?" of the notice operations leaves
the state as it is, without calling `identify_object`, for such an item. -/
theorem known_really_false_of_known_or_unwieldable_or_unseen (E : Env)
    (e_info : Nat → ego_item_type) (o : object_type)
    (h : o.ident &&& E.IDENT_KNOWN ≠ 0 ∨ E.wield_slot o < 0 ∨
      (o.name2 ≠ 0 ∧ (e_info o.name2).everseen = false)) :
    known_really E e_info o = false ∧
      ∀ (r : ObjRef) (s : State), s.e_info = e_info → s.obj r = o →
        fully_identified_now E r s = s := by
  have hk : known_really E e_info o = false := by
    unfold known_really
    rcases h with h | h | ⟨h1, h2⟩
    · simp only [h]
      split_ifs <;> simp_all
    · simp only [h]
      split_ifs <;> simp_all
    · simp [h1, h2]
  refine ⟨hk, ?_⟩
  intro r s he ho
  unfold fully_identified_now
  rw [he, ho, hk]
  simp

/-- Witness for C5: an ego sword flagged fully identified. -/
theorem known_really_false_of_known_or_unwieldable_or_unseen_witness :
    identified_ego_sword.ident &&& sample_env.IDENT_KNOWN ≠ 0 ∧
      known_really sample_env seen_table identified_ego_sword = false :=
  ⟨by decide,
    (known_really_false_of_known_or_unwieldable_or_unseen sample_env seen_table
      identified_ego_sword (Or.inl (by decide))).1⟩

/-! ## Theorems: ego inference -/

/-- C6 (as stated, refuted): an ego sword, not fully identified, whose template
has been seen and whose known-curse set holds curse 4, a curse of the
template's curse-flag set, is not reported as having ego properties: the
template's identification curse set `id_curse`, which line 188 intersects with,
is empty. -/
theorem has_ego_properties_false_on_curse_flag_match :
    curse_known_ego_sword.name2 ≠ 0 ∧
      curse_known_ego_sword.ident &&& sample_env.IDENT_KNOWN = 0 ∧
      curse_flag_ego.everseen = true ∧
      (curse_known_ego_sword.id_curse ∩ curse_flag_ego.flags_curse).Nonempty ∧
      has_ego_properties sample_env (fun _ => curse_flag_ego) curse_known_ego_sword = false := by
  decide

/-- C6, amended: `has_ego_properties` is true exactly when the item has an ego
template and either is flagged fully identified, or the template has been seen
and one of the item's known-curse, known-object-flag and known-other sets meets
the corresponding identification set of the template (`id_curse`, `id_obj`,
`id_other` of `e_info[name2]`). -/
theorem has_ego_properties_iff (E : Env) (e_info : Nat → ego_item_type) (o : object_type) :
    has_ego_properties E e_info o = true ↔
      o.name2 ≠ 0 ∧
        (o.ident &&& E.IDENT_KNOWN ≠ 0 ∨
          ((e_info o.name2).everseen = true ∧
            ((o.id_curse ∩ (e_info o.name2).id_curse).Nonempty ∨
              (o.id_obj ∩ (e_info o.name2).id_obj).Nonempty ∨
              (o.id_other ∩ (e_info o.name2).id_other).Nonempty))) := by
  unfold has_ego_properties flag_is_inter
  simp only [Finset.inter_comm (e_info o.name2).id_curse, Finset.inter_comm (e_info o.name2).id_obj,
    Finset.inter_comm (e_info o.name2).id_other]
  split_ifs <;> simp_all

/-- C7 (as stated, refuted): an ego sword flagged fully identified whose
template has `everseen = false` is reported as having ego properties. -/
theorem has_ego_properties_true_for_identified_unseen :
    identified_ego_sword.name2 ≠ 0 ∧
      (unseen_table identified_ego_sword.name2).everseen = false ∧
      has_ego_properties sample_env unseen_table identified_ego_sword = true := by
  decide

/-- C7 (amended): for an ego item that is not flagged fully identified and
whose template has `everseen = false`, `has_ego_properties` is false whatever
the known-curse, known-object-flag and known-other sets hold. -/
theorem has_ego_properties_false_of_unseen (E : Env) (e_info : Nat → ego_item_type)
    (o : object_type) (hego : o.name2 ≠ 0) (hk : o.ident &&& E.IDENT_KNOWN = 0)
    (hs : (e_info o.name2).everseen = false) :
    has_ego_properties E e_info o = false := by
  unfold has_ego_properties
  simp [hego, hk, hs]

/-- Witness for amended C7: an unidentified ego sword with a known curse and
a template never seen. -/
theorem has_ego_properties_false_of_unseen_witness :
    curse_known_ego_sword.name2 ≠ 0 ∧
      curse_known_ego_sword.ident &&& sample_env.IDENT_KNOWN = 0 ∧
      (unseen_table curse_known_ego_sword.name2).everseen = false ∧
      has_ego_properties sample_env unseen_table curse_known_ego_sword = false :=
  ⟨by decide, by decide, by decide,
    has_ego_properties_false_of_unseen sample_env unseen_table curse_known_ego_sword
      (by decide) (by decide) (by decide)⟩

/-- C8: an item without ego template (`name2 = 0`) never has ego properties,
whatever its status bits and known sets are. -/
theorem has_ego_properties_false_of_no_template (E : Env) (e_info : Nat → ego_item_type)
    (o : object_type) (h : o.name2 = 0) :
    has_ego_properties E e_info o = false := by
  unfold has_ego_properties
  simp [h]

/-- Witness for C8: a fully identified sword without ego template. -/
theorem has_ego_properties_false_of_no_template_witness :
    ({ identified_ego_sword with name2 := 0 } : object_type).name2 = 0 ∧
      has_ego_properties sample_env seen_table { identified_ego_sword with name2 := 0 } = false :=
  ⟨rfl, has_ego_properties_false_of_no_template sample_env seen_table _ rfl⟩

/-! ## Theorems: the notice operations never retract knowledge -/

/-- Containment of known sets is reflexive. -/
theorem known_le_refl (o : object_type) : known_le o o :=
  ⟨Finset.Subset.refl _, Finset.Subset.refl _, Finset.Subset.refl _⟩

/-- Containment of known sets is transitive. -/
theorem known_le_trans {a b c : object_type} (h1 : known_le a b) (h2 : known_le b c) :
    known_le a c :=
  ⟨h1.1.trans h2.1, h1.2.1.trans h2.2.1, h1.2.2.trans h2.2.2⟩

/-- A state retracts nothing from itself. -/
theorem knowledge_le_refl (s : State) : knowledge_le s s :=
  ⟨fun _ => known_le_refl _, Finset.Subset.refl _, Finset.Subset.refl _⟩

/-- Steps that retract nothing compose. -/
theorem knowledge_le_trans {a b c : State} (h1 : knowledge_le a b) (h2 : knowledge_le b c) :
    knowledge_le a c :=
  ⟨fun r => known_le_trans (h1.1 r) (h2.1 r), h1.2.1.trans h2.2.1, h1.2.2.trans h2.2.2⟩

/-- Reading back through the pointer just written. -/
theorem obj_set_obj_same (s : State) (r : ObjRef) (o : object_type) :
    (s.set_obj r o).obj r = o := by
  cases r <;> simp [State.set_obj, State.obj]

/-- Reading through another pointer than the one written. -/
theorem obj_set_obj_other (s : State) (r r2 : ObjRef) (o : object_type) (h : r2 ≠ r) :
    (s.set_obj r o).obj r2 = s.obj r2 := by
  cases r <;> cases r2 <;> simp [State.set_obj, State.obj]
  all_goals
    rename_i i j
    have hne : j ≠ i := fun he => h (by rw [he])
    simp [Function.update, hne]

/-- A store through a pointer leaves the aggregate sets alone. -/
theorem p_ptr_sets_set_obj (s : State) (r : ObjRef) (o : object_type) :
    (s.set_obj r o).p_ptr.id_obj = s.p_ptr.id_obj ∧
      (s.set_obj r o).p_ptr.id_other = s.p_ptr.id_other ∧
      (s.set_obj r o).e_info = s.e_info := by
  cases r <;> simp [State.set_obj]

/-- Storing an object that knows at least as much retracts nothing. -/
theorem knowledge_le_set_obj (s : State) (r : ObjRef) (o : object_type)
    (h : known_le (s.obj r) o) : knowledge_le s (s.set_obj r o) := by
  refine ⟨fun r2 => ?_, ?_, ?_⟩
  · by_cases hr : r2 = r
    · subst hr
      rw [obj_set_obj_same]
      exact h
    · rw [obj_set_obj_other s r r2 o hr]
      exact known_le_refl _
  · rw [(p_ptr_sets_set_obj s r o).1]
  · rw [(p_ptr_sets_set_obj s r o).2.1]

/-- A state that agrees with `s` on every object and contains the aggregate
sets of `s` retracts nothing. -/
theorem knowledge_le_of_same_objects (s t : State) (ho : ∀ r, t.obj r = s.obj r)
    (h1 : s.p_ptr.id_obj ⊆ t.p_ptr.id_obj) (h2 : s.p_ptr.id_other ⊆ t.p_ptr.id_other) :
    knowledge_le s t :=
  ⟨fun r => by rw [ho r]; exact known_le_refl _, h1, h2⟩

/-- A marking loop only adds flags. -/
theorem subset_mark_deviations (n : Nat) (vals : Nat → Int) (neutral : Int) (first : Nat)
    (flags : FlagSet) : flags ⊆ mark_deviations n vals neutral first flags := by
  unfold mark_deviations
  generalize List.range n = l
  induction l generalizing flags with
  | nil => exact Finset.Subset.refl _
  | cons j l ih =>
    simp only [List.foldl_cons]
    refine Finset.Subset.trans ?_ (ih _)
    split_ifs
    · exact Finset.subset_insert _ _
    · exact Finset.Subset.refl _

/-- A left fold of steps that retract nothing retracts nothing. -/
theorem knowledge_le_foldl {α : Type} (f : State → α → State)
    (hf : ∀ s a, knowledge_le s (f s a)) (l : List α) (s : State) :
    knowledge_le s (l.foldl f s) := by
  induction l generalizing s with
  | nil => exact knowledge_le_refl s
  | cons a l ih => exact knowledge_le_trans (hf s a) (ih (f s a))

/-- Setting one more known-other flag on the object `r` points at retracts
nothing. -/
theorem knowledge_le_mark_other (s : State) (r : ObjRef) (flag : Nat) :
    knowledge_le s
      (s.set_obj r { s.obj r with id_other := flag_on (s.obj r).id_other flag }) := by
  apply knowledge_le_set_obj
  exact ⟨Finset.Subset.refl _, Finset.Subset.refl _, Finset.subset_insert _ _⟩

/-- The promotion of an object retracts none of its knowledge. -/
theorem known_le_label_object (E : Env) (e : ego_item_type) (o : object_type) :
    known_le o (label_object E e o) := by
  refine ⟨?_, ?_, ?_⟩
  · show o.id_curse ⊆ if flag_has e.flags_obj E.OF_SHOW_CURSE = true
      then flag_union o.id_curse e.flags_curse else o.id_curse
    split_ifs
    · exact Finset.subset_union_left
    · exact Finset.Subset.refl _
  · exact Finset.subset_union_left
  · refine Finset.Subset.trans ?_ (subset_mark_deviations _ _ _ _ _)
    refine Finset.Subset.trans ?_ (subset_mark_deviations _ _ _ _ _)
    exact subset_mark_deviations _ _ _ _ _

/-- The requests touch neither objects nor aggregate sets. -/
theorem knowledge_le_label_requests (E : Env) (s : State) :
    knowledge_le s (label_requests E s) :=
  knowledge_le_of_same_objects _ _ (fun r2 => by cases r2 <;> rfl)
    (Finset.Subset.refl _) (Finset.Subset.refl _)

/-- The description touches neither objects nor aggregate sets. -/
theorem knowledge_le_label_describe (E : Env) (r : ObjRef) (item : Int) (s : State) :
    knowledge_le s (label_describe E r item s) := by
  unfold label_describe
  split_ifs
  · exact knowledge_le_of_same_objects _ _ (fun r2 => by cases r2 <;> rfl)
      (Finset.Subset.refl _) (Finset.Subset.refl _)
  · exact knowledge_le_of_same_objects _ _ (fun r2 => by cases r2 <;> rfl)
      (Finset.Subset.refl _) (Finset.Subset.refl _)
  · exact knowledge_le_refl _

/-- The promotion routine retracts nothing. -/
theorem knowledge_le_label_as_ego (E : Env) (hE : E.keeps_knowledge) (r : ObjRef) (item : Int)
    (s : State) : knowledge_le s (label_as_ego E r item s) := by
  unfold label_as_ego
  simp only []
  refine knowledge_le_trans ?_ (knowledge_le_label_describe E r item _)
  refine knowledge_le_trans ?_ (hE.1 _)
  refine knowledge_le_trans ?_ (knowledge_le_label_requests E _)
  exact knowledge_le_set_obj s r _ (known_le_label_object E _ _)

/-- The step "Ego item?" retracts nothing. -/
theorem knowledge_le_ego_item_check (E : Env) (hE : E.keeps_knowledge) (b : Bool) (r : ObjRef)
    (item : Int) (s : State) : knowledge_le s (ego_item_check E b r item s) := by
  unfold ego_item_check
  split_ifs
  · exact knowledge_le_label_as_ego E hE r item s
  · exact knowledge_le_refl s

/-- The step "Fully identified now?" retracts nothing. -/
theorem knowledge_le_fully_identified_now (E : Env) (hE : E.keeps_knowledge) (r : ObjRef)
    (s : State) : knowledge_le s (fully_identified_now E r s) := by
  unfold fully_identified_now
  split_ifs
  · exact hE.2 r s
  · exact knowledge_le_refl s

/-- The evidence of `notice_curse` retracts nothing. -/
theorem knowledge_le_curse_evidence (E : Env) (flag : Nat) (r : ObjRef) (s : State) :
    knowledge_le s (curse_evidence E flag r s) := by
  unfold curse_evidence
  apply knowledge_le_set_obj
  exact ⟨Finset.subset_insert _ _, Finset.Subset.refl _, Finset.Subset.refl _⟩

/-- The evidence of `notice_obj` retracts nothing. -/
theorem knowledge_le_obj_evidence (E : Env) (flag : Nat) (slot : Int) (r : ObjRef) (s : State) :
    knowledge_le s (obj_evidence E flag slot r s) := by
  unfold obj_evidence
  have h1 : knowledge_le s (s.set_obj r { s.obj r with id_obj := flag_on (s.obj r).id_obj flag }) := by
    apply knowledge_le_set_obj
    exact ⟨Finset.Subset.refl _, Finset.subset_insert _ _, Finset.Subset.refl _⟩
  simp only []
  split_ifs
  · refine knowledge_le_trans h1 ?_
    exact knowledge_le_of_same_objects _ _ (fun r2 => by cases r2 <;> rfl)
      (Finset.subset_insert _ _) (Finset.Subset.refl _)
  · exact h1

/-- A resist, slay or brand loop of `notice_other` retracts nothing when its
inner statement retracts nothing. -/
theorem knowledge_le_notice_deviation (n : Nat) (vals : object_type → Nat → Int) (neutral : Int)
    (first : Nat) (other_flag : Nat) (sensed : Nat → Bool) (extra : State → State)
    (hx : ∀ s, knowledge_le s (extra s)) (r : ObjRef) (s : State) :
    knowledge_le s (notice_deviation n vals neutral first other_flag sensed extra r s) := by
  unfold notice_deviation
  apply knowledge_le_foldl
  intro s j
  simp only []
  split_ifs
  · exact knowledge_le_refl s
  · exact knowledge_le_trans (knowledge_le_mark_other s r other_flag) (hx _)
  · exact knowledge_le_mark_other s r other_flag
  · exact knowledge_le_refl s

/-- The block "Others" of `notice_other` retracts nothing. -/
theorem knowledge_le_notice_other_misc (E : Env) (other_flag : Nat) (r : ObjRef) (s : State) :
    knowledge_le s (notice_other_misc E other_flag r s) := by
  unfold notice_other_misc
  simp only []
  have step : ∀ (c : Prop) [Decidable c] (flag : Nat) (t : State),
      knowledge_le t (if c then
        t.set_obj r { t.obj r with id_other := flag_on (t.obj r).id_other flag } else t) := by
    intro c _ flag t
    split_ifs
    · exact knowledge_le_mark_other t r flag
    · exact knowledge_le_refl t
  refine knowledge_le_trans ?_ (step _ E.IF_DD_DS _)
  refine knowledge_le_trans ?_ (step _ E.IF_AC _)
  refine knowledge_le_trans ?_ (step _ E.IF_TO_A _)
  refine knowledge_le_trans ?_ (step _ E.IF_TO_D _)
  exact step _ E.IF_TO_H s

/-- The evidence of `notice_other` retracts nothing when the inner statement
of its loops retracts nothing. -/
theorem knowledge_le_other_evidence (E : Env) (other_flag : Nat) (sensed : Nat → Bool)
    (extra : State → State) (hx : ∀ s, knowledge_le s (extra s)) (r : ObjRef) (s : State) :
    knowledge_le s (other_evidence E other_flag sensed extra r s) := by
  unfold other_evidence
  simp only []
  refine knowledge_le_trans ?_ (knowledge_le_notice_other_misc E other_flag r _)
  refine knowledge_le_trans ?_ (knowledge_le_notice_deviation _ _ _ _ _ _ _ hx r _)
  refine knowledge_le_trans ?_ (knowledge_le_notice_deviation _ _ _ _ _ _ _ hx r _)
  exact knowledge_le_notice_deviation _ _ _ _ _ _ _ hx r s

/-- The inner statement of the single-item loops retracts nothing. -/
theorem knowledge_le_other_extra_single (other_flag : Nat) (s : State) :
    knowledge_le s (other_extra_single other_flag s) :=
  knowledge_le_of_same_objects _ _ (fun r2 => by cases r2 <;> rfl)
    (Finset.Subset.refl _) (Finset.subset_insert _ _)

/-- The inner statement of the equipment loops retracts nothing. -/
theorem knowledge_le_other_extra_body (other_flag : Nat) (r : ObjRef) (s : State) :
    knowledge_le s (other_extra_body other_flag r s) :=
  knowledge_le_mark_other s r other_flag

/-- The per-object body of `notice_curse` retracts nothing. -/
theorem knowledge_le_notice_curse_at (E : Env) (hE : E.keeps_knowledge) (flag : Nat) (item : Int)
    (r : ObjRef) (s : State) : knowledge_le s (notice_curse_at E flag item r s) := by
  unfold notice_curse_at
  simp only []
  refine knowledge_le_trans ?_ (knowledge_le_fully_identified_now E hE r _)
  split_ifs
  · exact knowledge_le_trans (knowledge_le_curse_evidence E flag r s)
      (knowledge_le_ego_item_check E hE _ r item _)
  · exact knowledge_le_refl s

/-- The per-object body of `notice_obj` retracts nothing. -/
theorem knowledge_le_notice_obj_at (E : Env) (hE : E.keeps_knowledge) (flag : Nat) (item : Int)
    (slot : Int) (r : ObjRef) (s : State) :
    knowledge_le s (notice_obj_at E flag item slot r s) := by
  unfold notice_obj_at
  simp only []
  refine knowledge_le_trans ?_ (knowledge_le_fully_identified_now E hE r _)
  exact knowledge_le_trans (knowledge_le_obj_evidence E flag slot r s)
    (knowledge_le_ego_item_check E hE _ r item _)

/-- The per-object body of `notice_other` retracts nothing when the inner
statement of its loops retracts nothing. -/
theorem knowledge_le_notice_other_at (E : Env) (hE : E.keeps_knowledge) (flag : Nat) (item : Int)
    (sensed : Nat → Bool) (extra : State → State) (hx : ∀ s, knowledge_le s (extra s))
    (r : ObjRef) (s : State) :
    knowledge_le s (notice_other_at E flag item sensed extra r s) := by
  unfold notice_other_at
  simp only []
  refine knowledge_le_trans ?_ (knowledge_le_fully_identified_now E hE r _)
  exact knowledge_le_trans (knowledge_le_other_evidence E flag sensed extra hx r s)
    (knowledge_le_ego_item_check E hE _ r item _)

/-- Each notice operation retracts nothing. -/
theorem knowledge_le_notice (E : Env) (hE : E.keeps_knowledge) (flag : Nat) (item : Int)
    (s : State) :
    knowledge_le s (notice_curse E flag item s) ∧ knowledge_le s (notice_obj E flag item s) ∧
      knowledge_le s (notice_other E flag item s) := by
  refine ⟨?_, ?_, ?_⟩
  · unfold notice_curse
    split_ifs
    · exact knowledge_le_notice_curse_at E hE flag item _ s
    · exact knowledge_le_foldl _ (fun s i => knowledge_le_notice_curse_at E hE flag item _ s) _ s
  · unfold notice_obj
    split_ifs
    · exact knowledge_le_notice_obj_at E hE flag item _ _ s
    · exact knowledge_le_foldl _ (fun s i => knowledge_le_notice_obj_at E hE flag item _ _ s) _ s
  · unfold notice_other
    split_ifs
    · exact knowledge_le_notice_other_at E hE flag item _ _
        (knowledge_le_other_extra_single flag) _ s
    · exact knowledge_le_foldl _
        (fun s i => knowledge_le_notice_other_at E hE flag item _ _
          (knowledge_le_other_extra_body flag (.inven i)) _ s) _ s

/-- The collaborators of the concrete environment retract nothing. -/
theorem sample_env_keeps_knowledge : sample_env.keeps_knowledge := by
  constructor
  · intro s
    exact knowledge_le_of_same_objects _ _ (fun r2 => by cases r2 <;> rfl)
      (Finset.Subset.refl _) (Finset.Subset.refl _)
  · intro r s
    show knowledge_le s (sample_identify_object r s)
    unfold sample_identify_object
    simp only []
    have h1 : knowledge_le s (s.set_obj r { s.obj r with ident := (s.obj r).ident ||| 0x08 }) :=
      knowledge_le_set_obj s r _ ⟨Finset.Subset.refl _, Finset.Subset.refl _, Finset.Subset.refl _⟩
    split_ifs
    · refine knowledge_le_trans h1 ?_
      exact knowledge_le_of_same_objects _ _ (fun r2 => by cases r2 <;> rfl)
        (Finset.Subset.refl _) (Finset.Subset.refl _)
    · exact h1

/-- C9: when the collaborators `handle_stuff` and `identify_object` retract
no knowledge, every call of `notice_curse`, `notice_obj` or `notice_other`,
with any flag and any target, leaves the known-curse, known-object-flag and
known-other sets of every inventory slot and floor object, and the player-wide
aggregate sets, at least as large as before; so does every sequence of such
calls. -/
theorem notice_calls_never_retract (E : Env) (hE : E.keeps_knowledge) (s : State) :
    (∀ (flag : Nat) (item : Int),
        knowledge_le s (notice_curse E flag item s) ∧
          knowledge_le s (notice_obj E flag item s) ∧
          knowledge_le s (notice_other E flag item s)) ∧
      ∀ calls : List NoticeCall, knowledge_le s (run_calls E calls s) := by
  refine ⟨fun flag item => knowledge_le_notice E hE flag item s, fun calls => ?_⟩
  unfold run_calls
  apply knowledge_le_foldl
  intro t c
  cases c with
  | curse flag item => exact (knowledge_le_notice E hE flag item t).1
  | obj flag item => exact (knowledge_le_notice E hE flag item t).2.1
  | other flag item => exact (knowledge_le_notice E hE flag item t).2.2

/-- Witness for C9: the concrete environment, a state of cursed ego swords,
and a sequence of three calls, one of them on the whole body. -/
theorem notice_calls_never_retract_witness :
    sample_env.keeps_knowledge ∧
      knowledge_le cursed_sword_state
        (run_calls sample_env [.curse 4 25, .obj 7 0, .other 28 (-3)] cursed_sword_state) :=
  ⟨sample_env_keeps_knowledge,
    (notice_calls_never_retract sample_env sample_env_keeps_knowledge cursed_sword_state).2 _⟩

/-! ## Theorems: promotion follows the ego transition -/

/-- A state has its own templates. -/
theorem same_templates_refl (s : State) : same_templates s s := ⟨rfl, fun _ => rfl⟩

/-- Steps that change no template compose. -/
theorem same_templates_trans {a b c : State} (h1 : same_templates a b)
    (h2 : same_templates b c) : same_templates a c :=
  ⟨h2.1.trans h1.1, fun r => (h2.2 r).trans (h1.2 r)⟩

/-- Storing an object with the template index of the object it replaces
changes no template. -/
theorem same_templates_set_obj (s : State) (r : ObjRef) (o : object_type)
    (h : o.name2 = (s.obj r).name2) : same_templates s (s.set_obj r o) := by
  refine ⟨(p_ptr_sets_set_obj s r o).2.2, fun r2 => ?_⟩
  by_cases hr : r2 = r
  · subst hr
    rw [obj_set_obj_same]
    exact h
  · rw [obj_set_obj_other s r r2 o hr]

/-- A left fold of steps that change no template changes no template. -/
theorem same_templates_foldl {α : Type} (f : State → α → State)
    (hf : ∀ s a, same_templates s (f s a)) (l : List α) (s : State) :
    same_templates s (l.foldl f s) := by
  induction l generalizing s with
  | nil => exact same_templates_refl s
  | cons a l ih => exact same_templates_trans (hf s a) (ih (f s a))

/-- The evidence of `notice_curse` changes no template. -/
theorem same_templates_curse_step (E : Env) (flag : Nat) (r : ObjRef) (s : State) :
    same_templates s (curse_step E flag r s) := by
  unfold curse_step curse_evidence
  split_ifs
  · exact same_templates_set_obj s r _ rfl
  · exact same_templates_refl s

/-- The evidence of `notice_obj` changes no template. -/
theorem same_templates_obj_evidence (E : Env) (flag : Nat) (slot : Int) (r : ObjRef)
    (s : State) : same_templates s (obj_evidence E flag slot r s) := by
  unfold obj_evidence
  have h1 : same_templates s
      (s.set_obj r { s.obj r with id_obj := flag_on (s.obj r).id_obj flag }) :=
    same_templates_set_obj s r _ rfl
  simp only []
  split_ifs
  · exact same_templates_trans h1 ⟨rfl, fun r2 => by cases r2 <;> rfl⟩
  · exact h1

/-- Setting a known-other flag changes no template. -/
theorem same_templates_mark_other (s : State) (r : ObjRef) (flag : Nat) :
    same_templates s
      (s.set_obj r { s.obj r with id_other := flag_on (s.obj r).id_other flag }) :=
  same_templates_set_obj s r _ rfl

/-- A resist, slay or brand loop of `notice_other` changes no template when
its inner statement changes none. -/
theorem same_templates_notice_deviation (n : Nat) (vals : object_type → Nat → Int)
    (neutral : Int) (first : Nat) (other_flag : Nat) (sensed : Nat → Bool)
    (extra : State → State) (hx : ∀ s, same_templates s (extra s)) (r : ObjRef) (s : State) :
    same_templates s (notice_deviation n vals neutral first other_flag sensed extra r s) := by
  unfold notice_deviation
  apply same_templates_foldl
  intro s j
  simp only []
  split_ifs
  · exact same_templates_refl s
  · exact same_templates_trans (same_templates_mark_other s r other_flag) (hx _)
  · exact same_templates_mark_other s r other_flag
  · exact same_templates_refl s

/-- The block "Others" of `notice_other` changes no template. -/
theorem same_templates_notice_other_misc (E : Env) (other_flag : Nat) (r : ObjRef)
    (s : State) : same_templates s (notice_other_misc E other_flag r s) := by
  unfold notice_other_misc
  simp only []
  have step : ∀ (c : Prop) [Decidable c] (flag : Nat) (t : State),
      same_templates t (if c then
        t.set_obj r { t.obj r with id_other := flag_on (t.obj r).id_other flag } else t) := by
    intro c _ flag t
    split_ifs
    · exact same_templates_mark_other t r flag
    · exact same_templates_refl t
  refine same_templates_trans ?_ (step _ E.IF_DD_DS _)
  refine same_templates_trans ?_ (step _ E.IF_AC _)
  refine same_templates_trans ?_ (step _ E.IF_TO_A _)
  refine same_templates_trans ?_ (step _ E.IF_TO_D _)
  exact step _ E.IF_TO_H s

/-- The evidence of `notice_other` changes no template when the inner
statement of its loops changes none. -/
theorem same_templates_other_evidence (E : Env) (other_flag : Nat) (sensed : Nat → Bool)
    (extra : State → State) (hx : ∀ s, same_templates s (extra s)) (r : ObjRef) (s : State) :
    same_templates s (other_evidence E other_flag sensed extra r s) := by
  unfold other_evidence
  simp only []
  refine same_templates_trans ?_ (same_templates_notice_other_misc E other_flag r _)
  refine same_templates_trans ?_ (same_templates_notice_deviation _ _ _ _ _ _ _ hx r _)
  refine same_templates_trans ?_ (same_templates_notice_deviation _ _ _ _ _ _ _ hx r _)
  exact same_templates_notice_deviation _ _ _ _ _ _ _ hx r s

/-- The inner statement of the single-item loops changes no template. -/
theorem same_templates_other_extra_single (other_flag : Nat) (s : State) :
    same_templates s (other_extra_single other_flag s) :=
  ⟨rfl, fun r2 => by cases r2 <;> rfl⟩

/-- The inner statement of the equipment loops changes no template. -/
theorem same_templates_other_extra_body (other_flag : Nat) (r : ObjRef) (s : State) :
    same_templates s (other_extra_body other_flag r s) :=
  same_templates_mark_other s r other_flag

/-- A promoted object stays promoted through steps that retract nothing. -/
theorem promoted_of_knowledge_le {s0 t t2 : State} {r : ObjRef} (h : promoted s0 r t)
    (hle : knowledge_le t t2) : promoted s0 r t2 :=
  Finset.Subset.trans h (hle.1 r).2.1

/-- After `label_as_ego` the object's known-object-flag set contains the full
object-flag set of its template. -/
theorem promoted_label_as_ego (E : Env) (hE : E.keeps_knowledge) (r : ObjRef) (item : Int)
    (s : State) : promoted s r (label_as_ego E r item s) := by
  have h1 : promoted s r (s.set_obj r (label_object E (s.e_info (s.obj r).name2) (s.obj r))) := by
    unfold promoted
    rw [obj_set_obj_same]
    exact Finset.subset_union_right
  refine promoted_of_knowledge_le h1 ?_
  unfold label_as_ego
  simp only []
  refine knowledge_le_trans ?_ (knowledge_le_label_describe E r item _)
  refine knowledge_le_trans ?_ (hE.1 _)
  exact knowledge_le_label_requests E _

/-- The two closing steps of a notice path promote the object when the ego
inference went from false, before the evidence, to true, after it. -/
theorem promoted_after_transition (E : Env) (hE : E.keeps_knowledge) (r : ObjRef) (item : Int)
    (s0 s1 : State) (hsame : same_templates s0 s1) (ht : ego_transition E s0 s1 r) :
    promoted s0 r
      (fully_identified_now E r
        (ego_item_check E (has_ego_properties E s0.e_info (s0.obj r)) r item s1)) := by
  refine promoted_of_knowledge_le ?_ (knowledge_le_fully_identified_now E hE r _)
  unfold ego_item_check
  rw [ht.1, ht.2]
  simp only [bne_iff_ne, ne_eq, Bool.false_eq_true, not_false_eq_true, if_true]
  have h := promoted_label_as_ego E hE r item s1
  unfold promoted at h ⊢
  rw [hsame.1, hsame.2 r] at h
  exact h

/-- The body of `notice_curse` promotes the object on an ego transition. -/
theorem promoted_notice_curse_at (E : Env) (hE : E.keeps_knowledge) (flag : Nat) (item : Int)
    (r : ObjRef) (s : State) (ht : ego_transition E s (curse_step E flag r s) r) :
    promoted s r (notice_curse_at E flag item r s) := by
  have hsame := same_templates_curse_step E flag r s
  unfold curse_step at ht hsame
  unfold notice_curse_at
  simp only []
  by_cases hc : flag_has (s.obj r).flags_curse flag = true
  · rw [if_pos hc] at ht hsame
    rw [if_pos hc]
    exact promoted_after_transition E hE r item s _ hsame ht
  · rw [if_neg hc] at ht
    have h1 := ht.1
    rw [ht.2] at h1
    cases h1

/-- The body of `notice_obj` promotes the object on an ego transition. -/
theorem promoted_notice_obj_at (E : Env) (hE : E.keeps_knowledge) (flag : Nat) (item : Int)
    (slot : Int) (r : ObjRef) (s : State)
    (ht : ego_transition E s (obj_evidence E flag slot r s) r) :
    promoted s r (notice_obj_at E flag item slot r s) :=
  promoted_after_transition E hE r item s _ (same_templates_obj_evidence E flag slot r s) ht

/-- The body of `notice_other` promotes the object on an ego transition. -/
theorem promoted_notice_other_at (E : Env) (hE : E.keeps_knowledge) (flag : Nat) (item : Int)
    (sensed : Nat → Bool) (extra : State → State) (hx : ∀ s, same_templates s (extra s))
    (r : ObjRef) (s : State)
    (ht : ego_transition E s (other_evidence E flag sensed extra r s) r) :
    promoted s r (notice_other_at E flag item sensed extra r s) :=
  promoted_after_transition E hE r item s _
    (same_templates_other_evidence E flag sensed extra hx r s) ht

/-- C10: when the collaborators retract no knowledge, every object for which
a notice call sees `has_ego_properties` false before its evidence and true
after it has, when the call returns, a known-object-flag set containing the
full object-flag set of its ego template.  The first part is for a call on a
single item, the second for a whole-body call, where `pre` are the equipment
slots the loop has visited before it reaches slot `i`. -/
theorem promotion_follows_ego_transition (E : Env) (hE : E.keeps_knowledge) (s : State)
    (flag : Nat) :
    (∀ item : Int, item ≠ 0 →
      (ego_transition E s (curse_step E flag (target item) s) (target item) →
        promoted s (target item) (notice_curse E flag item s)) ∧
      (ego_transition E s (obj_evidence E flag (item - 1) (target item) s) (target item) →
        promoted s (target item) (notice_obj E flag item s)) ∧
      (ego_transition E s
          (other_evidence E flag (other_sensed_single E item) (other_extra_single flag)
            (target item) s) (target item) →
        promoted s (target item) (notice_other E flag item s))) ∧
    (∀ (pre post : List Nat) (i : Nat), equipment_slots E = pre ++ i :: post →
      (∀ s0, s0 = pre.foldl (fun s j => notice_curse_at E flag 0 (.inven j) s) s →
        ego_transition E s0 (curse_step E flag (.inven i) s0) (.inven i) →
        promoted s0 (.inven i) (notice_curse E flag 0 s)) ∧
      (∀ s0, s0 = pre.foldl
            (fun (s : State) (j : Nat) => notice_obj_at E flag 0 (j : Int) (.inven j) s) s →
        ego_transition E s0 (obj_evidence E flag (i : Int) (.inven i) s0) (.inven i) →
        promoted s0 (.inven i) (notice_obj E flag 0 s)) ∧
      (∀ s0, s0 = pre.foldl
            (fun s j => notice_other_at E flag 0 (other_sensed_body E)
              (other_extra_body flag (.inven j)) (.inven j) s) s →
        ego_transition E s0
          (other_evidence E flag (other_sensed_body E) (other_extra_body flag (.inven i))
            (.inven i) s0) (.inven i) →
        promoted s0 (.inven i) (notice_other E flag 0 s))) := by
  refine ⟨fun item hitem => ⟨?_, ?_, ?_⟩, fun pre post i hsplit => ⟨?_, ?_, ?_⟩⟩
  · intro ht
    unfold notice_curse
    rw [if_pos hitem]
    exact promoted_notice_curse_at E hE flag item _ s ht
  · intro ht
    unfold notice_obj
    rw [if_pos hitem]
    exact promoted_notice_obj_at E hE flag item _ _ s ht
  · intro ht
    unfold notice_other
    rw [if_pos hitem]
    exact promoted_notice_other_at E hE flag item _ _
      (same_templates_other_extra_single flag) _ s ht
  · intro s0 hs0 ht
    unfold notice_curse
    rw [if_neg (by simp), hsplit, List.foldl_append, List.foldl_cons, ← hs0]
    exact promoted_of_knowledge_le (promoted_notice_curse_at E hE flag 0 _ s0 ht)
      (knowledge_le_foldl _ (fun t j => knowledge_le_notice_curse_at E hE flag 0 _ t) _ _)
  · intro s0 hs0 ht
    unfold notice_obj
    rw [if_neg (by simp), hsplit, List.foldl_append, List.foldl_cons, ← hs0]
    exact promoted_of_knowledge_le (promoted_notice_obj_at E hE flag 0 _ _ s0 ht)
      (knowledge_le_foldl _ (fun t j => knowledge_le_notice_obj_at E hE flag 0 _ _ t) _ _)
  · intro s0 hs0 ht
    unfold notice_other
    rw [if_neg (by simp), hsplit, List.foldl_append, List.foldl_cons, ← hs0]
    exact promoted_of_knowledge_le
      (promoted_notice_other_at E hE flag 0 _ _ (same_templates_other_extra_body flag _) _ s0 ht)
      (knowledge_le_foldl _
        (fun t j => knowledge_le_notice_other_at E hE flag 0 _ _
          (knowledge_le_other_extra_body flag (.inven j)) _ t) _ _)

set_option maxRecDepth 4000

/-- Witness for C10: curse 4 is noticed on the wielded ego sword (item 25,
slot 24) of a state of cursed ego swords; the inference goes from false to
true, and the template's object flags 7 and 8 are known afterwards; the same
for slot 24 under a whole-body call. -/
theorem promotion_follows_ego_transition_witness :
    sample_env.keeps_knowledge ∧
      ego_transition sample_env cursed_sword_state
        (curse_step sample_env 4 (target 25) cursed_sword_state) (target 25) ∧
      promoted cursed_sword_state (target 25)
        (notice_curse sample_env 4 25 cursed_sword_state) ∧
      equipment_slots sample_env = [] ++ 24 :: [25, 26, 27, 28, 29, 30, 31, 32, 33, 34, 35] ∧
      promoted cursed_sword_state (.inven 24)
        (notice_curse sample_env 4 0 cursed_sword_state) := by
  have hslots : equipment_slots sample_env =
      [] ++ 24 :: [25, 26, 27, 28, 29, 30, 31, 32, 33, 34, 35] := by
    simp [equipment_slots, sample_env, List.range']
  have hall := promotion_follows_ego_transition sample_env sample_env_keeps_knowledge
    cursed_sword_state 4
  have hbefore : has_ego_properties sample_env cursed_sword_state.e_info
      (cursed_sword_state.obj (.inven 24)) = false := by decide
  have hafter : has_ego_properties sample_env
      (curse_step sample_env 4 (.inven 24) cursed_sword_state).e_info
      ((curse_step sample_env 4 (.inven 24) cursed_sword_state).obj (.inven 24)) = true := by
    decide
  exact ⟨sample_env_keeps_knowledge, ⟨hbefore, hafter⟩,
    (hall.1 25 (by decide)).1 ⟨hbefore, hafter⟩, hslots,
    (hall.2 [] [25, 26, 27, 28, 29, 30, 31, 32, 33, 34, 35] 24 hslots).1
      cursed_sword_state rfl ⟨hbefore, hafter⟩⟩

/-! ## Theorems: the dubiousness classifier -/

/-- A scan `for (i = 0; i < n; i++) if (p i) return TRUE;` finds something
exactly when some index below `n` satisfies `p`. -/
theorem any_range_iff (n : Nat) (p : Nat → Bool) :
    (List.range n).any p = true ↔ ∃ i, i < n ∧ p i = true := by
  simp [List.any_eq_true]

/-- C12: with `BONUS_BASE` zero, `item_dubious` is true exactly when some
percentage resistance exceeds `RES_LEVEL_BASE`, or some stat bonus or other
bonus is below zero, or some slay or brand multiplier is below `MULTIPLE_BASE`,
or `to_h + to_d` is below the kind's `to_h`, or `to_a` is below zero, or
`unknown` is true and the item carries a curse. -/
theorem item_dubious_iff (E : Env) (hb : E.BONUS_BASE = 0) (k_info : Nat → object_kind)
    (o : object_type) (unknown : Bool) :
    item_dubious E k_info o unknown = true ↔
      (∃ i, i < E.MAX_P_RES ∧ o.percent_res i > E.RES_LEVEL_BASE) ∨
      (∃ i, i < E.A_MAX ∧ o.bonus_stat i < 0) ∨
      (∃ i, i < E.MAX_P_BONUS ∧ o.bonus_other i < 0) ∨
      (∃ i, i < E.MAX_P_SLAY ∧ o.multiple_slay i < E.MULTIPLE_BASE) ∨
      (∃ i, i < E.MAX_P_BRAND ∧ o.multiple_brand i < E.MULTIPLE_BASE) ∨
      o.to_h + o.to_d < (k_info o.k_idx).to_h ∨
      o.to_a < 0 ∨
      (unknown = true ∧ o.flags_curse.Nonempty) := by
  unfold item_dubious cursed_p
  simp only [any_range_iff, decide_eq_true_eq, hb]
  split_ifs <;> simp_all

/-- Witness for C12: in the concrete environment a ring with a -1 stat bonus
is dubious even when curses are not counted. -/
theorem item_dubious_iff_witness :
    sample_env.BONUS_BASE = 0 ∧
      item_dubious sample_env (kinds_with_to_h 0) weakening_ring false = true :=
  ⟨rfl, (item_dubious_iff sample_env rfl (kinds_with_to_h 0) weakening_ring false).2
    (Or.inr (Or.inl ⟨0, by decide, by decide⟩))⟩

/-- C13: an item whose `to_h + to_d` is below its kind's `to_h` is dubious for
both values of the curse flag; the bound is the kind's `to_h`, not zero. -/
theorem item_dubious_of_low_combined_bonus (E : Env) (k_info : Nat → object_kind)
    (o : object_type) (h : o.to_h + o.to_d < (k_info o.k_idx).to_h) :
    item_dubious E k_info o true = true ∧ item_dubious E k_info o false = true := by
  unfold item_dubious
  simp only [h]
  constructor <;> split_ifs <;> simp_all

/-- Witness for C13: to-hit -2 and to-damage +1 against a kind `to_h` of 0
(combined -1), and to-hit +1 and to-damage +1 against a kind `to_h` of 3
(combined +2, positive but below the kind's value). -/
theorem item_dubious_of_low_combined_bonus_witness :
    (clumsy_blade.to_h + clumsy_blade.to_d = -1 ∧
      item_dubious sample_env (kinds_with_to_h 0) clumsy_blade true = true ∧
      item_dubious sample_env (kinds_with_to_h 0) clumsy_blade false = true) ∧
    (keen_blade.to_h + keen_blade.to_d = 2 ∧
      item_dubious sample_env (kinds_with_to_h 3) keen_blade false = true ∧
      item_dubious sample_env (kinds_with_to_h 0) keen_blade false = false) :=
  ⟨⟨by decide,
      item_dubious_of_low_combined_bonus sample_env (kinds_with_to_h 0) clumsy_blade
        (by decide)⟩,
    ⟨by decide,
      (item_dubious_of_low_combined_bonus sample_env (kinds_with_to_h 3) keen_blade
        (by decide)).2,
      by decide⟩⟩

/-! ## Theorems: the feeling methods -/

/-- The marking of the feeling methods sets every bit of `IDENT_UNCURSED` and
of `IDENT_KNOW_CURSES`. -/
theorem has_bits_mark_uncursed (E : Env) (o : object_type) :
    has_bits (mark_uncursed E o).ident E.IDENT_UNCURSED ∧
      has_bits (mark_uncursed E o).ident E.IDENT_KNOW_CURSES := by
  unfold has_bits mark_uncursed
  constructor
  · apply Nat.eq_of_testBit_eq
    intro i
    simp only [Nat.testBit_and, Nat.testBit_or]
    cases Nat.testBit o.ident i <;> cases Nat.testBit E.IDENT_UNCURSED i <;>
      cases Nat.testBit E.IDENT_KNOW_CURSES i <;> rfl
  · apply Nat.eq_of_testBit_eq
    intro i
    simp only [Nat.testBit_and, Nat.testBit_or]
    cases Nat.testBit o.ident i <;> cases Nat.testBit E.IDENT_UNCURSED i <;>
      cases Nat.testBit E.IDENT_KNOW_CURSES i <;> rfl

/-- C14: for an item without equipment slot and for an item whose slot is the
light slot, both feeling methods return `FEEL_NONE` and leave the item, its
status bits included, as it was. -/
theorem feeling_none_of_unwieldable_or_light (E : Env) (k_info : Nat → object_kind)
    (o : object_type) (h : E.wield_slot o < 0 ∨ E.wield_slot o = E.INVEN_LITE) :
    value_check_aux1 E k_info o = (FEEL_NONE, o) ∧
      value_check_aux2 E k_info o = (FEEL_NONE, o) := by
  unfold value_check_aux1 value_check_aux2
  rcases h with h | h
  · simp [h]
  · simp [h]

/-- Witness for C14: a potion (no slot) and a torch (light slot). -/
theorem feeling_none_of_unwieldable_or_light_witness :
    sample_env.wield_slot plain_potion < 0 ∧
      sample_env.wield_slot plain_torch = sample_env.INVEN_LITE ∧
      value_check_aux1 sample_env (kinds_with_to_h 0) plain_potion = (FEEL_NONE, plain_potion) ∧
      value_check_aux2 sample_env (kinds_with_to_h 0) plain_torch = (FEEL_NONE, plain_torch) :=
  ⟨by decide, by decide,
    (feeling_none_of_unwieldable_or_light sample_env (kinds_with_to_h 0) plain_potion
      (Or.inl (by decide))).1,
    (feeling_none_of_unwieldable_or_light sample_env (kinds_with_to_h 0) plain_torch
      (Or.inr (by decide))).2⟩

/-- The marking of the feeling methods changes only the status word. -/
theorem mark_uncursed_fields (E : Env) (o : object_type) :
    artifact_p (mark_uncursed E o) = artifact_p o ∧
      ego_item_p (mark_uncursed E o) = ego_item_p o ∧
      (mark_uncursed E o).to_a = o.to_a ∧ (mark_uncursed E o).to_h = o.to_h ∧
      (mark_uncursed E o).to_d = o.to_d :=
  ⟨rfl, rfl, rfl, rfl, rfl⟩

/-- C15: under the heavy method a wieldable item that is no light yields
`FEEL_SPECIAL` when it is an artifact, whatever else holds of it; when it is an
ego item and no artifact it yields `FEEL_PERILOUS` if `item_dubious(item, TRUE)`
and `FEEL_EXCELLENT` otherwise, and in the latter case the bits
`IDENT_UNCURSED` and `IDENT_KNOW_CURSES` are set on the item. -/
theorem heavy_feeling_of_artifact_or_ego (E : Env) (k_info : Nat → object_kind)
    (o : object_type) (hw : 0 ≤ E.wield_slot o) (hl : E.wield_slot o ≠ E.INVEN_LITE) :
    (artifact_p o = true → (value_check_aux1 E k_info o).1 = FEEL_SPECIAL) ∧
    (artifact_p o = false → ego_item_p o = true →
      (item_dubious E k_info o true = true →
        (value_check_aux1 E k_info o).1 = FEEL_PERILOUS) ∧
      (item_dubious E k_info o true = false →
        (value_check_aux1 E k_info o).1 = FEEL_EXCELLENT ∧
        has_bits (value_check_aux1 E k_info o).2.ident E.IDENT_UNCURSED ∧
        has_bits (value_check_aux1 E k_info o).2.ident E.IDENT_KNOW_CURSES)) := by
  have hw2 : ¬ E.wield_slot o < 0 := not_lt.mpr hw
  refine ⟨fun ha => ?_, fun ha he => ⟨fun hd => ?_, fun hd => ?_⟩⟩
  · unfold value_check_aux1
    simp [hw2, hl, ha]
  · unfold value_check_aux1
    simp [hw2, hl, ha, he, hd]
  · have hv : value_check_aux1 E k_info o = (FEEL_EXCELLENT, mark_uncursed E o) := by
      unfold value_check_aux1
      simp [hw2, hl, ha, he, hd]
    rw [hv]
    exact ⟨rfl, has_bits_mark_uncursed E o⟩

/-- Witness for C15: a cursed artifact with to-armor -1 feels special, a
cursed ego weapon perilous, a sound ego weapon excellent. -/
theorem heavy_feeling_of_artifact_or_ego_witness :
    (0 ≤ sample_env.wield_slot cursed_artifact_blade ∧
      sample_env.wield_slot cursed_artifact_blade ≠ sample_env.INVEN_LITE ∧
      item_dubious sample_env (kinds_with_to_h 0) cursed_artifact_blade true = true ∧
      (value_check_aux1 sample_env (kinds_with_to_h 0) cursed_artifact_blade).1 = FEEL_SPECIAL) ∧
    (value_check_aux1 sample_env (kinds_with_to_h 0) perilous_ego_blade).1 = FEEL_PERILOUS ∧
    (value_check_aux1 sample_env (kinds_with_to_h 0) sound_ego_blade).1 = FEEL_EXCELLENT :=
  ⟨⟨by decide, by decide, by decide,
      (heavy_feeling_of_artifact_or_ego sample_env (kinds_with_to_h 0) cursed_artifact_blade
        (by decide) (by decide)).1 (by decide)⟩,
    ((heavy_feeling_of_artifact_or_ego sample_env (kinds_with_to_h 0) perilous_ego_blade
        (by decide) (by decide)).2 (by decide) (by decide)).1 (by decide),
    (((heavy_feeling_of_artifact_or_ego sample_env (kinds_with_to_h 0) sound_ego_blade
        (by decide) (by decide)).2 (by decide) (by decide)).2 (by decide)).1⟩

/-- C16: under the heavy method a wieldable item that is no light, no
artifact and no ego item yields `FEEL_DUBIOUS_STRONG` if
`item_dubious(item, TRUE)`; otherwise the bits `IDENT_UNCURSED` and
`IDENT_KNOW_CURSES` are set on it and it yields `FEEL_GOOD_STRONG` when its slot
lies in `INVEN_LEFT..INVEN_NECK`, or `to_a > 0`, or `to_h + to_d > 0`, and
`FEEL_AVERAGE` when none of the three holds. -/
theorem heavy_feeling_of_ordinary (E : Env) (k_info : Nat → object_kind)
    (o : object_type) (hw : 0 ≤ E.wield_slot o) (hl : E.wield_slot o ≠ E.INVEN_LITE)
    (ha : artifact_p o = false) (he : ego_item_p o = false) :
    (item_dubious E k_info o true = true →
      (value_check_aux1 E k_info o).1 = FEEL_DUBIOUS_STRONG) ∧
    (item_dubious E k_info o true = false →
      has_bits (value_check_aux1 E k_info o).2.ident E.IDENT_UNCURSED ∧
      has_bits (value_check_aux1 E k_info o).2.ident E.IDENT_KNOW_CURSES ∧
      ((((E.INVEN_LEFT : Int) ≤ E.wield_slot o ∧ E.wield_slot o ≤ E.INVEN_NECK) ∨
          0 < o.to_a ∨ 0 < o.to_h + o.to_d) →
        (value_check_aux1 E k_info o).1 = FEEL_GOOD_STRONG) ∧
      (¬ ((((E.INVEN_LEFT : Int) ≤ E.wield_slot o ∧ E.wield_slot o ≤ E.INVEN_NECK) ∨
          0 < o.to_a ∨ 0 < o.to_h + o.to_d)) →
        (value_check_aux1 E k_info o).1 = FEEL_AVERAGE)) := by
  have hw2 : ¬ E.wield_slot o < 0 := not_lt.mpr hw
  refine ⟨fun hd => ?_, fun hd => ?_⟩
  · unfold value_check_aux1
    simp [hw2, hl, ha, he, hd]
  · have hv : value_check_aux1 E k_info o =
        (if ((E.INVEN_LEFT : Int) ≤ E.wield_slot o ∧ E.wield_slot o ≤ E.INVEN_NECK) ∨
            0 < o.to_a ∨ 0 < o.to_h + o.to_d then FEEL_GOOD_STRONG else FEEL_AVERAGE,
          mark_uncursed E o) := by
      unfold value_check_aux1
      simp only [hw2, hl, ha, he, hd, (mark_uncursed_fields E o).2.2.1,
        (mark_uncursed_fields E o).2.2.2.1, (mark_uncursed_fields E o).2.2.2.2]
      split_ifs <;> (simp_all; try omega)
    rw [hv]
    refine ⟨(has_bits_mark_uncursed E o).1, (has_bits_mark_uncursed E o).2, ?_, ?_⟩
    · intro h
      simp [h]
    · intro h
      simp [h]

/-- Witness for C16: a plain ring (jewelry slot 26) feels good, a plain
weapon average, and a weapon with combined bonus -1 dubious. -/
theorem heavy_feeling_of_ordinary_witness :
    (value_check_aux1 sample_env (kinds_with_to_h 0) (plain_item 45)).1 = FEEL_GOOD_STRONG ∧
      (value_check_aux1 sample_env (kinds_with_to_h 0) (plain_item 23)).1 = FEEL_AVERAGE ∧
      (value_check_aux1 sample_env (kinds_with_to_h 0) clumsy_blade).1 = FEEL_DUBIOUS_STRONG :=
  ⟨((heavy_feeling_of_ordinary sample_env (kinds_with_to_h 0) (plain_item 45)
      (by decide) (by decide) (by decide) (by decide)).2 (by decide)).2.2.1
        (Or.inl ⟨by decide, by decide⟩),
    ((heavy_feeling_of_ordinary sample_env (kinds_with_to_h 0) (plain_item 23)
      (by decide) (by decide) (by decide) (by decide)).2 (by decide)).2.2.2 (by decide),
    (heavy_feeling_of_ordinary sample_env (kinds_with_to_h 0) clumsy_blade
      (by decide) (by decide) (by decide) (by decide)).1 (by decide)⟩

/-- C17: under the light method a wieldable item that is no light yields
`FEEL_DUBIOUS_WEAK` if `item_dubious(item, TRUE)`, artifacts and ego items
included; otherwise the bits `IDENT_UNCURSED` and `IDENT_KNOW_CURSES` are set on
it and it yields `FEEL_GOOD_WEAK` when it is an artifact, or an ego item, or
`to_a > 0`, or `to_h + to_d > 0`, and `FEEL_AVERAGE` when none of the four
holds. -/
theorem light_feeling_of_wieldable (E : Env) (k_info : Nat → object_kind)
    (o : object_type) (hw : 0 ≤ E.wield_slot o) (hl : E.wield_slot o ≠ E.INVEN_LITE) :
    (item_dubious E k_info o true = true →
      (value_check_aux2 E k_info o).1 = FEEL_DUBIOUS_WEAK) ∧
    (item_dubious E k_info o true = false →
      has_bits (value_check_aux2 E k_info o).2.ident E.IDENT_UNCURSED ∧
      has_bits (value_check_aux2 E k_info o).2.ident E.IDENT_KNOW_CURSES ∧
      ((artifact_p o = true ∨ ego_item_p o = true ∨ 0 < o.to_a ∨ 0 < o.to_h + o.to_d) →
        (value_check_aux2 E k_info o).1 = FEEL_GOOD_WEAK) ∧
      (¬ (artifact_p o = true ∨ ego_item_p o = true ∨ 0 < o.to_a ∨ 0 < o.to_h + o.to_d) →
        (value_check_aux2 E k_info o).1 = FEEL_AVERAGE)) := by
  have hw2 : ¬ E.wield_slot o < 0 := not_lt.mpr hw
  refine ⟨fun hd => ?_, fun hd => ?_⟩
  · unfold value_check_aux2
    simp [hw2, hl, hd]
  · have hv : value_check_aux2 E k_info o =
        (if artifact_p o = true ∨ ego_item_p o = true ∨ 0 < o.to_a ∨ 0 < o.to_h + o.to_d
          then FEEL_GOOD_WEAK else FEEL_AVERAGE, mark_uncursed E o) := by
      unfold value_check_aux2
      simp only [hw2, hl, hd, (mark_uncursed_fields E o).1, (mark_uncursed_fields E o).2.1,
        (mark_uncursed_fields E o).2.2.1, (mark_uncursed_fields E o).2.2.2.1,
        (mark_uncursed_fields E o).2.2.2.2]
      split_ifs <;> (simp_all; try omega)
    rw [hv]
    refine ⟨(has_bits_mark_uncursed E o).1, (has_bits_mark_uncursed E o).2, ?_, ?_⟩
    · intro h
      simp [h]
    · intro h
      simp [h]

/-- Witness for C17: an ordinary body armour with to-armor +2 and nothing
negative feels good under the light method; a cursed artifact feels dubious. -/
theorem light_feeling_of_wieldable_witness :
    (0 ≤ sample_env.wield_slot padded_armour ∧
      sample_env.wield_slot padded_armour ≠ sample_env.INVEN_LITE ∧
      item_dubious sample_env (kinds_with_to_h 0) padded_armour true = false ∧
      artifact_p padded_armour = false ∧ ego_item_p padded_armour = false ∧
      (value_check_aux2 sample_env (kinds_with_to_h 0) padded_armour).1 = FEEL_GOOD_WEAK) ∧
    (value_check_aux2 sample_env (kinds_with_to_h 0) cursed_artifact_blade).1 =
      FEEL_DUBIOUS_WEAK :=
  ⟨⟨by decide, by decide, by decide, by decide, by decide,
      ((light_feeling_of_wieldable sample_env (kinds_with_to_h 0) padded_armour
        (by decide) (by decide)).2 (by decide)).2.2.1 (Or.inr (Or.inr (Or.inl (by decide))))⟩,
    (light_feeling_of_wieldable sample_env (kinds_with_to_h 0) cursed_artifact_blade
      (by decide) (by decide)).1 (by decide)⟩

/-- C18: the light method never returns `FEEL_SPECIAL` or `FEEL_PERILOUS`; its
result is one of `FEEL_NONE`, `FEEL_DUBIOUS_WEAK`, `FEEL_GOOD_WEAK` and
`FEEL_AVERAGE`. -/
theorem light_feeling_range (E : Env) (k_info : Nat → object_kind) (o : object_type) :
    ((value_check_aux2 E k_info o).1 = FEEL_NONE ∨
      (value_check_aux2 E k_info o).1 = FEEL_DUBIOUS_WEAK ∨
      (value_check_aux2 E k_info o).1 = FEEL_GOOD_WEAK ∨
      (value_check_aux2 E k_info o).1 = FEEL_AVERAGE) ∧
    (value_check_aux2 E k_info o).1 ≠ FEEL_SPECIAL ∧
    (value_check_aux2 E k_info o).1 ≠ FEEL_PERILOUS := by
  unfold value_check_aux2
  simp only []
  split_ifs <;> simp

/-! ## Theorems: the other-property signature -/

/-- Membership in the result of a marking loop: a flag is in the result
exactly when it was there before or is the flag of a deviating index. -/
theorem mem_mark_deviations (n : Nat) (vals : Nat → Int) (neutral : Int) (first : Nat)
    (flags : FlagSet) (x : Nat) :
    x ∈ mark_deviations n vals neutral first flags ↔
      x ∈ flags ∨ ∃ j, j < n ∧ vals j ≠ neutral ∧ x = first + j := by
  have key : ∀ (l : List Nat) (f0 : FlagSet),
      x ∈ l.foldl (fun f j => if vals j ≠ neutral then flag_on f (first + j) else f) f0 ↔
        x ∈ f0 ∨ ∃ j, j ∈ l ∧ vals j ≠ neutral ∧ x = first + j := by
    intro l
    induction l with
    | nil => intro f0; simp
    | cons a l ih =>
      intro f0
      rw [List.foldl_cons, ih]
      by_cases ha : vals a ≠ neutral
      · rw [if_pos ha]
        unfold flag_on
        rw [Finset.mem_insert]
        constructor
        · rintro ((h | h) | ⟨j, hj, hv, hx⟩)
          · exact Or.inr ⟨a, List.mem_cons_self _ _, ha, h⟩
          · exact Or.inl h
          · exact Or.inr ⟨j, List.mem_cons_of_mem _ hj, hv, hx⟩
        · rintro (h | ⟨j, hj, hv, hx⟩)
          · exact Or.inl (Or.inr h)
          · rcases List.mem_cons.mp hj with rfl | hj
            · exact Or.inl (Or.inl hx)
            · exact Or.inr ⟨j, hj, hv, hx⟩
      · rw [if_neg ha]
        constructor
        · rintro (h | ⟨j, hj, hv, hx⟩)
          · exact Or.inl h
          · exact Or.inr ⟨j, List.mem_cons_of_mem _ hj, hv, hx⟩
        · rintro (h | ⟨j, hj, hv, hx⟩)
          · exact Or.inl h
          · rcases List.mem_cons.mp hj with rfl | hj
            · exact absurd hv ha
            · exact Or.inr ⟨j, hj, hv, hx⟩
  unfold mark_deviations
  rw [key]
  simp only [List.mem_range]

/-- Membership after a guarded `if_on`: `if (c) if_on(f, a);`. -/
theorem mem_ite_insert (c : Prop) [Decidable c] (a x : Nat) (f : FlagSet) :
    x ∈ (if c then insert a f else f) ↔ (x = a ∧ c) ∨ x ∈ f := by
  split_ifs with h
  · rw [Finset.mem_insert]
    tauto
  · tauto

/-- Membership after a guarded pair of `if_on`:
`if (c) { if_on(f, b); if_on(f, a); }`. -/
theorem mem_ite_insert2 (c : Prop) [Decidable c] (a b x : Nat) (f : FlagSet) :
    x ∈ (if c then insert a (insert b f) else f) ↔ ((x = a ∨ x = b) ∧ c) ∨ x ∈ f := by
  split_ifs with h
  · rw [Finset.mem_insert, Finset.mem_insert]
    tauto
  · tauto

/-- Regrouping of the branches of `flags_other`: the order in which the flags
are set against the order in which the signature is described. -/
theorem flags_other_shape (dd a ac d h pr ps pb cac cta ctd cw sm cth carm : Prop) :
    (dd ∨ (a ∨ ac) ∧ (cac ∨ carm) ∨ a ∧ (cta ∨ carm) ∨ d ∧ ((ctd ∨ cw) ∨ sm) ∨
        h ∧ ((cth ∨ cw) ∨ sm) ∨ pr ∨ ps ∨ pb) ↔
      pr ∨ ps ∨ pb ∨ h ∧ (cth ∨ cw ∨ sm) ∨ d ∧ (ctd ∨ cw ∨ sm) ∨
        a ∧ (cta ∨ cac ∨ carm) ∨ ac ∧ (cac ∨ carm) ∨ dd := by
  constructor
  · rintro (h | ⟨h | h, c | c⟩ | ⟨h, c | c⟩ | ⟨h, (c | c) | c⟩ | ⟨h, (c | c) | c⟩ | h | h | h) <;>
      simp [*]
  · rintro (h | h | h | ⟨h, c | c | c⟩ | ⟨h, c | c | c⟩ | ⟨h, c | c | c⟩ | ⟨h, c | c⟩ | h) <;>
      simp [*]

/-- Membership in the signature computed by `flags_other`, branch by branch. -/
theorem mem_flags_other (E : Env) (o : object_type) (x : Nat) :
    x ∈ flags_other E o ↔
      (∃ j, j < E.MAX_P_RES ∧ o.percent_res j ≠ E.RES_LEVEL_BASE ∧
        x = E.OBJECT_ID_BASE_RESIST + j) ∨
      (∃ j, j < E.MAX_P_SLAY ∧ o.multiple_slay j ≠ E.MULTIPLE_BASE ∧
        x = E.OBJECT_ID_BASE_SLAY + j) ∨
      (∃ j, j < E.MAX_P_BRAND ∧ o.multiple_brand j ≠ E.MULTIPLE_BASE ∧
        x = E.OBJECT_ID_BASE_BRAND + j) ∨
      (x = E.IF_TO_H ∧ (o.to_h ≠ 0 ∨ E.is_weapon o = true ∨ E.OF_SHOW_MODS ∈ o.flags_obj)) ∨
      (x = E.IF_TO_D ∧ (o.to_d ≠ 0 ∨ E.is_weapon o = true ∨ E.OF_SHOW_MODS ∈ o.flags_obj)) ∨
      (x = E.IF_TO_A ∧ (o.to_a ≠ 0 ∨ o.ac ≠ 0 ∨ E.is_armour o = true)) ∨
      (x = E.IF_AC ∧ (o.ac ≠ 0 ∨ E.is_armour o = true)) ∨
      x = E.IF_DD_DS := by
  unfold flags_other flag_on flag_has
  simp only [Bool.or_eq_true, decide_eq_true_eq]
  generalize hf3 : mark_deviations E.MAX_P_BRAND o.multiple_brand E.MULTIPLE_BASE
    E.OBJECT_ID_BASE_BRAND
      (mark_deviations E.MAX_P_SLAY o.multiple_slay E.MULTIPLE_BASE E.OBJECT_ID_BASE_SLAY
        (mark_deviations E.MAX_P_RES o.percent_res E.RES_LEVEL_BASE E.OBJECT_ID_BASE_RESIST
          ∅)) = f3
  have h3 : x ∈ f3 ↔
      (∃ j, j < E.MAX_P_RES ∧ o.percent_res j ≠ E.RES_LEVEL_BASE ∧
        x = E.OBJECT_ID_BASE_RESIST + j) ∨
      (∃ j, j < E.MAX_P_SLAY ∧ o.multiple_slay j ≠ E.MULTIPLE_BASE ∧
        x = E.OBJECT_ID_BASE_SLAY + j) ∨
      (∃ j, j < E.MAX_P_BRAND ∧ o.multiple_brand j ≠ E.MULTIPLE_BASE ∧
        x = E.OBJECT_ID_BASE_BRAND + j) := by
    rw [← hf3]
    simp only [mem_mark_deviations, Finset.not_mem_empty, false_or, or_assoc]
  simp only [Finset.mem_insert, mem_ite_insert2, mem_ite_insert, h3]
  exact flags_other_shape _ _ _ _ _ _ _ _ _ _ _ _ _ _ _

/-- The five single flags differ from each other when the other-property flags
are pairwise distinct. -/
theorem single_flags_distinct (E : Env) (hE : E.other_flags_distinct) :
    (E.IF_TO_H ≠ E.IF_TO_D ∧ E.IF_TO_H ≠ E.IF_TO_A ∧ E.IF_TO_H ≠ E.IF_AC ∧
      E.IF_TO_H ≠ E.IF_DD_DS) ∧
    (E.IF_TO_D ≠ E.IF_TO_A ∧ E.IF_TO_D ≠ E.IF_AC ∧ E.IF_TO_D ≠ E.IF_DD_DS) ∧
    (E.IF_TO_A ≠ E.IF_AC ∧ E.IF_TO_A ≠ E.IF_DD_DS) ∧ E.IF_AC ≠ E.IF_DD_DS := by
  have hn := hE.2.2.2.2
  simp only [List.nodup_cons, List.mem_cons, List.mem_singleton, not_or, List.not_mem_nil,
    not_false_eq_true, List.nodup_nil, and_true] at hn
  obtain ⟨⟨h1, h2, h3, h4⟩, ⟨h5, h6, h7⟩, ⟨h8, h9⟩, h10⟩ := hn
  exact ⟨⟨h1, h2, h3, h4⟩, ⟨h5, h6, h7⟩, ⟨h8, h9⟩, h10⟩

/-- The other-property flags of the concrete environment are pairwise
distinct. -/
theorem sample_env_other_flags_distinct : sample_env.other_flags_distinct := by
  unfold Env.other_flags_distinct
  refine ⟨?_, ?_, ?_, ?_, ?_⟩
  · intro j k hj hk
    simp only [sample_env] at hj hk ⊢
    omega
  · intro j k hj hk
    simp only [sample_env] at hj hk ⊢
    omega
  · intro j k hj hk
    simp only [sample_env] at hj hk ⊢
    omega
  · intro f hf
    simp only [sample_env, List.mem_cons, List.mem_singleton, List.not_mem_nil, or_false] at hf ⊢
    refine ⟨?_, ?_, ?_⟩ <;> intro j hj <;> omega
  · simp only [sample_env]
    decide

/-- C19: when the other-property flags are pairwise distinct, the signature
computed by `flags_other` holds the resist bit `OBJECT_ID_BASE_RESIST + j`
exactly when `percent_res[j]` differs from `RES_LEVEL_BASE`, the slay bit
`OBJECT_ID_BASE_SLAY + j` exactly when `multiple_slay[j]` differs from
`MULTIPLE_BASE`, the brand bit `OBJECT_ID_BASE_BRAND + j` exactly when
`multiple_brand[j]` differs from `MULTIPLE_BASE`, and always the bit `IF_DD_DS`;
the buffer the function fills does not depend on what it held before. -/
theorem flags_other_resist_slay_brand (E : Env) (hE : E.other_flags_distinct)
    (o : object_type) :
    (∀ j, j < E.MAX_P_RES →
      (E.OBJECT_ID_BASE_RESIST + j ∈ flags_other E o ↔ o.percent_res j ≠ E.RES_LEVEL_BASE)) ∧
    (∀ j, j < E.MAX_P_SLAY →
      (E.OBJECT_ID_BASE_SLAY + j ∈ flags_other E o ↔ o.multiple_slay j ≠ E.MULTIPLE_BASE)) ∧
    (∀ j, j < E.MAX_P_BRAND →
      (E.OBJECT_ID_BASE_BRAND + j ∈ flags_other E o ↔ o.multiple_brand j ≠ E.MULTIPLE_BASE)) ∧
    E.IF_DD_DS ∈ flags_other E o ∧
    ∀ all_flags : FlagSet, flags_other_into E o all_flags = flags_other E o := by
  obtain ⟨hRS, hRB, hSB, hsingle, -⟩ := hE
  have hH := hsingle E.IF_TO_H (by simp)
  have hD := hsingle E.IF_TO_D (by simp)
  have hA := hsingle E.IF_TO_A (by simp)
  have hAC := hsingle E.IF_AC (by simp)
  have hDD := hsingle E.IF_DD_DS (by simp)
  refine ⟨fun j hj => ?_, fun j hj => ?_, fun j hj => ?_, ?_, fun _ => rfl⟩
  · rw [mem_flags_other]
    constructor
    · rintro (⟨k, hk, hv, he⟩ | ⟨k, hk, hv, he⟩ | ⟨k, hk, hv, he⟩ | ⟨he, -⟩ | ⟨he, -⟩ |
        ⟨he, -⟩ | ⟨he, -⟩ | he)
      · rw [Nat.add_left_cancel he]
        exact hv
      · exact absurd he (hRS j k hj hk)
      · exact absurd he (hRB j k hj hk)
      · exact absurd he (hH.1 j hj)
      · exact absurd he (hD.1 j hj)
      · exact absurd he (hA.1 j hj)
      · exact absurd he (hAC.1 j hj)
      · exact absurd he (hDD.1 j hj)
    · intro hv
      exact Or.inl ⟨j, hj, hv, rfl⟩
  · rw [mem_flags_other]
    constructor
    · rintro (⟨k, hk, hv, he⟩ | ⟨k, hk, hv, he⟩ | ⟨k, hk, hv, he⟩ | ⟨he, -⟩ | ⟨he, -⟩ |
        ⟨he, -⟩ | ⟨he, -⟩ | he)
      · exact absurd he.symm (hRS k j hk hj)
      · rw [Nat.add_left_cancel he]
        exact hv
      · exact absurd he (hSB j k hj hk)
      · exact absurd he (hH.2.1 j hj)
      · exact absurd he (hD.2.1 j hj)
      · exact absurd he (hA.2.1 j hj)
      · exact absurd he (hAC.2.1 j hj)
      · exact absurd he (hDD.2.1 j hj)
    · intro hv
      exact Or.inr (Or.inl ⟨j, hj, hv, rfl⟩)
  · rw [mem_flags_other]
    constructor
    · rintro (⟨k, hk, hv, he⟩ | ⟨k, hk, hv, he⟩ | ⟨k, hk, hv, he⟩ | ⟨he, -⟩ | ⟨he, -⟩ |
        ⟨he, -⟩ | ⟨he, -⟩ | he)
      · exact absurd he.symm (hRB k j hk hj)
      · exact absurd he.symm (hSB k j hk hj)
      · rw [Nat.add_left_cancel he]
        exact hv
      · exact absurd he (hH.2.2 j hj)
      · exact absurd he (hD.2.2 j hj)
      · exact absurd he (hA.2.2 j hj)
      · exact absurd he (hAC.2.2 j hj)
      · exact absurd he (hDD.2.2 j hj)
    · intro hv
      exact Or.inr (Or.inr (Or.inl ⟨j, hj, hv, rfl⟩))
  · rw [mem_flags_other]
    exact Or.inr (Or.inr (Or.inr (Or.inr (Or.inr (Or.inr (Or.inr rfl))))))

/-- Witness for C19: in the concrete environment a ring whose first resistance
deviates has the first resist bit in its signature and not the second. -/
theorem flags_other_resist_slay_brand_witness :
    sample_env.other_flags_distinct ∧
      sample_env.OBJECT_ID_BASE_RESIST + 0 ∈ flags_other sample_env acid_ring ∧
      sample_env.OBJECT_ID_BASE_RESIST + 1 ∉ flags_other sample_env acid_ring ∧
      sample_env.IF_DD_DS ∈ flags_other sample_env acid_ring :=
  ⟨sample_env_other_flags_distinct,
    ((flags_other_resist_slay_brand sample_env sample_env_other_flags_distinct acid_ring).1 0
      (by decide)).2 (by decide),
    fun h => ((flags_other_resist_slay_brand sample_env sample_env_other_flags_distinct
      acid_ring).1 1 (by decide)).1 h (by decide),
    (flags_other_resist_slay_brand sample_env sample_env_other_flags_distinct
      acid_ring).2.2.2.1⟩

/-- C20 (as stated, refuted): a ring that is no weapon, with to-hit and
to-damage 0, has the bits `IF_TO_H` and `IF_TO_D` in its signature because it
carries the object flag `OF_SHOW_MODS`. -/
theorem flags_other_to_hit_by_show_mods :
    show_mods_ring.to_h = 0 ∧ show_mods_ring.to_d = 0 ∧
      sample_env.is_weapon show_mods_ring = false ∧
      sample_env.IF_TO_H ∈ flags_other sample_env show_mods_ring ∧
      sample_env.IF_TO_D ∈ flags_other sample_env show_mods_ring := by
  decide

/-- C20 (amended): when the other-property flags are pairwise distinct, the
signature computed by `flags_other` holds `IF_TO_H` exactly when `to_h` is
nonzero, or the item is a weapon, or it carries the object flag
`OF_SHOW_MODS`; and `IF_TO_D` exactly when `to_d` is nonzero, or the item is a
weapon, or it carries `OF_SHOW_MODS`. -/
theorem flags_other_to_hit_to_dam (E : Env) (hE : E.other_flags_distinct) (o : object_type) :
    (E.IF_TO_H ∈ flags_other E o ↔
      o.to_h ≠ 0 ∨ E.is_weapon o = true ∨ E.OF_SHOW_MODS ∈ o.flags_obj) ∧
    (E.IF_TO_D ∈ flags_other E o ↔
      o.to_d ≠ 0 ∨ E.is_weapon o = true ∨ E.OF_SHOW_MODS ∈ o.flags_obj) := by
  obtain ⟨⟨hHD, hHA, hHAC, hHDD⟩, ⟨hDA, hDAC, hDDD⟩, -, -⟩ := single_flags_distinct E hE
  obtain ⟨-, -, -, hsingle, -⟩ := hE
  have hH := hsingle E.IF_TO_H (by simp)
  have hD := hsingle E.IF_TO_D (by simp)
  constructor
  · rw [mem_flags_other]
    constructor
    · rintro (⟨k, hk, -, he⟩ | ⟨k, hk, -, he⟩ | ⟨k, hk, -, he⟩ | ⟨-, hc⟩ | ⟨he, -⟩ |
        ⟨he, -⟩ | ⟨he, -⟩ | he)
      · exact absurd he.symm (hH.1 k hk)
      · exact absurd he.symm (hH.2.1 k hk)
      · exact absurd he.symm (hH.2.2 k hk)
      · exact hc
      · exact absurd he hHD
      · exact absurd he hHA
      · exact absurd he hHAC
      · exact absurd he hHDD
    · intro hc
      exact Or.inr (Or.inr (Or.inr (Or.inl ⟨rfl, hc⟩)))
  · rw [mem_flags_other]
    constructor
    · rintro (⟨k, hk, -, he⟩ | ⟨k, hk, -, he⟩ | ⟨k, hk, -, he⟩ | ⟨he, -⟩ | ⟨-, hc⟩ |
        ⟨he, -⟩ | ⟨he, -⟩ | he)
      · exact absurd he.symm (hD.1 k hk)
      · exact absurd he.symm (hD.2.1 k hk)
      · exact absurd he.symm (hD.2.2 k hk)
      · exact absurd he.symm hHD
      · exact hc
      · exact absurd he hDA
      · exact absurd he hDAC
      · exact absurd he hDDD
    · intro hc
      exact Or.inr (Or.inr (Or.inr (Or.inr (Or.inl ⟨rfl, hc⟩))))

/-- Witness for amended C20: in the concrete environment the blade with
to-hit -2 has `IF_TO_H` in its signature and a plain ring has not. -/
theorem flags_other_to_hit_to_dam_witness :
    sample_env.other_flags_distinct ∧
      sample_env.IF_TO_H ∈ flags_other sample_env clumsy_blade ∧
      sample_env.IF_TO_H ∉ flags_other sample_env (plain_item 45) :=
  ⟨sample_env_other_flags_distinct,
    (flags_other_to_hit_to_dam sample_env sample_env_other_flags_distinct clumsy_blade).1.2
      (Or.inl (by decide)),
    fun h => by
      have h2 := (flags_other_to_hit_to_dam sample_env sample_env_other_flags_distinct
        (plain_item 45)).1.1 h
      revert h2
      decide⟩

/-! ## Theorems: a revealed curse proves the ego type -/

/-- Two flag sets that meet still meet when both grow. -/
theorem flag_is_inter_mono {a a2 b b2 : FlagSet} (ha : a ⊆ a2) (hb : b ⊆ b2)
    (h : flag_is_inter a b = true) : flag_is_inter a2 b2 = true := by
  unfold flag_is_inter at h ⊢
  rw [decide_eq_true_eq] at h ⊢
  exact Finset.Nonempty.mono (Finset.inter_subset_inter ha hb) h

/-- The ego inference survives when the object keeps its template index and
its fully-identified bit, the template stays seen, and the known sets of the
object and the identification sets of the template only grow. -/
theorem has_ego_properties_of_le (E : Env) (e1 e2 : Nat → ego_item_type)
    (o1 o2 : object_type) (hn : o2.name2 = o1.name2)
    (hid : o1.ident &&& E.IDENT_KNOWN ≠ 0 → o2.ident &&& E.IDENT_KNOWN ≠ 0)
    (hs : (e1 o1.name2).everseen = true → (e2 o1.name2).everseen = true)
    (htc : (e1 o1.name2).id_curse ⊆ (e2 o1.name2).id_curse)
    (hto : (e1 o1.name2).id_obj ⊆ (e2 o1.name2).id_obj)
    (htt : (e1 o1.name2).id_other ⊆ (e2 o1.name2).id_other)
    (hk : known_le o1 o2) (h : has_ego_properties E e1 o1 = true) :
    has_ego_properties E e2 o2 = true := by
  unfold has_ego_properties at h ⊢
  simp only [] at h ⊢
  rw [hn]
  by_cases h0 : o1.name2 = 0
  · simp [h0] at h
  · rw [if_neg h0] at h ⊢
    by_cases hK2 : o2.ident &&& E.IDENT_KNOWN ≠ 0
    · rw [if_pos hK2]
    · have hK : ¬ (o1.ident &&& E.IDENT_KNOWN ≠ 0) := fun hc => hK2 (hid hc)
      rw [if_neg hK] at h
      rw [if_neg hK2]
      by_cases hs1 : (e1 o1.name2).everseen = true
      · simp only [hs1, hs hs1, Bool.not_true, Bool.false_eq_true, if_false] at h ⊢
        by_cases c1 : flag_is_inter (e1 o1.name2).id_curse o1.id_curse = true
        · rw [if_pos (flag_is_inter_mono htc hk.1 c1)]
        · rw [if_neg c1] at h
          by_cases c2 : flag_is_inter (e1 o1.name2).id_obj o1.id_obj = true
          · have c2b := flag_is_inter_mono hto hk.2.1 c2
            simp [c2b]
          · rw [if_neg c2] at h
            by_cases c3 : flag_is_inter (e1 o1.name2).id_other o1.id_other = true
            · have c3b := flag_is_inter_mono htt hk.2.2 c3
              simp [c3b]
            · simp [c3] at h
      · simp [hs1] at h

/-- No inference is lost from a state to itself. -/
theorem inference_le_refl (E : Env) (s : State) : inference_le E s s := fun _ h => h

/-- Steps that lose no inference compose. -/
theorem inference_le_trans {E : Env} {a b c : State} (h1 : inference_le E a b)
    (h2 : inference_le E b c) : inference_le E a c := fun r h => h2 r (h1 r h)

/-- A state with the objects and templates of `s` loses no inference. -/
theorem inference_le_of_same (E : Env) (s t : State) (ho : ∀ r, t.obj r = s.obj r)
    (he : t.e_info = s.e_info) : inference_le E s t := by
  intro r h
  rw [ho r, he]
  exact h

/-- Storing an object with the template index and status word of the object
it replaces, and at least its knowledge, loses no inference. -/
theorem inference_le_set_obj (E : Env) (s : State) (r : ObjRef) (o : object_type)
    (hn : o.name2 = (s.obj r).name2) (hid : o.ident = (s.obj r).ident)
    (hk : known_le (s.obj r) o) : inference_le E s (s.set_obj r o) := by
  intro r2 h
  rw [(p_ptr_sets_set_obj s r o).2.2]
  by_cases hr : r2 = r
  · subst hr
    rw [obj_set_obj_same]
    exact has_ego_properties_of_le E s.e_info s.e_info _ o hn (fun hc => by rw [hid]; exact hc)
      (fun hc => hc) (Finset.Subset.refl _) (Finset.Subset.refl _) (Finset.Subset.refl _) hk h
  · rw [obj_set_obj_other s r r2 o hr]
    exact h

/-- The description loses no inference. -/
theorem inference_le_label_describe (E : Env) (r : ObjRef) (item : Int) (s : State) :
    inference_le E s (label_describe E r item s) := by
  unfold label_describe
  split_ifs
  · exact inference_le_of_same E _ _ (fun r2 => by cases r2 <;> rfl) rfl
  · exact inference_le_of_same E _ _ (fun r2 => by cases r2 <;> rfl) rfl
  · exact inference_le_refl E _

/-- The promotion routine loses no inference. -/
theorem inference_le_label_as_ego (E : Env) (hi : E.keeps_inference) (r : ObjRef) (item : Int)
    (s : State) : inference_le E s (label_as_ego E r item s) := by
  unfold label_as_ego
  simp only []
  refine inference_le_trans ?_ (inference_le_label_describe E r item _)
  refine inference_le_trans ?_ (hi.1 _)
  refine inference_le_trans ?_
    (inference_le_of_same E _ (label_requests E _) (fun r2 => by cases r2 <;> rfl) rfl)
  exact inference_le_set_obj E s r _ rfl rfl (known_le_label_object E _ _)

/-- The step "Ego item?" loses no inference. -/
theorem inference_le_ego_item_check (E : Env) (hi : E.keeps_inference) (b : Bool) (r : ObjRef)
    (item : Int) (s : State) : inference_le E s (ego_item_check E b r item s) := by
  unfold ego_item_check
  split_ifs
  · exact inference_le_label_as_ego E hi r item s
  · exact inference_le_refl E s

/-- The step "Fully identified now?" loses no inference. -/
theorem inference_le_fully_identified_now (E : Env) (hi : E.keeps_inference) (r : ObjRef)
    (s : State) : inference_le E s (fully_identified_now E r s) := by
  unfold fully_identified_now
  split_ifs
  · exact hi.2 r s
  · exact inference_le_refl E s

/-- Once a curse of the template's identification set is marked known on an
ego item whose template has been seen, the ego inference is true. -/
theorem has_ego_properties_curse_evidence (E : Env) (s : State) (r : ObjRef) (c : Nat)
    (hego : (s.obj r).name2 ≠ 0) (hseen : (s.e_info (s.obj r).name2).everseen = true)
    (htmpl : c ∈ (s.e_info (s.obj r).name2).id_curse) :
    has_ego_properties E (curse_evidence E c r s).e_info ((curse_evidence E c r s).obj r) =
      true := by
  unfold curse_evidence
  simp only []
  rw [obj_set_obj_same, (p_ptr_sets_set_obj s r _).2.2]
  unfold has_ego_properties
  simp only []
  rw [if_neg hego]
  split_ifs with h1 h2 h3 h4 h5
  · rfl
  · simp [hseen] at h2
  · rfl
  · rfl
  · rfl
  · exfalso
    apply h3
    unfold flag_is_inter flag_on
    rw [decide_eq_true_eq]
    exact ⟨c, Finset.mem_inter.mpr ⟨htmpl, Finset.mem_insert_self _ _⟩⟩

/-- Setting the bits of a mask makes them all test as set. -/
theorem or_and_mask (a b : Nat) : (a ||| b) &&& b = b := by
  apply Nat.eq_of_testBit_eq
  intro i
  simp only [Nat.testBit_and, Nat.testBit_or]
  cases Nat.testBit a i <;> cases Nat.testBit b i <;> rfl

/-- The collaborators of the concrete environment lose no inference. -/
theorem sample_env_keeps_inference : sample_env.keeps_inference := by
  constructor
  · intro s
    exact inference_le_of_same _ _ _ (fun r2 => by cases r2 <;> rfl) rfl
  · intro r s
    show inference_le sample_env s (sample_identify_object r s)
    have h1 : inference_le sample_env s
        (s.set_obj r { s.obj r with ident := (s.obj r).ident ||| 0x08 }) := by
      intro r2 h
      rw [(p_ptr_sets_set_obj s r _).2.2]
      by_cases hr : r2 = r
      · subst hr
        rw [obj_set_obj_same]
        refine has_ego_properties_of_le sample_env s.e_info s.e_info (s.obj r2) _ rfl ?_
          (fun hc => hc) (Finset.Subset.refl _) (Finset.Subset.refl _) (Finset.Subset.refl _)
          ⟨Finset.Subset.refl _, Finset.Subset.refl _, Finset.Subset.refl _⟩ h
        intro _
        show ((s.obj r2).ident ||| 8) &&& 8 ≠ 0
        rw [or_and_mask]
        decide
      · rw [obj_set_obj_other s r r2 _ hr]
        exact h
    unfold sample_identify_object
    simp only []
    split_ifs
    · refine inference_le_trans h1 ?_
      intro r2 h
      have ho : ∀ (t : State) (tbl : Nat → ego_item_type),
          ({ t with e_info := tbl } : State).obj r2 = t.obj r2 := by
        intro t tbl
        cases r2 <;> rfl
      rw [ho]
      refine has_ego_properties_of_le sample_env _ _ _ _ rfl (fun hc => hc) ?_ ?_ ?_ ?_
        (known_le_refl _) h
      all_goals
        by_cases hx : ((s.set_obj r { s.obj r with ident := (s.obj r).ident ||| 0x08 }).obj
          r2).name2 = (s.obj r).name2
        · simp [Function.update, hx]
        · simp [Function.update, hx]
    · exact h1

/-- The pointer of the positive target `i + 1` is inventory slot `i`. -/
theorem target_succ (i : Nat) : target ((i : Int) + 1) = .inven i := by
  unfold target
  have h : (i : Int) + 1 > 0 := by omega
  rw [if_pos h]
  congr 1
  omega

/-- C11 (as stated, refuted): curse 4 is noticed on the wielded ego sword of
slot 24, which carries it; the sword is not fully identified, its template has
been seen and has curse 4 in its curse-flag set, and the inference is false
beforehand.  After the call the inference is still false and the object flags
of the template are not known: the identification curse set `id_curse` of the
template is empty. -/
theorem notice_curse_misses_curse_flag_match :
    (curse_flag_state.obj (.inven 24)).name2 ≠ 0 ∧
      (curse_flag_state.obj (.inven 24)).ident &&& sample_env.IDENT_KNOWN = 0 ∧
      (curse_flag_state.e_info (curse_flag_state.obj (.inven 24)).name2).everseen = true ∧
      has_ego_properties sample_env curse_flag_state.e_info
        (curse_flag_state.obj (.inven 24)) = false ∧
      4 ∈ (curse_flag_state.obj (.inven 24)).flags_curse ∧
      4 ∈ (curse_flag_state.e_info (curse_flag_state.obj (.inven 24)).name2).flags_curse ∧
      has_ego_properties sample_env (notice_curse sample_env 4 25 curse_flag_state).e_info
        ((notice_curse sample_env 4 25 curse_flag_state).obj (.inven 24)) = false ∧
      ¬ ((curse_flag_state.e_info (curse_flag_state.obj (.inven 24)).name2).flags_obj ⊆
        ((notice_curse sample_env 4 25 curse_flag_state).obj (.inven 24)).id_obj) := by
  decide

/-- C11, amended: let an inventory slot, in particular an equipment slot, hold
an ego item that is not fully identified, whose template has been seen and for which
`has_ego_properties` is false, and let `c` be a curse the item carries and that
is in the identification curse set of its template.  When the collaborators
retract no knowledge and lose no inference, after `notice_curse(c, slot + 1)`
the inference is true for the item and its known-object-flag set contains the
full object-flag set of the template. -/
theorem notice_curse_reveals_ego (E : Env) (hk : E.keeps_knowledge) (hi : E.keeps_inference)
    (s : State) (c i : Nat)
    (hego : (s.obj (.inven i)).name2 ≠ 0)
    (_hunk : (s.obj (.inven i)).ident &&& E.IDENT_KNOWN = 0)
    (hseen : (s.e_info (s.obj (.inven i)).name2).everseen = true)
    (hbefore : has_ego_properties E s.e_info (s.obj (.inven i)) = false)
    (hcarry : c ∈ (s.obj (.inven i)).flags_curse)
    (htmpl : c ∈ (s.e_info (s.obj (.inven i)).name2).id_curse) :
    has_ego_properties E (notice_curse E c (i + 1) s).e_info
        ((notice_curse E c (i + 1) s).obj (.inven i)) = true ∧
      promoted s (.inven i) (notice_curse E c (i + 1) s) := by
  have hitem : ((i : Int) + 1) ≠ 0 := by omega
  have hflag : flag_has (s.obj (.inven i)).flags_curse c = true := by
    unfold flag_has
    rw [decide_eq_true_eq]
    exact hcarry
  have hafter := has_ego_properties_curse_evidence E s (.inven i) c hego hseen htmpl
  have hcall : notice_curse E c (i + 1) s = notice_curse_at E c (i + 1) (.inven i) s := by
    unfold notice_curse
    rw [if_pos hitem, target_succ]
  rw [hcall]
  constructor
  · unfold notice_curse_at
    simp only []
    rw [if_pos hflag]
    exact inference_le_fully_identified_now E hi _ _ _
      (inference_le_ego_item_check E hi _ _ _ _ _ hafter)
  · apply promoted_notice_curse_at E hk
    unfold curse_step
    rw [if_pos hflag]
    exact ⟨hbefore, hafter⟩

/-- Witness for C11: curse 4 is noticed on the wielded ego sword of slot 24
(`INVEN_WIELD`) in a state of cursed ego swords whose template has been seen. -/
theorem notice_curse_reveals_ego_witness :
    (sample_env.keeps_knowledge ∧ sample_env.keeps_inference) ∧
      (sample_env.INVEN_WIELD = 24 ∧
        (cursed_sword_state.obj (.inven 24)).name2 ≠ 0 ∧
        (cursed_sword_state.obj (.inven 24)).ident &&& sample_env.IDENT_KNOWN = 0 ∧
        has_ego_properties sample_env cursed_sword_state.e_info
          (cursed_sword_state.obj (.inven 24)) = false) ∧
      has_ego_properties sample_env (notice_curse sample_env 4 (24 + 1) cursed_sword_state).e_info
        ((notice_curse sample_env 4 (24 + 1) cursed_sword_state).obj (.inven 24)) = true ∧
      promoted cursed_sword_state (.inven 24)
        (notice_curse sample_env 4 (24 + 1) cursed_sword_state) :=
  ⟨⟨sample_env_keeps_knowledge, sample_env_keeps_inference⟩,
    ⟨rfl, by decide, by decide, by decide⟩,
    notice_curse_reveals_ego sample_env sample_env_keeps_knowledge sample_env_keeps_inference
      cursed_sword_state 4 24 (by decide) (by decide) (by decide) (by decide) (by decide)
      (by decide)⟩

/-- C21 (as stated, refuted): a weapon that is no armour, with to-armor 0 and
base armour class 1, has the bit `IF_TO_A` in its signature: the armour-class
branch of `flags_other` sets `IF_TO_A` next to `IF_AC`. -/
theorem flags_other_to_ac_by_base_ac :
    guarding_blade.to_a = 0 ∧ sample_env.is_armour guarding_blade = false ∧
      sample_env.IF_TO_A ∈ flags_other sample_env guarding_blade := by
  decide

/-- C21 (amended): when the other-property flags are pairwise distinct, the
signature computed by `flags_other` holds `IF_TO_A` exactly when `to_a` is
nonzero, or `ac` is nonzero, or the item is armour; and `IF_AC` exactly when
`ac` is nonzero or the item is armour. -/
theorem flags_other_to_ac_and_ac (E : Env) (hE : E.other_flags_distinct) (o : object_type) :
    (E.IF_TO_A ∈ flags_other E o ↔ o.to_a ≠ 0 ∨ o.ac ≠ 0 ∨ E.is_armour o = true) ∧
    (E.IF_AC ∈ flags_other E o ↔ o.ac ≠ 0 ∨ E.is_armour o = true) := by
  obtain ⟨⟨-, hHA, hHAC, -⟩, ⟨hDA, hDAC, -⟩, ⟨hAAC, hADD⟩, hACDD⟩ := single_flags_distinct E hE
  obtain ⟨-, -, -, hsingle, -⟩ := hE
  have hA := hsingle E.IF_TO_A (by simp)
  have hAC := hsingle E.IF_AC (by simp)
  constructor
  · rw [mem_flags_other]
    constructor
    · rintro (⟨k, hk, -, he⟩ | ⟨k, hk, -, he⟩ | ⟨k, hk, -, he⟩ | ⟨he, -⟩ | ⟨he, -⟩ |
        ⟨-, hc⟩ | ⟨he, -⟩ | he)
      · exact absurd he.symm (hA.1 k hk)
      · exact absurd he.symm (hA.2.1 k hk)
      · exact absurd he.symm (hA.2.2 k hk)
      · exact absurd he.symm hHA
      · exact absurd he.symm hDA
      · exact hc
      · exact absurd he hAAC
      · exact absurd he hADD
    · intro hc
      exact Or.inr (Or.inr (Or.inr (Or.inr (Or.inr (Or.inl ⟨rfl, hc⟩)))))
  · rw [mem_flags_other]
    constructor
    · rintro (⟨k, hk, -, he⟩ | ⟨k, hk, -, he⟩ | ⟨k, hk, -, he⟩ | ⟨he, -⟩ | ⟨he, -⟩ |
        ⟨he, -⟩ | ⟨-, hc⟩ | he)
      · exact absurd he.symm (hAC.1 k hk)
      · exact absurd he.symm (hAC.2.1 k hk)
      · exact absurd he.symm (hAC.2.2 k hk)
      · exact absurd he.symm hHAC
      · exact absurd he.symm hDAC
      · exact absurd he.symm hAAC
      · exact hc
      · exact absurd he hACDD
    · intro hc
      exact Or.inr (Or.inr (Or.inr (Or.inr (Or.inr (Or.inr (Or.inl ⟨rfl, hc⟩))))))

/-- Witness for amended C21: in the concrete environment the ring with
to-armor +3 has `IF_TO_A` and not `IF_AC` in its signature. -/
theorem flags_other_to_ac_and_ac_witness :
    sample_env.other_flags_distinct ∧
      sample_env.IF_TO_A ∈ flags_other sample_env protection_ring ∧
      sample_env.IF_AC ∉ flags_other sample_env protection_ring :=
  ⟨sample_env_other_flags_distinct,
    (flags_other_to_ac_and_ac sample_env sample_env_other_flags_distinct protection_ring).1.2
      (Or.inl (by decide)),
    fun h => by
      have h2 := (flags_other_to_ac_and_ac sample_env sample_env_other_flags_distinct
        protection_ring).2.1 h
      revert h2
      decide⟩

/-! ## Theorems: the promotion routine -/

/-- The requests of the promotion leave every object as it is. -/
theorem obj_label_requests (E : Env) (s : State) (r : ObjRef) :
    (label_requests E s).obj r = s.obj r := by
  cases r <;> rfl

/-- The description of the promotion leaves every object as it is. -/
theorem obj_label_describe (E : Env) (r : ObjRef) (item : Int) (s : State) (r2 : ObjRef) :
    (label_describe E r item s).obj r2 = s.obj r2 := by
  unfold label_describe
  split_ifs <;> cases r2 <;> rfl

/-- With a quiet `handle_stuff`, the object that `label_as_ego` leaves behind
is the promoted object. -/
theorem obj_label_as_ego (E : Env) (hq : E.handle_stuff_quiet) (r : ObjRef) (item : Int)
    (s : State) :
    (label_as_ego E r item s).obj r = label_object E (s.e_info (s.obj r).name2) (s.obj r) := by
  unfold label_as_ego
  simp only []
  rw [obj_label_describe, (hq _).1, obj_label_requests, obj_set_obj_same]

/-- The concrete `handle_stuff` is quiet. -/
theorem sample_env_handle_stuff_quiet : sample_env.handle_stuff_quiet := by
  intro s
  exact ⟨fun r => by cases r <;> rfl, rfl, rfl, rfl⟩

/-- C28: with a quiet `handle_stuff`, after `label_as_ego` the known-object-flag
set of the item is its previous value united with the full object-flag set of
the template; its known-curse set is the previous value united with the
template's curse flags when the template carries `OF_SHOW_CURSE`, and the
previous value when it does not. -/
theorem label_as_ego_object_flags_and_curses (E : Env) (hq : E.handle_stuff_quiet)
    (r : ObjRef) (item : Int) (s : State) :
    ((label_as_ego E r item s).obj r).id_obj =
        (s.obj r).id_obj ∪ (s.e_info (s.obj r).name2).flags_obj ∧
      (E.OF_SHOW_CURSE ∈ (s.e_info (s.obj r).name2).flags_obj →
        ((label_as_ego E r item s).obj r).id_curse =
          (s.obj r).id_curse ∪ (s.e_info (s.obj r).name2).flags_curse) ∧
      (E.OF_SHOW_CURSE ∉ (s.e_info (s.obj r).name2).flags_obj →
        ((label_as_ego E r item s).obj r).id_curse = (s.obj r).id_curse) := by
  rw [obj_label_as_ego E hq]
  refine ⟨rfl, fun h => ?_, fun h => ?_⟩
  · show (if flag_has (s.e_info (s.obj r).name2).flags_obj E.OF_SHOW_CURSE = true
      then flag_union (s.obj r).id_curse (s.e_info (s.obj r).name2).flags_curse
      else (s.obj r).id_curse) = _
    rw [if_pos (by unfold flag_has; rw [decide_eq_true_eq]; exact h)]
    rfl
  · show (if flag_has (s.e_info (s.obj r).name2).flags_obj E.OF_SHOW_CURSE = true
      then flag_union (s.obj r).id_curse (s.e_info (s.obj r).name2).flags_curse
      else (s.obj r).id_curse) = _
    rw [if_neg (by unfold flag_has; rw [decide_eq_true_eq]; exact h)]

/-- Witness for C28: promotion of the wielded sword under a template with
`OF_SHOW_CURSE`, and under one without. -/
theorem label_as_ego_object_flags_and_curses_witness :
    sample_env.handle_stuff_quiet ∧
      ((label_as_ego sample_env (.inven 24) 25 show_curse_state).obj (.inven 24)).id_obj =
        {7, 41} ∧
      ((label_as_ego sample_env (.inven 24) 25 show_curse_state).obj (.inven 24)).id_curse =
        {4} ∧
      ((label_as_ego sample_env (.inven 24) 25 cursed_sword_state).obj (.inven 24)).id_curse =
        ∅ :=
  ⟨sample_env_handle_stuff_quiet,
    (label_as_ego_object_flags_and_curses sample_env sample_env_handle_stuff_quiet (.inven 24)
      25 show_curse_state).1.trans (by decide),
    ((label_as_ego_object_flags_and_curses sample_env sample_env_handle_stuff_quiet (.inven 24)
      25 show_curse_state).2.1 (by decide)).trans (by decide),
    ((label_as_ego_object_flags_and_curses sample_env sample_env_handle_stuff_quiet (.inven 24)
      25 cursed_sword_state).2.2 (by decide)).trans (by decide)⟩

/-- C29: with a quiet `handle_stuff`, after `label_as_ego` a flag is in the
known-other set of the item exactly when it was there before or is the resist,
slay or brand bit of an index in which the template deviates from the neutral
value. -/
theorem label_as_ego_other_flags (E : Env) (hq : E.handle_stuff_quiet)
    (r : ObjRef) (item : Int) (s : State) (x : Nat) :
    x ∈ ((label_as_ego E r item s).obj r).id_other ↔
      x ∈ (s.obj r).id_other ∨
      (∃ j, j < E.MAX_P_RES ∧
        (s.e_info (s.obj r).name2).percent_res j ≠ E.RES_LEVEL_BASE ∧
        x = E.OBJECT_ID_BASE_RESIST + j) ∨
      (∃ j, j < E.MAX_P_SLAY ∧
        (s.e_info (s.obj r).name2).multiple_slay j ≠ E.MULTIPLE_BASE ∧
        x = E.OBJECT_ID_BASE_SLAY + j) ∨
      (∃ j, j < E.MAX_P_BRAND ∧
        (s.e_info (s.obj r).name2).multiple_brand j ≠ E.MULTIPLE_BASE ∧
        x = E.OBJECT_ID_BASE_BRAND + j) := by
  rw [obj_label_as_ego E hq]
  show x ∈ mark_deviations _ _ _ _ (mark_deviations _ _ _ _ (mark_deviations _ _ _ _ _)) ↔ _
  simp only [mem_mark_deviations, or_assoc]

/-- Witness for C29: under `show_curse_ego`, which deviates in the first resist
and the second brand, promotion makes bits 1 and 24 known and not bit 2. -/
theorem label_as_ego_other_flags_witness :
    sample_env.handle_stuff_quiet ∧
      sample_env.OBJECT_ID_BASE_RESIST + 0 ∈
        ((label_as_ego sample_env (.inven 24) 25 show_curse_state).obj (.inven 24)).id_other ∧
      2 ∉ ((label_as_ego sample_env (.inven 24) 25 show_curse_state).obj (.inven 24)).id_other :=
  ⟨sample_env_handle_stuff_quiet,
    (label_as_ego_other_flags sample_env sample_env_handle_stuff_quiet (.inven 24) 25
      show_curse_state _).2 (Or.inr (Or.inl ⟨0, by decide, by decide, rfl⟩)),
    fun h => by
      have h2 := (label_as_ego_other_flags sample_env sample_env_handle_stuff_quiet (.inven 24)
        25 show_curse_state 2).1 h
      revert h2
      decide⟩

/-- A marking loop run a second time adds nothing. -/
theorem mark_deviations_idem (n : Nat) (vals : Nat → Int) (neutral : Int) (first : Nat)
    (flags : FlagSet) (h : ∀ j, j < n → vals j ≠ neutral → first + j ∈ flags) :
    mark_deviations n vals neutral first flags = flags := by
  ext x
  rw [mem_mark_deviations]
  constructor
  · rintro (hx | ⟨j, hj, hv, rfl⟩)
    · exact hx
    · exact h j hj hv
  · intro hx
    exact Or.inl hx

/-- Promoting a promoted object changes nothing. -/
theorem label_object_idem (E : Env) (e : ego_item_type) (o : object_type) :
    label_object E e (label_object E e o) = label_object E e o := by
  have h1 : flag_union (flag_union o.id_obj e.flags_obj) e.flags_obj =
      flag_union o.id_obj e.flags_obj := by
    unfold flag_union
    rw [Finset.union_assoc, Finset.union_self]
  have h2 : (if flag_has e.flags_obj E.OF_SHOW_CURSE = true then
        flag_union (if flag_has e.flags_obj E.OF_SHOW_CURSE = true then
          flag_union o.id_curse e.flags_curse else o.id_curse) e.flags_curse
      else (if flag_has e.flags_obj E.OF_SHOW_CURSE = true then
          flag_union o.id_curse e.flags_curse else o.id_curse)) =
      (if flag_has e.flags_obj E.OF_SHOW_CURSE = true then
          flag_union o.id_curse e.flags_curse else o.id_curse) := by
    split_ifs
    · unfold flag_union
      rw [Finset.union_assoc, Finset.union_self]
    · rfl
  have h3 : ∀ x : FlagSet,
      mark_deviations E.MAX_P_BRAND e.multiple_brand E.MULTIPLE_BASE E.OBJECT_ID_BASE_BRAND
        (mark_deviations E.MAX_P_SLAY e.multiple_slay E.MULTIPLE_BASE E.OBJECT_ID_BASE_SLAY
          (mark_deviations E.MAX_P_RES e.percent_res E.RES_LEVEL_BASE E.OBJECT_ID_BASE_RESIST
            (mark_deviations E.MAX_P_BRAND e.multiple_brand E.MULTIPLE_BASE
              E.OBJECT_ID_BASE_BRAND
              (mark_deviations E.MAX_P_SLAY e.multiple_slay E.MULTIPLE_BASE
                E.OBJECT_ID_BASE_SLAY
                (mark_deviations E.MAX_P_RES e.percent_res E.RES_LEVEL_BASE
                  E.OBJECT_ID_BASE_RESIST x))))) =
      mark_deviations E.MAX_P_BRAND e.multiple_brand E.MULTIPLE_BASE E.OBJECT_ID_BASE_BRAND
        (mark_deviations E.MAX_P_SLAY e.multiple_slay E.MULTIPLE_BASE E.OBJECT_ID_BASE_SLAY
          (mark_deviations E.MAX_P_RES e.percent_res E.RES_LEVEL_BASE E.OBJECT_ID_BASE_RESIST
            x)) := by
    intro x
    ext y
    simp only [mem_mark_deviations]
    generalize (∃ j, j < E.MAX_P_RES ∧ e.percent_res j ≠ E.RES_LEVEL_BASE ∧
      y = E.OBJECT_ID_BASE_RESIST + j) = pr
    generalize (∃ j, j < E.MAX_P_SLAY ∧ e.multiple_slay j ≠ E.MULTIPLE_BASE ∧
      y = E.OBJECT_ID_BASE_SLAY + j) = ps
    generalize (∃ j, j < E.MAX_P_BRAND ∧ e.multiple_brand j ≠ E.MULTIPLE_BASE ∧
      y = E.OBJECT_ID_BASE_BRAND + j) = pb
    tauto
  unfold label_object
  simp only [h1, h2, h3]

/-- A store through a pointer leaves the request words alone. -/
theorem pending_set_obj (s : State) (r : ObjRef) (o : object_type) :
    (s.set_obj r o).p_ptr.notice = s.p_ptr.notice ∧
      (s.set_obj r o).p_ptr.redraw = s.p_ptr.redraw := by
  cases r <;> exact ⟨rfl, rfl⟩

/-- The description leaves the request words alone. -/
theorem pending_label_describe (E : Env) (r : ObjRef) (item : Int) (s : State) :
    (label_describe E r item s).p_ptr = s.p_ptr := by
  unfold label_describe
  split_ifs <;> rfl

/-- The description leaves the template table alone. -/
theorem e_info_label_describe (E : Env) (r : ObjRef) (item : Int) (s : State) :
    (label_describe E r item s).e_info = s.e_info := by
  unfold label_describe
  split_ifs <;> rfl

/-- With a quiet `handle_stuff`, `label_as_ego` leaves the template table alone. -/
theorem e_info_label_as_ego (E : Env) (hq : E.handle_stuff_quiet) (r : ObjRef) (item : Int)
    (s : State) : (label_as_ego E r item s).e_info = s.e_info := by
  unfold label_as_ego
  simp only []
  rw [e_info_label_describe, (hq _).2.1]
  exact (p_ptr_sets_set_obj s r _).2.2

/-- The request words after `label_as_ego`, for a `handle_stuff` that acts on
them through `gn` and `gr`. -/
theorem pending_label_as_ego (E : Env) (gn gr : Nat → Nat)
    (hg : ∀ s : State, (E.handle_stuff s).p_ptr.notice = gn s.p_ptr.notice ∧
      (E.handle_stuff s).p_ptr.redraw = gr s.p_ptr.redraw)
    (r : ObjRef) (item : Int) (s : State) :
    (label_as_ego E r item s).p_ptr.notice =
        gn (s.p_ptr.notice ||| (E.PN_COMBINE ||| E.PN_REORDER)) ∧
      (label_as_ego E r item s).p_ptr.redraw =
        gr (s.p_ptr.redraw ||| (E.PR_INVEN ||| E.PR_EQUIP ||| E.PR_BASIC ||| E.PR_EXTRA)) := by
  unfold label_as_ego
  simp only []
  rw [pending_label_describe, (hg _).1, (hg _).2]
  unfold label_requests
  simp only []
  rw [(pending_set_obj s r _).1, (pending_set_obj s r _).2]
  exact ⟨rfl, rfl⟩

/-- The concrete `handle_stuff` keeps the `notice` word and clears the `redraw`
word. -/
theorem sample_env_handle_stuff_serves : sample_env.handle_stuff_serves :=
  ⟨fun x => x, fun _ => 0, fun _ => ⟨rfl, rfl⟩, fun _ _ => rfl, fun _ _ => rfl⟩

/-- C30: with a `handle_stuff` that is quiet and serves requests, running
`label_as_ego` twice leaves the object, and so its known-object-flag, known-curse
and known-other sets, and the player's `notice` and `redraw` request words equal
to what one run leaves. -/
theorem label_as_ego_idempotent (E : Env) (hq : E.handle_stuff_quiet)
    (hs : E.handle_stuff_serves) (r : ObjRef) (item : Int) (s : State) :
    (label_as_ego E r item (label_as_ego E r item s)).obj r =
        (label_as_ego E r item s).obj r ∧
      ((label_as_ego E r item (label_as_ego E r item s)).obj r).id_obj =
        ((label_as_ego E r item s).obj r).id_obj ∧
      ((label_as_ego E r item (label_as_ego E r item s)).obj r).id_curse =
        ((label_as_ego E r item s).obj r).id_curse ∧
      ((label_as_ego E r item (label_as_ego E r item s)).obj r).id_other =
        ((label_as_ego E r item s).obj r).id_other ∧
      (label_as_ego E r item (label_as_ego E r item s)).p_ptr.notice =
        (label_as_ego E r item s).p_ptr.notice ∧
      (label_as_ego E r item (label_as_ego E r item s)).p_ptr.redraw =
        (label_as_ego E r item s).p_ptr.redraw := by
  have hobj : (label_as_ego E r item (label_as_ego E r item s)).obj r =
      (label_as_ego E r item s).obj r := by
    rw [obj_label_as_ego E hq r item (label_as_ego E r item s), e_info_label_as_ego E hq,
      obj_label_as_ego E hq r item s]
    exact label_object_idem E _ _
  obtain ⟨gn, gr, hg, hgn, hgr⟩ := hs
  refine ⟨hobj, by rw [hobj], by rw [hobj], by rw [hobj], ?_, ?_⟩
  · rw [(pending_label_as_ego E gn gr hg r item (label_as_ego E r item s)).1,
      (pending_label_as_ego E gn gr hg r item s).1, hgn, Nat.lor_assoc, Nat.or_self]
  · rw [(pending_label_as_ego E gn gr hg r item (label_as_ego E r item s)).2,
      (pending_label_as_ego E gn gr hg r item s).2, hgr, Nat.lor_assoc, Nat.or_self]

/-- Witness for C30: two promotions of the wielded sword in the concrete
environment. -/
theorem label_as_ego_idempotent_witness :
    sample_env.handle_stuff_quiet ∧ sample_env.handle_stuff_serves ∧
      ((label_as_ego sample_env (.inven 24) 25
        (label_as_ego sample_env (.inven 24) 25 show_curse_state)).obj (.inven 24)).id_obj =
        {7, 41} ∧
      (label_as_ego sample_env (.inven 24) 25
        (label_as_ego sample_env (.inven 24) 25 show_curse_state)).p_ptr.notice = 3 :=
  ⟨sample_env_handle_stuff_quiet, sample_env_handle_stuff_serves,
    (label_as_ego_idempotent sample_env sample_env_handle_stuff_quiet
      sample_env_handle_stuff_serves (.inven 24) 25 show_curse_state).2.1.trans (by decide),
    (label_as_ego_idempotent sample_env sample_env_handle_stuff_quiet
      sample_env_handle_stuff_serves (.inven 24) 25 show_curse_state).2.2.2.2.1.trans
      (by decide)⟩

/-! ## Theorems: noticing an object flag -/

/-- The evidence of `notice_obj` puts the flag into the known-object-flag set
of the object. -/
theorem mem_obj_evidence (E : Env) (f : Nat) (slot : Int) (r : ObjRef) (s : State) :
    f ∈ ((obj_evidence E f slot r s).obj r).id_obj := by
  unfold obj_evidence
  simp only []
  have h1 : f ∈ ((s.set_obj r { s.obj r with id_obj := flag_on (s.obj r).id_obj f }).obj
      r).id_obj := by
    rw [obj_set_obj_same]
    exact Finset.mem_insert_self _ _
  split_ifs
  · have ho : ∀ (t : State) (fs : FlagSet),
        ({ t with p_ptr := { t.p_ptr with id_obj := fs } } : State).obj r = t.obj r := by
      intro t fs
      cases r <;> rfl
    rw [ho]
    exact h1
  · exact h1

/-- After the body of `notice_obj` the flag is known on the object. -/
theorem mem_notice_obj_at (E : Env) (hk : E.keeps_knowledge) (f : Nat) (item : Int)
    (slot : Int) (r : ObjRef) (s : State) :
    f ∈ ((notice_obj_at E f item slot r s).obj r).id_obj := by
  unfold notice_obj_at
  simp only []
  have hle := knowledge_le_trans
    (knowledge_le_ego_item_check E hk (has_ego_properties E s.e_info (s.obj r)) r item
      (obj_evidence E f slot r s))
    (knowledge_le_fully_identified_now E hk r _)
  exact (hle.1 r).2.1 (mem_obj_evidence E f slot r s)

/-- After the equipment loop of `notice_obj` the flag is known on every slot
the loop has visited. -/
theorem mem_notice_obj_loop (E : Env) (hk : E.keeps_knowledge) (f : Nat) (item : Int)
    (l : List Nat) (s : State) (i : Nat) (hi : i ∈ l) :
    f ∈ ((l.foldl (fun (s : State) (i : Nat) =>
      notice_obj_at E f item (i : Int) (.inven i) s) s).obj (.inven i)).id_obj := by
  induction l generalizing s with
  | nil => cases hi
  | cons a l ih =>
    rw [List.foldl_cons]
    rcases List.mem_cons.mp hi with rfl | hi
    · have hle := knowledge_le_foldl
        (fun (s : State) (i : Nat) => notice_obj_at E f item (i : Int) (.inven i) s)
        (fun t j => knowledge_le_notice_obj_at E hk f item _ _ t) l
        (notice_obj_at E f item (i : Int) (.inven i) s)
      exact (hle.1 (.inven i)).2.1 (mem_notice_obj_at E hk f item _ _ s)
    · exact ih _ hi

/-- The aggregate sets of a state are its own. -/
theorem same_aggregate_refl (s : State) : same_aggregate s s := ⟨rfl, rfl⟩

/-- Steps that leave the aggregate sets alone compose. -/
theorem same_aggregate_trans {a b c : State} (h1 : same_aggregate a b)
    (h2 : same_aggregate b c) : same_aggregate a c :=
  ⟨h2.1.trans h1.1, h2.2.trans h1.2⟩

/-- A store through a pointer leaves the aggregate sets alone. -/
theorem same_aggregate_set_obj (s : State) (r : ObjRef) (o : object_type) :
    same_aggregate s (s.set_obj r o) :=
  ⟨(p_ptr_sets_set_obj s r o).1, (p_ptr_sets_set_obj s r o).2.1⟩

/-- The promotion routine leaves the aggregate sets alone. -/
theorem same_aggregate_label_as_ego (E : Env) (ha : E.leaves_aggregate) (r : ObjRef)
    (item : Int) (s : State) : same_aggregate s (label_as_ego E r item s) := by
  unfold label_as_ego
  simp only []
  have hd : ∀ t : State, same_aggregate t (label_describe E r item t) := by
    intro t
    unfold same_aggregate
    rw [pending_label_describe]
    exact ⟨rfl, rfl⟩
  refine same_aggregate_trans ?_ (hd _)
  refine same_aggregate_trans ?_ (ha.1 _)
  exact same_aggregate_trans (same_aggregate_set_obj s r _) ⟨rfl, rfl⟩

/-- The step "Ego item?" leaves the aggregate sets alone. -/
theorem same_aggregate_ego_item_check (E : Env) (ha : E.leaves_aggregate) (b : Bool)
    (r : ObjRef) (item : Int) (s : State) : same_aggregate s (ego_item_check E b r item s) := by
  unfold ego_item_check
  split_ifs
  · exact same_aggregate_label_as_ego E ha r item s
  · exact same_aggregate_refl s

/-- The step "Fully identified now?" leaves the aggregate sets alone. -/
theorem same_aggregate_fully_identified_now (E : Env) (ha : E.leaves_aggregate) (r : ObjRef)
    (s : State) : same_aggregate s (fully_identified_now E r s) := by
  unfold fully_identified_now
  split_ifs
  · exact ha.2 r s
  · exact same_aggregate_refl s

/-- The collaborators of the concrete environment leave the aggregate sets
alone. -/
theorem sample_env_leaves_aggregate : sample_env.leaves_aggregate := by
  constructor
  · intro s
    exact ⟨rfl, rfl⟩
  · intro r s
    show same_aggregate s (sample_identify_object r s)
    unfold sample_identify_object
    simp only []
    split_ifs
    · exact same_aggregate_trans (same_aggregate_set_obj s r _) ⟨rfl, rfl⟩
    · exact same_aggregate_set_obj s r _

/-- C25: when the collaborators leave the aggregate sets alone, `notice_obj(f,
item)` on a single item makes the player-wide known-object-flag set its
previous value plus `f` when `item - 1` is `INVEN_RIGHT`, `INVEN_LEFT` or
`INVEN_NECK`, and leaves it as it was for every other target, a pack slot,
another equipment slot or a floor object. -/
theorem notice_obj_aggregate (E : Env) (ha : E.leaves_aggregate) (f : Nat) (item : Int)
    (hitem : item ≠ 0) (s : State) :
    ((item - 1 = E.INVEN_RIGHT ∨ item - 1 = E.INVEN_LEFT ∨ item - 1 = E.INVEN_NECK) →
      (notice_obj E f item s).p_ptr.id_obj = insert f s.p_ptr.id_obj) ∧
    (¬ (item - 1 = E.INVEN_RIGHT ∨ item - 1 = E.INVEN_LEFT ∨ item - 1 = E.INVEN_NECK) →
      (notice_obj E f item s).p_ptr.id_obj = s.p_ptr.id_obj) := by
  have htail : (notice_obj E f item s).p_ptr.id_obj =
      (obj_evidence E f (item - 1) (target item) s).p_ptr.id_obj := by
    unfold notice_obj
    rw [if_pos hitem]
    unfold notice_obj_at
    simp only []
    exact (same_aggregate_trans (same_aggregate_ego_item_check E ha _ _ item _)
      (same_aggregate_fully_identified_now E ha _ _)).1
  rw [htail]
  unfold obj_evidence
  simp only [Bool.or_eq_true, decide_eq_true_eq]
  constructor
  · intro h
    rw [if_pos (by tauto)]
    show flag_on (s.set_obj (target item) _).p_ptr.id_obj f = _
    rw [(p_ptr_sets_set_obj s _ _).1]
    rfl
  · intro h
    rw [if_neg (by tauto)]
    exact (p_ptr_sets_set_obj s _ _).1

/-- Witness for C25: object flag 9 noticed on the right ring slot (item 28,
slot 27), on the weapon slot (item 25), on pack item 3 and on floor object 2. -/
theorem notice_obj_aggregate_witness :
    sample_env.leaves_aggregate ∧
      (notice_obj sample_env 9 28 cursed_sword_state).p_ptr.id_obj = {9} ∧
      (notice_obj sample_env 9 25 cursed_sword_state).p_ptr.id_obj = ∅ ∧
      (notice_obj sample_env 9 3 cursed_sword_state).p_ptr.id_obj = ∅ ∧
      (notice_obj sample_env 9 (-2) cursed_sword_state).p_ptr.id_obj = ∅ :=
  ⟨sample_env_leaves_aggregate,
    ((notice_obj_aggregate sample_env sample_env_leaves_aggregate 9 28 (by decide)
      cursed_sword_state).1 (Or.inl (by decide))).trans (by decide),
    (notice_obj_aggregate sample_env sample_env_leaves_aggregate 9 25 (by decide)
      cursed_sword_state).2 (by decide),
    (notice_obj_aggregate sample_env sample_env_leaves_aggregate 9 3 (by decide)
      cursed_sword_state).2 (by decide),
    (notice_obj_aggregate sample_env sample_env_leaves_aggregate 9 (-2) (by decide)
      cursed_sword_state).2 (by decide)⟩

/-! ## Theorems: noticing a curse -/

/-- Bits that are set stay set when more bits are set. -/
theorem has_bits_or (x c mask : Nat) (h : has_bits x mask) : has_bits (x ||| c) mask := by
  unfold has_bits at h ⊢
  apply Nat.eq_of_testBit_eq
  intro i
  have hi := congrArg (fun n => Nat.testBit n i) h
  simp only [Nat.testBit_and] at hi
  simp only [Nat.testBit_and, Nat.testBit_or]
  cases hx : Nat.testBit x i <;> cases hc : Nat.testBit c i <;>
    cases hm : Nat.testBit mask i <;> simp_all

/-- No status bit is cleared from a state to itself. -/
theorem status_le_refl (s : State) : status_le s s := fun _ _ h => h

/-- Steps that clear no status bit compose. -/
theorem status_le_trans {a b c : State} (h1 : status_le a b) (h2 : status_le b c) :
    status_le a c := fun r m h => h2 r m (h1 r m h)

/-- A state with the objects of `s` clears no status bit. -/
theorem status_le_of_same (s t : State) (ho : ∀ r, t.obj r = s.obj r) : status_le s t := by
  intro r m h
  rw [ho r]
  exact h

/-- Storing an object whose status word holds every bit of the word it
replaces clears no status bit. -/
theorem status_le_set_obj (s : State) (r : ObjRef) (o : object_type)
    (h : ∀ mask, has_bits (s.obj r).ident mask → has_bits o.ident mask) :
    status_le s (s.set_obj r o) := by
  intro r2 m hm
  by_cases hr : r2 = r
  · subst hr
    rw [obj_set_obj_same]
    exact h m hm
  · rw [obj_set_obj_other s r r2 o hr]
    exact hm

/-- A left fold of steps that clear no status bit clears none. -/
theorem status_le_foldl {α : Type} (f : State → α → State)
    (hf : ∀ s a, status_le s (f s a)) (l : List α) (s : State) :
    status_le s (l.foldl f s) := by
  induction l generalizing s with
  | nil => exact status_le_refl s
  | cons a l ih => exact status_le_trans (hf s a) (ih (f s a))

/-- The promotion routine clears no status bit. -/
theorem status_le_label_as_ego (E : Env) (hb : E.keeps_status_bits) (r : ObjRef) (item : Int)
    (s : State) : status_le s (label_as_ego E r item s) := by
  unfold label_as_ego
  simp only []
  refine status_le_trans ?_
    (status_le_of_same _ (label_describe E r item _) (obj_label_describe E r item _))
  refine status_le_trans ?_ (hb.1 _)
  refine status_le_trans ?_
    (status_le_of_same _ (label_requests E _) (obj_label_requests E _))
  exact status_le_set_obj s r _ (fun _ h => h)

/-- The step "Ego item?" clears no status bit. -/
theorem status_le_ego_item_check (E : Env) (hb : E.keeps_status_bits) (b : Bool) (r : ObjRef)
    (item : Int) (s : State) : status_le s (ego_item_check E b r item s) := by
  unfold ego_item_check
  split_ifs
  · exact status_le_label_as_ego E hb r item s
  · exact status_le_refl s

/-- The step "Fully identified now?" clears no status bit. -/
theorem status_le_fully_identified_now (E : Env) (hb : E.keeps_status_bits) (r : ObjRef)
    (s : State) : status_le s (fully_identified_now E r s) := by
  unfold fully_identified_now
  split_ifs
  · exact hb.2 r s
  · exact status_le_refl s

/-- The evidence of `notice_curse` clears no status bit. -/
theorem status_le_curse_evidence (E : Env) (c : Nat) (r : ObjRef) (s : State) :
    status_le s (curse_evidence E c r s) := by
  unfold curse_evidence
  exact status_le_set_obj s r _ (fun m h => has_bits_or _ _ m h)

/-- The body of `notice_curse` clears no status bit. -/
theorem status_le_notice_curse_at (E : Env) (hb : E.keeps_status_bits) (c : Nat) (item : Int)
    (r : ObjRef) (s : State) : status_le s (notice_curse_at E c item r s) := by
  unfold notice_curse_at
  simp only []
  refine status_le_trans ?_ (status_le_fully_identified_now E hb r _)
  split_ifs
  · exact status_le_trans (status_le_curse_evidence E c r s)
      (status_le_ego_item_check E hb _ r item _)
  · exact status_le_refl s

/-- The body of `notice_curse` on an object that carries the curse: the curse
is known and the bit `IDENT_CURSED` set afterwards. -/
theorem notice_curse_at_carried (E : Env) (hk : E.keeps_knowledge) (hb : E.keeps_status_bits)
    (c : Nat) (item : Int) (r : ObjRef) (s : State) (hc : c ∈ (s.obj r).flags_curse) :
    c ∈ ((notice_curse_at E c item r s).obj r).id_curse ∧
      has_bits ((notice_curse_at E c item r s).obj r).ident E.IDENT_CURSED := by
  have hflag : flag_has (s.obj r).flags_curse c = true := by
    unfold flag_has
    rw [decide_eq_true_eq]
    exact hc
  have hev : c ∈ ((curse_evidence E c r s).obj r).id_curse ∧
      has_bits ((curse_evidence E c r s).obj r).ident E.IDENT_CURSED := by
    unfold curse_evidence
    simp only []
    rw [obj_set_obj_same]
    exact ⟨Finset.mem_insert_self _ _, or_and_mask _ _⟩
  unfold notice_curse_at
  simp only []
  rw [if_pos hflag]
  constructor
  · exact ((knowledge_le_trans (knowledge_le_ego_item_check E hk _ r item _)
      (knowledge_le_fully_identified_now E hk r _)).1 r).1 hev.1
  · exact (status_le_trans (status_le_ego_item_check E hb _ r item _)
      (status_le_fully_identified_now E hb r _)) r _ hev.2

/-- The collaborators of the concrete environment clear no status bit. -/
theorem sample_env_keeps_status_bits : sample_env.keeps_status_bits := by
  constructor
  · intro s
    exact status_le_of_same _ _ (fun r => by cases r <;> rfl)
  · intro r s
    show status_le s (sample_identify_object r s)
    unfold sample_identify_object
    simp only []
    have h1 : status_le s (s.set_obj r { s.obj r with ident := (s.obj r).ident ||| 0x08 }) :=
      status_le_set_obj s r _ (fun m h => has_bits_or _ _ m h)
    split_ifs
    · exact status_le_trans h1 (status_le_of_same _ _ (fun r2 => by cases r2 <;> rfl))
    · exact h1

/-! ## Theorems: noticing an other-property flag -/

/-- C26 (violated by the code): the resist flag 1 (`OBJECT_ID_BASE_RESIST + 0`)
is noticed on the whole body while the left ring slot holds a ring whose first
resistance deviates.  The flag becomes known on the ring, and the player-wide
known-other set stays empty: the loops of the equipment path test the loop
counter `j` against the ring and amulet slots and set the flag on the object a
second time (lines 564-566).  The single-item path, for the same ring, adds the
flag to the player-wide set (lines 500-503). -/
theorem notice_other_body_skips_aggregate :
    sample_env.INVEN_LEFT = 26 ∧
      (ring_worn_state.obj (.inven 26)).percent_res 0 ≠ sample_env.RES_LEVEL_BASE ∧
      1 ∈ ((notice_other sample_env 1 0 ring_worn_state).obj (.inven 26)).id_other ∧
      (notice_other sample_env 1 0 ring_worn_state).p_ptr.id_other = ∅ ∧
      (notice_other sample_env 1 27 ring_worn_state).p_ptr.id_other = {1} := by
  decide

/-- Storing the object that is there changes nothing. -/
theorem set_obj_self (s : State) (r : ObjRef) : s.set_obj r (s.obj r) = s := by
  cases r <;> simp [State.set_obj, State.obj]

/-- Marking a flag that is known changes nothing. -/
theorem other_extra_body_of_mem (f : Nat) (r : ObjRef) (s : State)
    (h : f ∈ (s.obj r).id_other) : other_extra_body f r s = s := by
  unfold other_extra_body flag_on
  simp only []
  rw [Finset.insert_eq_of_mem h]
  exact set_obj_self s r

/-- After a flag is marked it is known. -/
theorem mem_other_extra_body (f : Nat) (r : ObjRef) (s : State) :
    f ∈ ((other_extra_body f r s).obj r).id_other := by
  unfold other_extra_body
  simp only []
  rw [obj_set_obj_same]
  exact Finset.mem_insert_self _ _

/-- One loop of `notice_other` in closed form. -/
theorem notice_deviation_eq (n : Nat) (vals : object_type → Nat → Int) (neutral : Int)
    (first f : Nat) (sensed : Nat → Bool) (extra : State → State) (r : ObjRef) (s : State) :
    notice_deviation n vals neutral first f sensed extra r s =
      if deviation_noticed n (vals (s.obj r)) neutral first f = true then
        (if sensed (f - first) = true then extra (other_extra_body f r s)
          else other_extra_body f r s)
      else s := by
  unfold notice_deviation
  induction n with
  | zero =>
    have h : deviation_noticed 0 (vals (s.obj r)) neutral first f = false := by
      unfold deviation_noticed
      simp
    rw [h]
    simp
  | succ n ih =>
    rw [List.range_succ, List.foldl_append, ih]
    simp only [List.foldl_cons, List.foldl_nil]
    by_cases hf : f = first + n
    · have hn : deviation_noticed n (vals (s.obj r)) neutral first f = false := by
        unfold deviation_noticed
        rw [decide_eq_false_iff_not]
        omega
      have hsub : f - first = n := by omega
      rw [hn]
      simp only [Bool.false_eq_true, if_false, hf, ne_eq, not_true_eq_false]
      by_cases hv : vals (s.obj r) n = neutral
      · have hd : deviation_noticed (n + 1) (vals (s.obj r)) neutral first (first + n) =
            false := by
          unfold deviation_noticed
          rw [decide_eq_false_iff_not]
          intro h
          apply h.2.2
          rw [Nat.add_sub_cancel_left]
          exact hv
        simp [hv, hd]
      · have hd : deviation_noticed (n + 1) (vals (s.obj r)) neutral first (first + n) =
            true := by
          unfold deviation_noticed
          rw [decide_eq_true_eq, Nat.add_sub_cancel_left]
          exact ⟨Nat.le_add_right _ _, Nat.lt_succ_self _, hv⟩
        rw [hd]
        simp only [hv, not_false_eq_true, if_true, Nat.add_sub_cancel_left]
        rfl
    · have hd : deviation_noticed (n + 1) (vals (s.obj r)) neutral first f =
          deviation_noticed n (vals (s.obj r)) neutral first f := by
        unfold deviation_noticed
        apply decide_eq_decide.mpr
        constructor
        · rintro ⟨h1, h2, h3⟩
          exact ⟨h1, by omega, h3⟩
        · rintro ⟨h1, h2, h3⟩
          exact ⟨h1, by omega, h3⟩
      rw [hd]
      simp only [ne_eq, hf, not_false_eq_true, if_true]

/-- The inner statement of the equipment loops stores the object with the
flag marked. -/
theorem other_extra_body_eq (f : Nat) (r : ObjRef) (s : State) :
    other_extra_body f r s = s.set_obj r (marked_other f (s.obj r)) := rfl

/-- Marking a flag on a marked object changes nothing. -/
theorem marked_other_idem (f : Nat) (o : object_type) :
    marked_other f (marked_other f o) = marked_other f o := by
  unfold marked_other flag_on
  simp

/-- Marking a flag changes no actual field. -/
theorem same_actual_marked_other (f : Nat) (o : object_type) :
    same_actual o (marked_other f o) :=
  ⟨rfl, rfl, rfl, rfl, rfl, rfl, rfl, rfl, rfl, rfl, rfl, rfl, rfl, rfl, rfl⟩

/-- Every object has its own actual fields. -/
theorem same_actual_refl (o : object_type) : same_actual o o :=
  ⟨rfl, rfl, rfl, rfl, rfl, rfl, rfl, rfl, rfl, rfl, rfl, rfl, rfl, rfl, rfl⟩

/-- Steps that change no actual field compose. -/
theorem same_actual_trans {a b c : object_type} (h1 : same_actual a b) (h2 : same_actual b c) :
    same_actual a c :=
  ⟨h2.k_idx.trans h1.k_idx, h2.name1.trans h1.name1, h2.name2.trans h1.name2,
    h2.tval.trans h1.tval, h2.percent_res.trans h1.percent_res,
    h2.bonus_stat.trans h1.bonus_stat, h2.bonus_other.trans h1.bonus_other,
    h2.multiple_slay.trans h1.multiple_slay, h2.multiple_brand.trans h1.multiple_brand,
    h2.to_h.trans h1.to_h, h2.to_d.trans h1.to_d, h2.to_a.trans h1.to_a, h2.ac.trans h1.ac,
    h2.flags_obj.trans h1.flags_obj, h2.flags_curse.trans h1.flags_curse⟩

/-- The tests of the evidence of `notice_other` read actual fields only. -/
theorem evidence_stages_congr (E : Env) (hr : E.helpers_read_actual) (f : Nat)
    (sensed : Nat → Bool) (o o2 : object_type) (h : same_actual o o2) :
    ∀ p ∈ evidence_stages E f sensed, p.1 o2 = p.1 o := by
  obtain ⟨hw, ha, _⟩ := hr o o2 h
  intro p hp
  simp only [evidence_stages, List.mem_cons, List.mem_singleton, List.not_mem_nil,
    or_false] at hp
  rcases hp with hp | hp | hp | hp | hp | hp | hp | hp <;> subst hp <;>
    simp only [h.percent_res, h.multiple_slay, h.multiple_brand, h.to_h, h.to_d, h.ac, hw, ha]

/-- The evidence of `notice_other` marks the flag exactly when one of its
guarded markings has a true test. -/
theorem any_evidence_stages (E : Env) (f : Nat) (sensed : Nat → Bool) (o : object_type) :
    (evidence_stages E f sensed).any (fun p => p.1 o) = notice_rule E o f := by
  simp only [evidence_stages, List.any_cons, List.any_nil, Bool.or_false, notice_rule,
    rsb_noticed, misc_noticed, Bool.or_assoc]

/-- The inner statement of `notice_other` runs exactly when one of its guarded
markings has a true test and a true inner test. -/
theorem any_sensed_stages (E : Env) (f : Nat) (sensed : Nat → Bool) (o : object_type) :
    (evidence_stages E f sensed).any (fun p => p.1 o && p.2) = sensed_fired E sensed o f := by
  simp only [evidence_stages, List.any_cons, List.any_nil, Bool.or_false, sensed_fired,
    Bool.and_false, Bool.or_assoc]

/-- One test of the block "Others" as a guarded marking. -/
theorem notice_stage_misc (f : Nat) (extra : State → State) (r : ObjRef)
    (c : object_type → Bool) (X : Nat) (t : State) :
    notice_stage (fun o => decide (f = X) && c o) false f extra r t =
      if (decide (f = X) && c (t.obj r)) = true then
        t.set_obj r { t.obj r with id_other := flag_on (t.obj r).id_other X }
      else t := by
  unfold notice_stage
  by_cases hf : f = X
  · subst hf
    simp only [Bool.false_eq_true, if_false]
    rfl
  · simp [hf]

/-- The last test of the block "Others" as a guarded marking. -/
theorem notice_stage_dice (f : Nat) (extra : State → State) (r : ObjRef) (X : Nat)
    (t : State) :
    notice_stage (fun _ => decide (f = X)) false f extra r t =
      if f = X then
        t.set_obj r { t.obj r with id_other := flag_on (t.obj r).id_other X }
      else t := by
  unfold notice_stage
  by_cases hf : f = X
  · subst hf
    simp only [decide_True, if_true, Bool.false_eq_true, if_false]
    rfl
  · simp [hf]

/-- The block "Others" of `notice_other` as a sequence of guarded markings. -/
theorem notice_other_misc_eq (E : Env) (f : Nat) (extra : State → State) (r : ObjRef)
    (s : State) :
    notice_other_misc E f r s =
      notice_stage (fun _ => decide (f = E.IF_DD_DS)) false f extra r
        (notice_stage (fun o => decide (f = E.IF_AC) && (decide (o.ac ≠ 0) || E.is_armour o))
          false f extra r
          (notice_stage
            (fun o => decide (f = E.IF_TO_A) && (decide (o.ac ≠ 0) || E.is_armour o))
            false f extra r
            (notice_stage
              (fun o => decide (f = E.IF_TO_D) && (decide (o.to_d ≠ 0) || E.is_weapon o))
              false f extra r
              (notice_stage
                (fun o => decide (f = E.IF_TO_H) && (decide (o.to_h ≠ 0) || E.is_weapon o))
                false f extra r s)))) := by
  rw [notice_stage_dice, notice_stage_misc, notice_stage_misc, notice_stage_misc,
    notice_stage_misc]
  rfl

/-- One loop of `notice_other` as a guarded marking. -/
theorem notice_deviation_stage (n : Nat) (vals : object_type → Nat → Int) (neutral : Int)
    (first f : Nat) (sensed : Nat → Bool) (extra : State → State) (r : ObjRef) (s : State) :
    notice_deviation n vals neutral first f sensed extra r s =
      notice_stage (fun o => deviation_noticed n (vals o) neutral first f)
        (sensed (f - first)) f extra r s := by
  rw [notice_deviation_eq]
  rfl

/-- The evidence of `notice_other` as a sequence of guarded markings. -/
theorem other_evidence_eq (E : Env) (f : Nat) (sensed : Nat → Bool)
    (extra : State → State) (r : ObjRef) (s : State) :
    other_evidence E f sensed extra r s =
      run_stages (evidence_stages E f sensed) f extra r s := by
  unfold other_evidence
  simp only []
  rw [notice_other_misc_eq E f extra, notice_deviation_stage, notice_deviation_stage,
    notice_deviation_stage]
  rfl

/-- The object after one guarded marking. -/
theorem obj_notice_stage (c : object_type → Bool) (a : Bool) (f : Nat) (extra : State → State)
    (r : ObjRef) (s : State)
    (hx : ∀ t, (extra t).obj r = t.obj r ∨ (extra t).obj r = marked_other f (t.obj r)) :
    (notice_stage c a f extra r s).obj r =
      if c (s.obj r) = true then marked_other f (s.obj r) else s.obj r := by
  unfold notice_stage
  have hm : (other_extra_body f r s).obj r = marked_other f (s.obj r) := by
    rw [other_extra_body_eq, obj_set_obj_same]
  by_cases hc : c (s.obj r) = true
  · rw [if_pos hc, if_pos hc]
    by_cases ha : a = true
    · rw [if_pos ha]
      rcases hx (other_extra_body f r s) with h | h
      · rw [h, hm]
      · rw [h, hm, marked_other_idem]
    · rw [if_neg ha, hm]
  · rw [if_neg hc, if_neg hc]

/-- Another object than the target is left as it is by a guarded marking. -/
theorem obj_notice_stage_other (c : object_type → Bool) (a : Bool) (f : Nat)
    (extra : State → State) (r : ObjRef) (s : State)
    (hx : ∀ t r2, r2 ≠ r → (extra t).obj r2 = t.obj r2) (r2 : ObjRef) (h : r2 ≠ r) :
    (notice_stage c a f extra r s).obj r2 = s.obj r2 := by
  unfold notice_stage
  have hm : (other_extra_body f r s).obj r2 = s.obj r2 := by
    rw [other_extra_body_eq, obj_set_obj_other s r r2 _ h]
  split_ifs
  · rw [hx _ r2 h, hm]
  · exact hm
  · rfl

/-- A guarded marking retracts no knowledge. -/
theorem knowledge_le_notice_stage (c : object_type → Bool) (a : Bool) (f : Nat)
    (extra : State → State) (r : ObjRef) (s : State) (hx : ∀ t, knowledge_le t (extra t)) :
    knowledge_le s (notice_stage c a f extra r s) := by
  unfold notice_stage
  split_ifs
  · exact knowledge_le_trans (knowledge_le_other_extra_body f r s) (hx _)
  · exact knowledge_le_other_extra_body f r s
  · exact knowledge_le_refl s

/-- A sequence of guarded markings retracts no knowledge. -/
theorem knowledge_le_run_stages (l : List ((object_type → Bool) × Bool)) (f : Nat)
    (extra : State → State) (r : ObjRef) (s : State) (hx : ∀ t, knowledge_le t (extra t)) :
    knowledge_le s (run_stages l f extra r s) := by
  unfold run_stages
  exact knowledge_le_foldl (fun t p => notice_stage p.1 p.2 f extra r t)
    (fun t p => knowledge_le_notice_stage p.1 p.2 f extra r t hx) l s

/-- The object after a sequence of guarded markings whose tests do not read the
known-other set: the flag is marked when one of the tests is true. -/
theorem obj_run_stages (l : List ((object_type → Bool) × Bool)) (f : Nat)
    (extra : State → State) (r : ObjRef)
    (hc : ∀ p ∈ l, ∀ o, p.1 (marked_other f o) = p.1 o)
    (hx : ∀ t, (extra t).obj r = t.obj r ∨ (extra t).obj r = marked_other f (t.obj r))
    (s : State) :
    (run_stages l f extra r s).obj r =
      if l.any (fun p => p.1 (s.obj r)) = true then marked_other f (s.obj r) else s.obj r := by
  induction l generalizing s with
  | nil => simp [run_stages]
  | cons p l ih =>
    have ih2 := ih (fun q hq => hc q (List.mem_cons_of_mem _ hq))
      (notice_stage p.1 p.2 f extra r s)
    unfold run_stages at ih2 ⊢
    rw [List.foldl_cons, ih2, obj_notice_stage p.1 p.2 f extra r s hx]
    have hany : ∀ o, l.any (fun q => q.1 (marked_other f o)) = l.any (fun q => q.1 o) := by
      intro o
      apply Bool.eq_iff_iff.mpr
      simp only [List.any_eq_true]
      constructor
      · rintro ⟨q, hq, h⟩
        exact ⟨q, hq, by rw [← hc q (List.mem_cons_of_mem _ hq) o]; exact h⟩
      · rintro ⟨q, hq, h⟩
        exact ⟨q, hq, by rw [hc q (List.mem_cons_of_mem _ hq) o]; exact h⟩
    by_cases hp : p.1 (s.obj r) = true
    · simp only [hp, if_true, hany, marked_other_idem, List.any_cons, Bool.true_or, ite_self]
    · simp only [hp, if_false, List.any_cons, Bool.not_eq_true] at hp ⊢
      simp only [hp, Bool.false_or, Bool.false_eq_true, if_false]

/-- Another object than the target is left as it is by a sequence of guarded
markings. -/
theorem obj_run_stages_other (l : List ((object_type → Bool) × Bool)) (f : Nat)
    (extra : State → State) (r : ObjRef)
    (hx : ∀ t r2, r2 ≠ r → (extra t).obj r2 = t.obj r2) (r2 : ObjRef) (h : r2 ≠ r)
    (s : State) : (run_stages l f extra r s).obj r2 = s.obj r2 := by
  induction l generalizing s with
  | nil => rfl
  | cons p l ih =>
    have ih2 := ih (notice_stage p.1 p.2 f extra r s)
    unfold run_stages at ih2 ⊢
    rw [List.foldl_cons, ih2, obj_notice_stage_other p.1 p.2 f extra r s hx r2 h]

/-- A sequence of guarded markings changes nothing in a state in which the
flag is known wherever a test is true and the inner statement changes nothing
wherever it runs. -/
theorem run_stages_fix (l : List ((object_type → Bool) × Bool)) (f : Nat)
    (extra : State → State) (r : ObjRef) (s : State)
    (h : ∀ p ∈ l, p.1 (s.obj r) = true →
      f ∈ (s.obj r).id_other ∧ (p.2 = true → extra s = s)) :
    run_stages l f extra r s = s := by
  induction l with
  | nil => rfl
  | cons p l ih =>
    have hp : notice_stage p.1 p.2 f extra r s = s := by
      unfold notice_stage
      by_cases hc : p.1 (s.obj r) = true
      · obtain ⟨hm, he⟩ := h p (List.mem_cons_self _ _) hc
        rw [if_pos hc, other_extra_body_of_mem f r s hm]
        by_cases ha : p.2 = true
        · rw [if_pos ha, he ha]
        · rw [if_neg ha]
      · rw [if_neg hc]
    have ih2 := ih (fun q hq => h q (List.mem_cons_of_mem _ hq))
    unfold run_stages at ih2 ⊢
    rw [List.foldl_cons, hp, ih2]

/-- After a sequence of guarded markings in which the inner statement runs, the
condition that this statement establishes holds. -/
theorem run_stages_reaches (l : List ((object_type → Bool) × Bool)) (f : Nat)
    (extra : State → State) (r : ObjRef) (Q : State → Prop)
    (hc : ∀ p ∈ l, ∀ o, p.1 (marked_other f o) = p.1 o)
    (hx : extra_spec f r extra Q) (s : State)
    (h : ∃ p ∈ l, p.1 (s.obj r) = true ∧ p.2 = true) :
    Q (run_stages l f extra r s) := by
  induction l generalizing s with
  | nil =>
    obtain ⟨p, hp, _⟩ := h
    exact absurd hp (List.not_mem_nil p)
  | cons p l ih =>
    have hrun : run_stages (p :: l) f extra r s =
        run_stages l f extra r (notice_stage p.1 p.2 f extra r s) := rfl
    rw [hrun]
    by_cases hp : p.1 (s.obj r) = true ∧ p.2 = true
    · apply hx.mono _ _ (knowledge_le_run_stages l f extra r _ hx.keeps)
      unfold notice_stage
      rw [if_pos hp.1, if_pos hp.2]
      exact hx.reaches _
    · obtain ⟨q, hq, hq1, hq2⟩ := h
      have hql : q ∈ l := by
        rcases List.mem_cons.mp hq with h1 | h1
        · subst h1
          exact absurd ⟨hq1, hq2⟩ hp
        · exact h1
      apply ih (fun q2 hq2 => hc q2 (List.mem_cons_of_mem _ hq2))
      refine ⟨q, hql, ?_, hq2⟩
      rw [obj_notice_stage p.1 p.2 f extra r s hx.target]
      split_ifs
      · rw [hc q hq]
        exact hq1
      · exact hq1

/-- The inner statement of the single-item path meets `extra_spec`, with the
flag in the player-wide aggregate set as its condition. -/
theorem extra_spec_single (f : Nat) (r : ObjRef) :
    extra_spec f r (other_extra_single f) (fun s => f ∈ s.p_ptr.id_other) where
  keeps := knowledge_le_other_extra_single f
  templates := same_templates_other_extra_single f
  target := fun t => Or.inl (by cases r <;> rfl)
  others := fun t r2 _ => by cases r2 <;> rfl
  reaches := fun t => Finset.mem_insert_self _ _
  mono := fun _ _ h hq => h.2.2 hq
  fixes := fun t hq => by
    unfold other_extra_single flag_on
    rw [Finset.insert_eq_of_mem hq]

/-- The inner statement of the equipment loops meets `extra_spec`, with the
flag in the known-other set of the object as its condition. -/
theorem extra_spec_body (f : Nat) (r : ObjRef) :
    extra_spec f r (other_extra_body f r) (fun s => f ∈ (s.obj r).id_other) where
  keeps := knowledge_le_other_extra_body f r
  templates := same_templates_other_extra_body f r
  target := fun t => Or.inr (by rw [other_extra_body_eq, obj_set_obj_same])
  others := fun t r2 h => by rw [other_extra_body_eq, obj_set_obj_other t r r2 _ h]
  reaches := fun t => mem_other_extra_body f r t
  mono := fun t u h hq => (h.1 r).2.2 hq
  fixes := fun t hq => other_extra_body_of_mem f r t hq

/-- The tests of the evidence of `notice_other` do not read the known-other
set. -/
theorem evidence_stages_marked (E : Env) (hr : E.helpers_read_actual) (f : Nat)
    (sensed : Nat → Bool) :
    ∀ p ∈ evidence_stages E f sensed, ∀ o, p.1 (marked_other f o) = p.1 o :=
  fun p hp o => evidence_stages_congr E hr f sensed o _ (same_actual_marked_other f o) p hp

/-- The evidence of `notice_other` marks the same flags on objects with the
same actual fields. -/
theorem notice_rule_congr (E : Env) (hr : E.helpers_read_actual) (f : Nat)
    (sensed : Nat → Bool) (o o2 : object_type) (h : same_actual o o2) :
    notice_rule E o2 f = notice_rule E o f ∧
      sensed_fired E sensed o2 f = sensed_fired E sensed o f := by
  obtain ⟨hw, ha, _⟩ := hr o o2 h
  unfold notice_rule rsb_noticed misc_noticed sensed_fired
  simp only [h.percent_res, h.multiple_slay, h.multiple_brand, h.to_h, h.to_d, h.ac, hw, ha,
    and_self]

/-- The object after the evidence of `notice_other`: the flag is marked known
when the rule of the evidence holds, nothing else changes. -/
theorem obj_other_evidence (E : Env) (hr : E.helpers_read_actual) (f : Nat)
    (sensed : Nat → Bool) (extra : State → State) (r : ObjRef) (Q : State → Prop)
    (hx : extra_spec f r extra Q) (s : State) :
    (other_evidence E f sensed extra r s).obj r =
      if notice_rule E (s.obj r) f = true then marked_other f (s.obj r) else s.obj r := by
  rw [other_evidence_eq, obj_run_stages _ f extra r (evidence_stages_marked E hr f sensed)
    hx.target, any_evidence_stages]

/-- The evidence of `notice_other` leaves every object but its target as it
is. -/
theorem obj_other_evidence_other (E : Env) (f : Nat) (sensed : Nat → Bool)
    (extra : State → State) (r : ObjRef) (Q : State → Prop) (hx : extra_spec f r extra Q)
    (s : State) (r2 : ObjRef) (h : r2 ≠ r) :
    (other_evidence E f sensed extra r s).obj r2 = s.obj r2 := by
  rw [other_evidence_eq, obj_run_stages_other _ f extra r hx.others r2 h]

/-- The evidence of `notice_other` changes no actual field of any object. -/
theorem same_actual_other_evidence (E : Env) (hr : E.helpers_read_actual) (f : Nat)
    (sensed : Nat → Bool) (extra : State → State) (r : ObjRef) (Q : State → Prop)
    (hx : extra_spec f r extra Q) (s : State) (r2 : ObjRef) :
    same_actual (s.obj r2) ((other_evidence E f sensed extra r s).obj r2) := by
  by_cases h : r2 = r
  · subst h
    rw [obj_other_evidence E hr f sensed extra r2 Q hx]
    split_ifs
    · exact same_actual_marked_other f _
    · exact same_actual_refl _
  · rw [obj_other_evidence_other E f sensed extra r Q hx s r2 h]
    exact same_actual_refl _

/-- After the evidence of `notice_other` the flag is known where the rule of the
evidence holds, and the condition of the inner statement holds where that
statement runs. -/
theorem other_evidence_held (E : Env) (hr : E.helpers_read_actual) (f : Nat)
    (sensed : Nat → Bool) (extra : State → State) (r : ObjRef) (Q : State → Prop)
    (hx : extra_spec f r extra Q) (s : State) :
    (notice_rule E ((other_evidence E f sensed extra r s).obj r) f = true →
        f ∈ ((other_evidence E f sensed extra r s).obj r).id_other) ∧
      (sensed_fired E sensed ((other_evidence E f sensed extra r s).obj r) f = true →
        Q (other_evidence E f sensed extra r s)) := by
  have hsa := same_actual_other_evidence E hr f sensed extra r Q hx s r
  obtain ⟨h1, h2⟩ := notice_rule_congr E hr f sensed _ _ hsa
  rw [h1, h2]
  constructor
  · intro h
    rw [obj_other_evidence E hr f sensed extra r Q hx, if_pos h]
    exact Finset.mem_insert_self _ _
  · intro h
    rw [other_evidence_eq]
    apply run_stages_reaches _ f extra r Q (evidence_stages_marked E hr f sensed) hx
    rw [← any_sensed_stages, List.any_eq_true] at h
    obtain ⟨p, hp, hpa⟩ := h
    rw [Bool.and_eq_true] at hpa
    exact ⟨p, hp, hpa.1, hpa.2⟩

/-- The evidence of `notice_other` changes nothing in a state in which the flag
is known where the rule of the evidence holds and the condition of the inner
statement holds where that statement runs. -/
theorem other_evidence_fix (E : Env) (f : Nat) (sensed : Nat → Bool) (extra : State → State)
    (r : ObjRef) (Q : State → Prop) (hx : extra_spec f r extra Q) (s : State)
    (h1 : notice_rule E (s.obj r) f = true → f ∈ (s.obj r).id_other)
    (h2 : sensed_fired E sensed (s.obj r) f = true → Q s) :
    other_evidence E f sensed extra r s = s := by
  rw [other_evidence_eq]
  apply run_stages_fix
  intro p hp hc
  constructor
  · apply h1
    rw [← any_evidence_stages E f sensed, List.any_eq_true]
    exact ⟨p, hp, hc⟩
  · intro ha
    apply hx.fixes
    apply h2
    rw [← any_sensed_stages, List.any_eq_true]
    exact ⟨p, hp, by rw [hc, ha]; rfl⟩

/-- The knowledge updates of the promotion change no actual field. -/
theorem same_actual_label_object (E : Env) (e : ego_item_type) (o : object_type) :
    same_actual o (label_object E e o) :=
  ⟨rfl, rfl, rfl, rfl, rfl, rfl, rfl, rfl, rfl, rfl, rfl, rfl, rfl, rfl, rfl⟩

/-- A store of an object with the actual fields of the one it replaces changes
no actual field of any object. -/
theorem same_actual_set_obj (s : State) (r : ObjRef) (o : object_type)
    (h : same_actual (s.obj r) o) (r2 : ObjRef) :
    same_actual (s.obj r2) ((s.set_obj r o).obj r2) := by
  by_cases hr : r2 = r
  · subst hr
    rw [obj_set_obj_same]
    exact h
  · rw [obj_set_obj_other s r r2 o hr]
    exact same_actual_refl _

/-- The promotion routine changes no actual field of any object. -/
theorem same_actual_label_as_ego (E : Env) (ha : E.keeps_actual) (r : ObjRef) (item : Int)
    (s : State) (r2 : ObjRef) :
    same_actual (s.obj r2) ((label_as_ego E r item s).obj r2) := by
  unfold label_as_ego
  simp only []
  rw [obj_label_describe]
  refine same_actual_trans ?_ (ha.1 _ r2)
  rw [obj_label_requests]
  exact same_actual_set_obj s r _ (same_actual_label_object E _ _) r2

/-- The step "Ego item?" changes no actual field of any object. -/
theorem same_actual_ego_item_check (E : Env) (ha : E.keeps_actual) (b : Bool) (r : ObjRef)
    (item : Int) (s : State) (r2 : ObjRef) :
    same_actual (s.obj r2) ((ego_item_check E b r item s).obj r2) := by
  unfold ego_item_check
  split_ifs
  · exact same_actual_label_as_ego E ha r item s r2
  · exact same_actual_refl _

/-- The step "Fully identified now?" changes no actual field of any object. -/
theorem same_actual_fully_identified_now (E : Env) (ha : E.keeps_actual) (r : ObjRef)
    (s : State) (r2 : ObjRef) :
    same_actual (s.obj r2) ((fully_identified_now E r s).obj r2) := by
  unfold fully_identified_now
  split_ifs
  · exact ha.2 r s r2
  · exact same_actual_refl _

/-- The promotion routine makes no other object functionally known. -/
theorem unsettled_label_as_ego (E : Env) (hu : E.keeps_unsettled) (r : ObjRef) (item : Int)
    (s : State) (r2 : ObjRef) (h : r2 ≠ r)
    (hk : known_really E (label_as_ego E r item s).e_info ((label_as_ego E r item s).obj r2) =
      true) :
    known_really E s.e_info (s.obj r2) = true := by
  unfold label_as_ego at hk
  simp only [] at hk
  rw [e_info_label_describe, obj_label_describe] at hk
  have h2 := hu.1 _ r2 hk
  rw [obj_label_requests, obj_set_obj_other s r r2 _ h] at h2
  have h3 : (label_requests E (s.set_obj r (label_object E (s.e_info (s.obj r).name2)
      (s.obj r)))).e_info = s.e_info := (p_ptr_sets_set_obj s r _).2.2
  rw [h3] at h2
  exact h2

/-- The step "Ego item?" makes no other object functionally known. -/
theorem unsettled_ego_item_check (E : Env) (hu : E.keeps_unsettled) (b : Bool) (r : ObjRef)
    (item : Int) (s : State) (r2 : ObjRef) (h : r2 ≠ r)
    (hk : known_really E (ego_item_check E b r item s).e_info
      ((ego_item_check E b r item s).obj r2) = true) :
    known_really E s.e_info (s.obj r2) = true := by
  unfold ego_item_check at hk
  split_ifs at hk
  · exact unsettled_label_as_ego E hu r item s r2 h hk
  · exact hk

/-- After the step "Fully identified now?" the object is not functionally
known. -/
theorem settled_fully_identified_now (E : Env) (hu : E.keeps_unsettled) (r : ObjRef)
    (s : State) :
    known_really E (fully_identified_now E r s).e_info ((fully_identified_now E r s).obj r) =
      false := by
  unfold fully_identified_now
  by_cases hk : known_really E s.e_info (s.obj r) = true
  · rw [if_pos hk]
    apply Bool.eq_false_iff.mpr
    intro h
    exact (hu.2 r s hk r h).1 rfl
  · rw [if_neg hk]
    exact Bool.eq_false_iff.mpr hk

/-- The step "Fully identified now?" makes no other object functionally
known. -/
theorem unsettled_fully_identified_now (E : Env) (hu : E.keeps_unsettled) (r : ObjRef)
    (s : State) (r2 : ObjRef)
    (hk : known_really E (fully_identified_now E r s).e_info
      ((fully_identified_now E r s).obj r2) = true) :
    known_really E s.e_info (s.obj r2) = true := by
  unfold fully_identified_now at hk
  split_ifs at hk with h
  · exact (hu.2 r s h r2 hk).2
  · exact hk

/-- What the evidence of `notice_other` has established on an object survives
steps that retract no knowledge and change no actual field of the object. -/
theorem evidence_held_mono (E : Env) (hr : E.helpers_read_actual) (f : Nat)
    (sensed : Nat → Bool) (Q : State → Prop) (hmono : ∀ t u, knowledge_le t u → Q t → Q u)
    (r : ObjRef) (s t : State) (hle : knowledge_le s t)
    (hsa : same_actual (s.obj r) (t.obj r))
    (h1 : notice_rule E (s.obj r) f = true → f ∈ (s.obj r).id_other)
    (h2 : sensed_fired E sensed (s.obj r) f = true → Q s) :
    (notice_rule E (t.obj r) f = true → f ∈ (t.obj r).id_other) ∧
      (sensed_fired E sensed (t.obj r) f = true → Q t) := by
  obtain ⟨e1, e2⟩ := notice_rule_congr E hr f sensed _ _ hsa
  rw [e1, e2]
  exact ⟨fun h => (hle.1 r).2.2 (h1 h), fun h => hmono s t hle (h2 h)⟩

/-- The body of `notice_other` changes nothing on an object on which a second
run finds nothing to do. -/
theorem notice_other_at_fix (E : Env) (f : Nat) (item : Int) (sensed : Nat → Bool)
    (extra : State → State) (r : ObjRef) (Q : State → Prop) (hx : extra_spec f r extra Q)
    (s : State) (h : evidence_settled E f sensed Q r s) :
    notice_other_at E f item sensed extra r s = s := by
  unfold notice_other_at
  simp only []
  rw [other_evidence_fix E f sensed extra r Q hx s h.1 h.2.1]
  unfold ego_item_check
  simp only [bne_self_eq_false, Bool.false_eq_true, if_false]
  unfold fully_identified_now
  rw [h.2.2]
  simp

/-- After the body of `notice_other` has run on an object, a second run finds
nothing to do on it. -/
theorem notice_other_at_settles (E : Env) (hk : E.keeps_knowledge) (ha : E.keeps_actual)
    (hr : E.helpers_read_actual) (hu : E.keeps_unsettled) (f : Nat) (item : Int)
    (sensed : Nat → Bool) (extra : State → State) (r : ObjRef) (Q : State → Prop)
    (hx : extra_spec f r extra Q) (s : State) :
    evidence_settled E f sensed Q r (notice_other_at E f item sensed extra r s) := by
  unfold notice_other_at
  simp only []
  obtain ⟨h1, h2⟩ := other_evidence_held E hr f sensed extra r Q hx s
  generalize other_evidence E f sensed extra r s = s1 at h1 h2
  generalize has_ego_properties E s.e_info (s.obj r) = b
  have hle : knowledge_le s1 (fully_identified_now E r (ego_item_check E b r item s1)) :=
    knowledge_le_trans (knowledge_le_ego_item_check E hk b r item s1)
      (knowledge_le_fully_identified_now E hk r _)
  have hsa : same_actual (s1.obj r)
      ((fully_identified_now E r (ego_item_check E b r item s1)).obj r) :=
    same_actual_trans (same_actual_ego_item_check E ha b r item s1 r)
      (same_actual_fully_identified_now E ha r _ r)
  obtain ⟨g1, g2⟩ := evidence_held_mono E hr f sensed Q hx.mono r s1 _ hle hsa h1 h2
  exact ⟨g1, g2, settled_fully_identified_now E hu r _⟩

/-- The body of `notice_other`, run on one object, leaves another object on
which a second run finds nothing to do in that condition. -/
theorem notice_other_at_keeps_settled (E : Env) (hk : E.keeps_knowledge) (ha : E.keeps_actual)
    (hr : E.helpers_read_actual) (hu : E.keeps_unsettled) (f : Nat) (item : Int)
    (sensed : Nat → Bool) (extra : State → State) (r : ObjRef) (Q : State → Prop)
    (hx : extra_spec f r extra Q) (s : State) (sensed2 : Nat → Bool) (Q2 : State → Prop)
    (hmono : ∀ t u, knowledge_le t u → Q2 t → Q2 u) (r2 : ObjRef) (hne : r2 ≠ r)
    (h : evidence_settled E f sensed2 Q2 r2 s) :
    evidence_settled E f sensed2 Q2 r2 (notice_other_at E f item sensed extra r s) := by
  have hle := knowledge_le_notice_other_at E hk f item sensed extra hx.keeps r s
  unfold notice_other_at at hle ⊢
  simp only [] at hle ⊢
  have e1 : (other_evidence E f sensed extra r s).e_info = s.e_info :=
    (same_templates_other_evidence E f sensed extra hx.templates r s).1
  have o1 := obj_other_evidence_other E f sensed extra r Q hx s r2 hne
  have a1 := same_actual_other_evidence E hr f sensed extra r Q hx s r2
  generalize other_evidence E f sensed extra r s = s1 at hle e1 o1 a1
  generalize has_ego_properties E s.e_info (s.obj r) = b at hle
  have hsa : same_actual (s.obj r2)
      ((fully_identified_now E r (ego_item_check E b r item s1)).obj r2) :=
    same_actual_trans a1
      (same_actual_trans (same_actual_ego_item_check E ha b r item s1 r2)
        (same_actual_fully_identified_now E ha r _ r2))
  obtain ⟨g1, g2⟩ := evidence_held_mono E hr f sensed2 Q2 hmono r2 s _ hle hsa h.1 h.2.1
  refine ⟨g1, g2, ?_⟩
  apply Bool.eq_false_iff.mpr
  intro hkr
  have k2 := unsettled_fully_identified_now E hu r _ r2 hkr
  have k1 := unsettled_ego_item_check E hu b r item s1 r2 hne k2
  rw [e1, o1, h.2.2] at k1
  exact Bool.false_ne_true k1

/-- After the equipment loop of `notice_other` has visited a list of slots, a
second run of its body finds nothing to do on any of them, nor on the slots
that were in that condition before. -/
theorem notice_other_loop_settles (E : Env) (hk : E.keeps_knowledge) (ha : E.keeps_actual)
    (hr : E.helpers_read_actual) (hu : E.keeps_unsettled) (f : Nat) (item : Int)
    (l : List Nat) :
    ∀ (visited : List Nat) (s : State),
      (∀ i ∈ visited, evidence_settled E f (other_sensed_body E)
        (fun t => f ∈ (t.obj (.inven i)).id_other) (.inven i) s) →
      ∀ i ∈ visited ++ l, evidence_settled E f (other_sensed_body E)
        (fun t => f ∈ (t.obj (.inven i)).id_other) (.inven i)
        (l.foldl (fun s i => notice_other_at E f item (other_sensed_body E)
          (other_extra_body f (.inven i)) (.inven i) s) s) := by
  induction l with
  | nil =>
    intro visited s h i hi
    rw [List.append_nil] at hi
    exact h i hi
  | cons a l ih =>
    intro visited s h i hi
    rw [List.foldl_cons]
    apply ih (visited ++ [a])
    · intro j hj
      by_cases hja : j = a
      · subst hja
        exact notice_other_at_settles E hk ha hr hu f item _ _ _ _ (extra_spec_body f _) s
      · rcases List.mem_append.mp hj with hv | hv
        · apply notice_other_at_keeps_settled E hk ha hr hu f item _ _ _ _
            (extra_spec_body f (.inven a)) s _ _ (extra_spec_body f (.inven j)).mono
          · intro he
            exact hja (ObjRef.inven.inj he)
          · exact h j hv
        · exact absurd (List.mem_singleton.mp hv) hja
    · rw [List.append_assoc]
      exact hi

/-- The equipment loop of `notice_other` changes nothing when a second run of
its body finds nothing to do on any slot it visits. -/
theorem notice_other_loop_fix (E : Env) (f : Nat) (item : Int) (l : List Nat) (s : State)
    (h : ∀ i ∈ l, evidence_settled E f (other_sensed_body E)
      (fun t => f ∈ (t.obj (.inven i)).id_other) (.inven i) s) :
    l.foldl (fun s i => notice_other_at E f item (other_sensed_body E)
      (other_extra_body f (.inven i)) (.inven i) s) s = s := by
  induction l with
  | nil => rfl
  | cons a l ih =>
    rw [List.foldl_cons, notice_other_at_fix E f item _ _ _ _ (extra_spec_body f _) s
      (h a (List.mem_cons_self _ _))]
    exact ih (fun i hi => h i (List.mem_cons_of_mem _ hi))

/-- The helpers of the concrete environment read the kind class only. -/
theorem sample_env_helpers_read_actual : sample_env.helpers_read_actual := by
  intro o o2 h
  simp only [sample_env, sample_wield_slot, h.tval, and_self]

/-- The collaborators of the concrete environment change no actual field. -/
theorem sample_env_keeps_actual : sample_env.keeps_actual := by
  constructor
  · intro s r
    have h : (sample_env.handle_stuff s).obj r = s.obj r := by cases r <;> rfl
    rw [h]
    exact same_actual_refl _
  · intro r0 s r
    show same_actual (s.obj r) ((sample_identify_object r0 s).obj r)
    have h1 : same_actual (s.obj r)
        ((s.set_obj r0 { s.obj r0 with ident := (s.obj r0).ident ||| 0x08 }).obj r) :=
      same_actual_set_obj s r0 { s.obj r0 with ident := (s.obj r0).ident ||| 0x08 }
        ⟨rfl, rfl, rfl, rfl, rfl, rfl, rfl, rfl, rfl, rfl, rfl, rfl, rfl, rfl, rfl⟩ r
    unfold sample_identify_object
    simp only []
    split_ifs
    · have h2 : ∀ (t : State) (e : Nat → ego_item_type),
          ({ t with e_info := e } : State).obj r = t.obj r := by
        intro t e
        cases r <;> rfl
      rw [h2]
      exact h1
    · exact h1

/-- An object with the status bit `IDENT_KNOWN` is not functionally known. -/
theorem known_really_false_of_known_bit (E : Env) (e_info : Nat → ego_item_type)
    (o : object_type) (h : o.ident &&& E.IDENT_KNOWN ≠ 0) : known_really E e_info o = false := by
  unfold known_really
  simp only []
  split_ifs <;> rfl

/-- A functionally known object has no template or one that has been seen. -/
theorem everseen_of_known_really (E : Env) (e_info : Nat → ego_item_type) (o : object_type)
    (h : known_really E e_info o = true) (hn : o.name2 ≠ 0) :
    (e_info o.name2).everseen = true := by
  by_contra hne
  have hf : known_really E e_info o = false := by
    unfold known_really
    simp [hn, hne]
  rw [hf] at h
  exact Bool.false_ne_true h

/-- On a functionally known object `identify_object` of the concrete
environment only sets the status bit: the template has been seen already. -/
theorem sample_identify_object_of_known (r : ObjRef) (s : State)
    (h : known_really sample_env s.e_info (s.obj r) = true) :
    sample_identify_object r s =
      s.set_obj r { s.obj r with ident := (s.obj r).ident ||| 0x08 } := by
  unfold sample_identify_object
  simp only []
  split_ifs with hn
  · have hs := everseen_of_known_really sample_env s.e_info (s.obj r) h hn
    have he : (s.set_obj r { s.obj r with ident := (s.obj r).ident ||| 0x08 }).e_info =
        s.e_info := (p_ptr_sets_set_obj s r _).2.2
    have hu : Function.update s.e_info (s.obj r).name2
        { s.e_info (s.obj r).name2 with everseen := true } = s.e_info := by
      have hv : ({ s.e_info (s.obj r).name2 with everseen := true } : ego_item_type) =
          s.e_info (s.obj r).name2 := by
        rw [← hs]
      rw [hv, Function.update_eq_self]
    rw [he, hu]
    cases r <;> rfl
  · rfl

/-- The collaborators of the concrete environment make no object functionally
known, and `identify_object` leaves its object not functionally known. -/
theorem sample_env_keeps_unsettled : sample_env.keeps_unsettled := by
  constructor
  · intro s r h
    have ho : (sample_env.handle_stuff s).obj r = s.obj r := by cases r <;> rfl
    rw [ho] at h
    exact h
  · intro r0 s hk r h
    have hi : sample_env.identify_object r0 s =
        s.set_obj r0 { s.obj r0 with ident := (s.obj r0).ident ||| 0x08 } :=
      sample_identify_object_of_known r0 s hk
    rw [hi, (p_ptr_sets_set_obj s r0 _).2.2] at h
    by_cases hr : r = r0
    · subst hr
      rw [obj_set_obj_same] at h
      have hf := known_really_false_of_known_bit sample_env s.e_info
        { s.obj r with ident := (s.obj r).ident ||| 0x08 }
        (by
          show ((s.obj r).ident ||| 8) &&& 8 ≠ 0
          rw [or_and_mask]
          decide)
      rw [hf] at h
      exact absurd h Bool.false_ne_true
    · rw [obj_set_obj_other s r0 r _ hr] at h
      exact ⟨hr, h⟩

/-- C27: when the collaborators `handle_stuff` and `identify_object` retract no
knowledge, change no actual field of an object and make no object functionally
known (`identify_object` leaving the object it is called on not functionally
known), and the helpers `is_weapon`, `is_armour` and `wield_slot` read actual
fields only, then for every state, flag and target, single item or whole body,
a second call of `notice_other` with the same flag and target changes nothing:
the state after two calls is the state after one, and with it the knowledge
sets and status bits of every object and the player-wide aggregate sets. -/
theorem notice_other_twice (E : Env) (hk : E.keeps_knowledge) (ha : E.keeps_actual)
    (hr : E.helpers_read_actual) (hu : E.keeps_unsettled) (f : Nat) (item : Int) (s : State) :
    notice_other E f item (notice_other E f item s) = notice_other E f item s := by
  unfold notice_other
  by_cases hitem : item ≠ 0
  · simp only [if_pos hitem]
    exact notice_other_at_fix E f item _ _ _ _ (extra_spec_single f _) _
      (notice_other_at_settles E hk ha hr hu f item _ _ _ _ (extra_spec_single f _) s)
  · simp only [if_neg hitem]
    apply notice_other_loop_fix
    intro i hi
    exact notice_other_loop_settles E hk ha hr hu f item (equipment_slots E) [] s
      (fun j hj => absurd hj (List.not_mem_nil j)) i (by rw [List.nil_append]; exact hi)

/-- C27 at a concrete input: the acid flag noticed twice on the whole body and
twice on the ring in slot 26 of `ring_worn_state`. -/
theorem notice_other_twice_witness :
    notice_other sample_env 1 0 (notice_other sample_env 1 0 ring_worn_state) =
        notice_other sample_env 1 0 ring_worn_state ∧
      notice_other sample_env 1 27 (notice_other sample_env 1 27 ring_worn_state) =
        notice_other sample_env 1 27 ring_worn_state :=
  ⟨notice_other_twice sample_env sample_env_keeps_knowledge sample_env_keeps_actual
      sample_env_helpers_read_actual sample_env_keeps_unsettled 1 0 ring_worn_state,
    notice_other_twice sample_env sample_env_keeps_knowledge sample_env_keeps_actual
      sample_env_helpers_read_actual sample_env_keeps_unsettled 1 27 ring_worn_state⟩

/-- C33: `known_really` returns false for every item whose known-object-flag
set equals its actual object-flag set, whatever else holds of the item and of
the templates: the test of line 340 succeeds.  The same holds when the subset
macros are read with the other operand order. -/
theorem known_really_false_of_flags_all_known (E : Env) (e_info : Nat → ego_item_type)
    (o : object_type) (h : o.id_obj = o.flags_obj) :
    known_really E e_info o = false ∧ known_really_swapped E e_info o = false := by
  have hs : flag_is_subset o.id_obj o.flags_obj = true := by
    unfold flag_is_subset
    rw [h]
    simp
  have hs2 : flag_is_subset o.flags_obj o.id_obj = true := by
    unfold flag_is_subset
    rw [h]
    simp
  unfold known_really known_really_swapped
  simp only [hs, hs2, if_true]
  constructor <;> split_ifs <;> rfl

/-- Witness for C33: a worn ring whose one object flag is known, and a ring
without object flags and with none known. -/
theorem known_really_false_of_flags_all_known_witness :
    (worn_ring_of_strength.id_obj = worn_ring_of_strength.flags_obj ∧
        known_really sample_env seen_table worn_ring_of_strength = false) ∧
      ((plain_item 45).flags_obj = ∅ ∧ (plain_item 45).id_obj = ∅ ∧
        known_really sample_env seen_table (plain_item 45) = false) :=
  ⟨⟨by decide,
      (known_really_false_of_flags_all_known sample_env seen_table worn_ring_of_strength
        (by decide)).1⟩,
    ⟨rfl, rfl,
      (known_really_false_of_flags_all_known sample_env seen_table (plain_item 45) rfl).1⟩⟩

/-- An item that `item_dubious(item, TRUE)` passes carries no curse. -/
theorem not_cursed_of_not_dubious (E : Env) (k_info : Nat → object_kind) (o : object_type)
    (h : ¬ item_dubious E k_info o true = true) : cursed_p o = false := by
  unfold item_dubious at h
  simp only [] at h
  split_ifs at h <;> simp_all

/-- C34: each feeling method either leaves the item as it is or runs the
statement `o_ptr->ident |= (IDENT_UNCURSED | IDENT_KNOW_CURSES)` on an item that
carries no curse; an item that carries a curse is left as it is by both
methods. -/
theorem feeling_marks_only_uncursed (E : Env) (k_info : Nat → object_kind) (o : object_type) :
    ((value_check_aux1 E k_info o).2 = o ∨
      ((value_check_aux1 E k_info o).2 = mark_uncursed E o ∧ cursed_p o = false)) ∧
    ((value_check_aux2 E k_info o).2 = o ∨
      ((value_check_aux2 E k_info o).2 = mark_uncursed E o ∧ cursed_p o = false)) ∧
    (cursed_p o = true →
      (value_check_aux1 E k_info o).2 = o ∧ (value_check_aux2 E k_info o).2 = o) := by
  have h1 : (value_check_aux1 E k_info o).2 = o ∨
      ((value_check_aux1 E k_info o).2 = mark_uncursed E o ∧ cursed_p o = false) := by
    unfold value_check_aux1
    simp only []
    split_ifs with a b c d e f
    all_goals first
      | exact Or.inl rfl
      | exact Or.inr ⟨rfl, not_cursed_of_not_dubious E k_info o (by assumption)⟩
  have h2 : (value_check_aux2 E k_info o).2 = o ∨
      ((value_check_aux2 E k_info o).2 = mark_uncursed E o ∧ cursed_p o = false) := by
    unfold value_check_aux2
    simp only []
    split_ifs with a b c
    all_goals first
      | exact Or.inl rfl
      | exact Or.inr ⟨rfl, not_cursed_of_not_dubious E k_info o (by assumption)⟩
  refine ⟨h1, h2, fun hc => ⟨?_, ?_⟩⟩
  · rcases h1 with h | ⟨_, h⟩
    · exact h
    · rw [hc] at h
      exact absurd h (by decide)
  · rcases h2 with h | ⟨_, h⟩
    · exact h
    · rw [hc] at h
      exact absurd h (by decide)

/-- Witness for C34: an ego blade that carries curse 4 is left unmarked by both
methods. -/
theorem feeling_marks_only_uncursed_witness :
    cursed_p perilous_ego_blade = true ∧
      (value_check_aux1 sample_env (kinds_with_to_h 0) perilous_ego_blade).2.ident = 0 ∧
      (value_check_aux2 sample_env (kinds_with_to_h 0) perilous_ego_blade).2.ident = 0 :=
  ⟨by decide,
    congrArg object_type.ident
      ((feeling_marks_only_uncursed sample_env (kinds_with_to_h 0) perilous_ego_blade).2.2
        (by decide)).1,
    congrArg object_type.ident
      ((feeling_marks_only_uncursed sample_env (kinds_with_to_h 0) perilous_ego_blade).2.2
        (by decide)).2⟩

/-- C35: each feeling method leaves every field of the item but `ident` as it
is; `ident` afterwards is its previous value or that value with the bits of
`IDENT_UNCURSED | IDENT_KNOW_CURSES` added; and the item is unchanged, `ident`
included, when the feeling is `FEEL_NONE`, `FEEL_SPECIAL`, `FEEL_PERILOUS`,
`FEEL_DUBIOUS_STRONG` or `FEEL_DUBIOUS_WEAK`. -/
theorem feeling_changes_status_only (E : Env) (k_info : Nat → object_kind) (o : object_type) :
    ((value_check_aux1 E k_info o).2 =
        { o with ident := (value_check_aux1 E k_info o).2.ident } ∧
      ((value_check_aux1 E k_info o).2.ident = o.ident ∨
        (value_check_aux1 E k_info o).2.ident =
          o.ident ||| (E.IDENT_UNCURSED ||| E.IDENT_KNOW_CURSES)) ∧
      ((value_check_aux1 E k_info o).1 ∈ [FEEL_NONE, FEEL_SPECIAL, FEEL_PERILOUS,
          FEEL_DUBIOUS_STRONG, FEEL_DUBIOUS_WEAK] →
        (value_check_aux1 E k_info o).2 = o)) ∧
    ((value_check_aux2 E k_info o).2 =
        { o with ident := (value_check_aux2 E k_info o).2.ident } ∧
      ((value_check_aux2 E k_info o).2.ident = o.ident ∨
        (value_check_aux2 E k_info o).2.ident =
          o.ident ||| (E.IDENT_UNCURSED ||| E.IDENT_KNOW_CURSES)) ∧
      ((value_check_aux2 E k_info o).1 ∈ [FEEL_NONE, FEEL_SPECIAL, FEEL_PERILOUS,
          FEEL_DUBIOUS_STRONG, FEEL_DUBIOUS_WEAK] →
        (value_check_aux2 E k_info o).2 = o)) := by
  constructor
  · unfold value_check_aux1
    simp only []
    split_ifs <;> simp [mark_uncursed]
  · unfold value_check_aux2
    simp only []
    split_ifs <;> simp [mark_uncursed]

/-- Witness for C35: the heavy method on an ego blade that carries a curse
gives `FEEL_PERILOUS` and leaves the blade as it is. -/
theorem feeling_changes_status_only_witness :
    (value_check_aux1 sample_env (kinds_with_to_h 0) perilous_ego_blade).1 = FEEL_PERILOUS ∧
      (value_check_aux1 sample_env (kinds_with_to_h 0) perilous_ego_blade).2.ident =
        perilous_ego_blade.ident :=
  ⟨by decide,
    congrArg object_type.ident
      ((feeling_changes_status_only sample_env (kinds_with_to_h 0) perilous_ego_blade).1.2.2
        (by decide))⟩

/-- C36: `has_ego_properties` is monotone in knowledge: for two items with the
same template index and the same status word, read with the same template
table, when each known set of the first is contained in that of the second and
the result is true for the first, it is true for the second. -/
theorem has_ego_properties_mono (E : Env) (e_info : Nat → ego_item_type)
    (o1 o2 : object_type) (hn : o2.name2 = o1.name2) (hi : o2.ident = o1.ident)
    (hk : known_le o1 o2) (h : has_ego_properties E e_info o1 = true) :
    has_ego_properties E e_info o2 = true :=
  has_ego_properties_of_le E e_info e_info o1 o2 hn (fun hc => by rw [hi]; exact hc)
    (fun hc => hc) (Finset.Subset.refl _) (Finset.Subset.refl _) (Finset.Subset.refl _) hk h

/-- C37: `has_ego_properties` gives the same result for two items that agree
on the template index, the bit `IDENT_KNOWN` and the three known sets, read with
the same template table, whatever their actual flags, actual curses and numeric
properties are. -/
theorem has_ego_properties_reads_knowledge_only (E : Env) (e_info : Nat → ego_item_type)
    (o1 o2 : object_type) (hn : o2.name2 = o1.name2)
    (hi : o2.ident &&& E.IDENT_KNOWN = o1.ident &&& E.IDENT_KNOWN)
    (hc : o2.id_curse = o1.id_curse) (ho : o2.id_obj = o1.id_obj)
    (ht : o2.id_other = o1.id_other) :
    has_ego_properties E e_info o2 = has_ego_properties E e_info o1 := by
  unfold has_ego_properties
  simp only [hn, hi, hc, ho, ht]

/-- Witness for C37: an ego blade with curse 4 and one without curse, nothing
known of either. -/
theorem has_ego_properties_reads_knowledge_only_witness :
    perilous_ego_blade.flags_curse ≠ sound_ego_blade.flags_curse ∧
      has_ego_properties sample_env seen_table perilous_ego_blade =
        has_ego_properties sample_env seen_table sound_ego_blade :=
  ⟨by decide,
    has_ego_properties_reads_knowledge_only sample_env seen_table sound_ego_blade
      perilous_ego_blade rfl rfl rfl rfl rfl⟩

/-- C38: an item that is dubious when curses are not counted is dubious when
they are; and the result without curses is the same for the item with any other
actual curses, known curses and status word. -/
theorem item_dubious_unknown_weaker (E : Env) (k_info : Nat → object_kind) (o : object_type) :
    (item_dubious E k_info o false = true → item_dubious E k_info o true = true) ∧
    (∀ (fc ic : FlagSet) (st : Nat),
      item_dubious E k_info { o with flags_curse := fc, id_curse := ic, ident := st } false =
        item_dubious E k_info o false) := by
  constructor
  · unfold item_dubious
    simp only []
    split_ifs <;> simp_all
  · intro fc ic st
    unfold item_dubious
    simp only [Bool.false_and]

/-- Witness for C38: a blade with to-hit -2 and to-damage +1 is dubious without
counting curses, hence with. -/
theorem item_dubious_unknown_weaker_witness :
    item_dubious sample_env (kinds_with_to_h 0) clumsy_blade false = true ∧
      item_dubious sample_env (kinds_with_to_h 0) clumsy_blade true = true :=
  ⟨by decide,
    (item_dubious_unknown_weaker sample_env (kinds_with_to_h 0) clumsy_blade).1 (by decide)⟩

/-- Witness for C36: an ego sword of which curse 4 is known, and the same sword
with object flag 7 known as well. -/
theorem has_ego_properties_mono_witness :
    has_ego_properties sample_env (fun _ => cursing_ego) curse_known_ego_sword = true ∧
      has_ego_properties sample_env (fun _ => cursing_ego)
        curse_and_flag_known_ego_sword = true :=
  ⟨by decide,
    has_ego_properties_mono sample_env (fun _ => cursing_ego) curse_known_ego_sword
      curse_and_flag_known_ego_sword rfl rfl
      ⟨Finset.Subset.refl _, Finset.empty_subset _, Finset.Subset.refl _⟩ (by decide)⟩

/-! ## Theorems: what a notice call may change -/

/-- Every template has its own fields. -/
theorem same_template_refl (e : ego_item_type) : same_template e e :=
  ⟨rfl, rfl, rfl, rfl, rfl, rfl, rfl, rfl⟩

/-- Steps that change no template field compose. -/
theorem same_template_trans {a b c : ego_item_type} (h1 : same_template a b)
    (h2 : same_template b c) : same_template a c :=
  ⟨h2.flags_obj.trans h1.flags_obj, h2.flags_curse.trans h1.flags_curse,
    h2.id_curse.trans h1.id_curse, h2.id_obj.trans h1.id_obj, h2.id_other.trans h1.id_other,
    h2.percent_res.trans h1.percent_res, h2.multiple_slay.trans h1.multiple_slay,
    h2.multiple_brand.trans h1.multiple_brand⟩

/-- A state differs from itself in nothing. -/
theorem only_knowledge_refl (s : State) : only_knowledge s s :=
  ⟨fun _ => same_actual_refl _, fun _ => same_template_refl _⟩

/-- Steps that change only knowledge compose. -/
theorem only_knowledge_trans {a b c : State} (h1 : only_knowledge a b)
    (h2 : only_knowledge b c) : only_knowledge a c :=
  ⟨fun r => same_actual_trans (h1.1 r) (h2.1 r),
    fun n => same_template_trans (h1.2 n) (h2.2 n)⟩

/-- A state with the objects and the templates of `s` differs from it in
knowledge at most. -/
theorem only_knowledge_of_same (s t : State) (ho : ∀ r, t.obj r = s.obj r)
    (he : t.e_info = s.e_info) : only_knowledge s t := by
  refine ⟨fun r => ?_, fun n => ?_⟩
  · rw [ho r]
    exact same_actual_refl _
  · rw [he]
    exact same_template_refl _

/-- A store of an object with the actual fields of the one it replaces changes
only knowledge. -/
theorem only_knowledge_set_obj (s : State) (r : ObjRef) (o : object_type)
    (h : same_actual (s.obj r) o) : only_knowledge s (s.set_obj r o) := by
  refine ⟨same_actual_set_obj s r o h, fun n => ?_⟩
  rw [(p_ptr_sets_set_obj s r o).2.2]
  exact same_template_refl _

/-- Iterating steps that change only knowledge changes only knowledge. -/
theorem only_knowledge_foldl {α : Type} (f : State → α → State)
    (hf : ∀ s a, only_knowledge s (f s a)) (l : List α) (s : State) :
    only_knowledge s (l.foldl f s) := by
  induction l generalizing s with
  | nil => exact only_knowledge_refl s
  | cons a l ih => exact only_knowledge_trans (hf s a) (ih (f s a))

/-- The promotion routine changes only knowledge. -/
theorem only_knowledge_label_as_ego (E : Env) (hc : E.changes_only_knowledge) (r : ObjRef)
    (item : Int) (s : State) : only_knowledge s (label_as_ego E r item s) := by
  unfold label_as_ego
  simp only []
  refine only_knowledge_trans ?_
    (only_knowledge_of_same _ _ (obj_label_describe E r item _) (e_info_label_describe E r item _))
  refine only_knowledge_trans ?_ (hc.1 _)
  refine only_knowledge_trans ?_ (only_knowledge_of_same _ _ (obj_label_requests E _) rfl)
  exact only_knowledge_set_obj s r _ (same_actual_label_object E _ _)

/-- The step "Ego item?" changes only knowledge. -/
theorem only_knowledge_ego_item_check (E : Env) (hc : E.changes_only_knowledge) (b : Bool)
    (r : ObjRef) (item : Int) (s : State) : only_knowledge s (ego_item_check E b r item s) := by
  unfold ego_item_check
  split_ifs
  · exact only_knowledge_label_as_ego E hc r item s
  · exact only_knowledge_refl s

/-- The step "Fully identified now?" changes only knowledge. -/
theorem only_knowledge_fully_identified_now (E : Env) (hc : E.changes_only_knowledge)
    (r : ObjRef) (s : State) : only_knowledge s (fully_identified_now E r s) := by
  unfold fully_identified_now
  split_ifs
  · exact hc.2 r s
  · exact only_knowledge_refl s

/-- The evidence of `notice_curse` changes only knowledge. -/
theorem only_knowledge_curse_evidence (E : Env) (c : Nat) (r : ObjRef) (s : State) :
    only_knowledge s (curse_evidence E c r s) := by
  unfold curse_evidence
  exact only_knowledge_set_obj s r _
    ⟨rfl, rfl, rfl, rfl, rfl, rfl, rfl, rfl, rfl, rfl, rfl, rfl, rfl, rfl, rfl⟩

/-- The evidence of `notice_obj` changes only knowledge. -/
theorem only_knowledge_obj_evidence (E : Env) (f : Nat) (slot : Int) (r : ObjRef) (s : State) :
    only_knowledge s (obj_evidence E f slot r s) := by
  unfold obj_evidence
  have h1 : only_knowledge s
      (s.set_obj r { s.obj r with id_obj := flag_on (s.obj r).id_obj f }) :=
    only_knowledge_set_obj s r _
      ⟨rfl, rfl, rfl, rfl, rfl, rfl, rfl, rfl, rfl, rfl, rfl, rfl, rfl, rfl, rfl⟩
  split_ifs
  · exact only_knowledge_trans h1
      (only_knowledge_of_same _ _ (fun r2 => by cases r2 <;> rfl) rfl)
  · exact h1

/-- The evidence of `notice_other` changes only knowledge. -/
theorem only_knowledge_other_evidence (E : Env) (f : Nat) (sensed : Nat → Bool)
    (extra : State → State) (hx : ∀ t, only_knowledge t (extra t)) (r : ObjRef) (s : State) :
    only_knowledge s (other_evidence E f sensed extra r s) := by
  rw [other_evidence_eq]
  unfold run_stages
  apply only_knowledge_foldl
  intro t p
  have hm : only_knowledge t (other_extra_body f r t) := by
    rw [other_extra_body_eq]
    exact only_knowledge_set_obj t r _ (same_actual_marked_other f _)
  unfold notice_stage
  split_ifs
  · exact only_knowledge_trans hm (hx _)
  · exact hm
  · exact only_knowledge_refl t

/-- The inner statement of the single-item path changes only knowledge. -/
theorem only_knowledge_other_extra_single (f : Nat) (s : State) :
    only_knowledge s (other_extra_single f s) :=
  only_knowledge_of_same _ _ (fun r2 => by cases r2 <;> rfl) rfl

/-- The inner statement of the equipment loops changes only knowledge. -/
theorem only_knowledge_other_extra_body (f : Nat) (r : ObjRef) (s : State) :
    only_knowledge s (other_extra_body f r s) := by
  rw [other_extra_body_eq]
  exact only_knowledge_set_obj s r _ (same_actual_marked_other f _)

/-- The per-object body of `notice_curse` changes only knowledge. -/
theorem only_knowledge_notice_curse_at (E : Env) (hc : E.changes_only_knowledge) (c : Nat)
    (item : Int) (r : ObjRef) (s : State) :
    only_knowledge s (notice_curse_at E c item r s) := by
  unfold notice_curse_at
  simp only []
  refine only_knowledge_trans ?_ (only_knowledge_fully_identified_now E hc r _)
  split_ifs
  · exact only_knowledge_trans (only_knowledge_curse_evidence E c r s)
      (only_knowledge_ego_item_check E hc _ r item _)
  · exact only_knowledge_refl s

/-- The per-object body of `notice_obj` changes only knowledge. -/
theorem only_knowledge_notice_obj_at (E : Env) (hc : E.changes_only_knowledge) (f : Nat)
    (item : Int) (slot : Int) (r : ObjRef) (s : State) :
    only_knowledge s (notice_obj_at E f item slot r s) := by
  unfold notice_obj_at
  simp only []
  refine only_knowledge_trans ?_ (only_knowledge_fully_identified_now E hc r _)
  exact only_knowledge_trans (only_knowledge_obj_evidence E f slot r s)
    (only_knowledge_ego_item_check E hc _ r item _)

/-- The per-object body of `notice_other` changes only knowledge. -/
theorem only_knowledge_notice_other_at (E : Env) (hc : E.changes_only_knowledge) (f : Nat)
    (item : Int) (sensed : Nat → Bool) (extra : State → State)
    (hx : ∀ t, only_knowledge t (extra t)) (r : ObjRef) (s : State) :
    only_knowledge s (notice_other_at E f item sensed extra r s) := by
  unfold notice_other_at
  simp only []
  refine only_knowledge_trans ?_ (only_knowledge_fully_identified_now E hc r _)
  exact only_knowledge_trans (only_knowledge_other_evidence E f sensed extra hx r s)
    (only_knowledge_ego_item_check E hc _ r item _)

/-- The collaborators of the concrete environment change only knowledge:
`identify_object` sets a status bit and the `everseen` flag of a template. -/
theorem sample_env_changes_only_knowledge : sample_env.changes_only_knowledge := by
  constructor
  · intro s
    exact only_knowledge_of_same _ _ (fun r => by cases r <;> rfl) rfl
  · intro r0 s
    show only_knowledge s (sample_identify_object r0 s)
    have h1 : only_knowledge s
        (s.set_obj r0 { s.obj r0 with ident := (s.obj r0).ident ||| 0x08 }) :=
      only_knowledge_set_obj s r0 { s.obj r0 with ident := (s.obj r0).ident ||| 0x08 }
        ⟨rfl, rfl, rfl, rfl, rfl, rfl, rfl, rfl, rfl, rfl, rfl, rfl, rfl, rfl, rfl⟩
    unfold sample_identify_object
    simp only []
    split_ifs
    · refine only_knowledge_trans h1 ⟨fun r => ?_, fun n => ?_⟩
      · have h2 : ∀ (t : State) (e : Nat → ego_item_type),
            ({ t with e_info := e } : State).obj r = t.obj r := by
          intro t e
          cases r <;> rfl
        rw [h2]
        exact same_actual_refl _
      · have h3 : ∀ (t : State) (k : Nat), same_template (t.e_info n)
            (Function.update t.e_info k { t.e_info k with everseen := true } n) := by
          intro t k
          by_cases hn : n = k
          · subst hn
            rw [Function.update_same]
            exact ⟨rfl, rfl, rfl, rfl, rfl, rfl, rfl, rfl⟩
          · rw [Function.update_noteq hn]
            exact same_template_refl _
        exact h3 _ _
    · exact h1

/-! ## Theorems: known object flags and actual object flags -/

/-- A state is within the bound of itself. -/
theorem object_flags_within_refl (f : Nat) (s : State) : object_flags_within f s s :=
  fun _ => (Finset.subset_union_left.trans Finset.subset_union_left)

/-- A step after which every known-object-flag set has gained actual object
flags at most is within the bound. -/
theorem object_flags_within_of_le (f : Nat) (s t : State)
    (h : ∀ r, (t.obj r).id_obj ⊆ (s.obj r).id_obj ∪ (s.obj r).flags_obj) :
    object_flags_within f s t :=
  fun r => (h r).trans Finset.subset_union_left

/-- Steps within the bound compose when the first changes only knowledge. -/
theorem object_flags_within_trans (f : Nat) {a b c : State} (hk : only_knowledge a b)
    (h1 : object_flags_within f a b) (h2 : object_flags_within f b c) :
    object_flags_within f a c := by
  intro r x hx
  have h3 := h2 r hx
  rw [(hk.1 r).flags_obj, (hk.1 r).name2, (hk.2 _).flags_obj] at h3
  rcases Finset.mem_union.mp h3 with h4 | h4
  · rcases Finset.mem_union.mp h4 with h5 | h5
    · exact h1 r h5
    · exact Finset.mem_union_left _ (Finset.mem_union_right _ h5)
  · exact Finset.mem_union_right _ h4

/-- A store of an object whose known-object-flag set is within the bound. -/
theorem object_flags_within_set_obj (f : Nat) (s : State) (r : ObjRef) (o : object_type)
    (h : o.id_obj ⊆ (s.obj r).id_obj ∪ (s.obj r).flags_obj ∪
      insert f (if (s.obj r).name2 = 0 then ∅ else (s.e_info (s.obj r).name2).flags_obj)) :
    object_flags_within f s (s.set_obj r o) := by
  intro r2
  by_cases hr : r2 = r
  · subst hr
    rw [obj_set_obj_same]
    exact h
  · rw [obj_set_obj_other s r r2 o hr]
    exact Finset.subset_union_left.trans Finset.subset_union_left

/-- The evidence of `notice_obj` is within the bound: it adds the flag. -/
theorem object_flags_within_obj_evidence (E : Env) (f : Nat) (slot : Int) (r : ObjRef)
    (s : State) : object_flags_within f s (obj_evidence E f slot r s) := by
  have h1 : object_flags_within f s
      (s.set_obj r { s.obj r with id_obj := flag_on (s.obj r).id_obj f }) := by
    apply object_flags_within_set_obj
    intro x hx
    rcases Finset.mem_insert.mp hx with h | h
    · exact Finset.mem_union_right _ (by rw [h]; exact Finset.mem_insert_self _ _)
    · exact Finset.mem_union_left _ (Finset.mem_union_left _ h)
  unfold obj_evidence
  split_ifs
  · intro r2
    have ho : ∀ (t : State) (p : player_type), (∀ i, p.inventory i = t.p_ptr.inventory i) →
        ({ t with p_ptr := p } : State).obj r2 = t.obj r2 := by
      intro t p hp
      cases r2
      · exact hp _
      · rfl
    rw [ho _ _ (fun _ => rfl)]
    exact h1 r2
  · exact h1

/-- The promotion of an object that has an ego template is within the bound:
it adds the object flags of the template. -/
theorem object_flags_within_label_as_ego (E : Env) (hc : E.changes_only_knowledge)
    (hl : E.learns_actual_flags) (f : Nat) (r : ObjRef) (item : Int) (s : State)
    (hn : (s.obj r).name2 ≠ 0) : object_flags_within f s (label_as_ego E r item s) := by
  have h1 : object_flags_within f s
      (s.set_obj r (label_object E (s.e_info (s.obj r).name2) (s.obj r))) := by
    apply object_flags_within_set_obj
    rw [if_neg hn]
    intro x hx
    rcases Finset.mem_union.mp hx with h | h
    · exact Finset.mem_union_left _ (Finset.mem_union_left _ h)
    · exact Finset.mem_union_right _ (Finset.mem_insert_of_mem h)
  have k1 : only_knowledge s
      (s.set_obj r (label_object E (s.e_info (s.obj r).name2) (s.obj r))) :=
    only_knowledge_set_obj s r _ (same_actual_label_object E _ _)
  have h2 : ∀ t : State, object_flags_within f t (label_requests E t) := fun t =>
    object_flags_within_of_le f _ _
      (fun r2 => by rw [obj_label_requests]; exact Finset.subset_union_left)
  have k2 : ∀ t : State, only_knowledge t (label_requests E t) := fun t =>
    only_knowledge_of_same _ _ (obj_label_requests E t) rfl
  have h3 : ∀ t : State, object_flags_within f t (E.handle_stuff t) := fun t =>
    object_flags_within_of_le f _ _ (hl.1 t)
  have h4 : ∀ t : State, object_flags_within f t (label_describe E r item t) := fun t =>
    object_flags_within_of_le f _ _
      (fun r2 => by rw [obj_label_describe]; exact Finset.subset_union_left)
  unfold label_as_ego
  simp only []
  refine object_flags_within_trans f ?_ ?_ (h4 _)
  · exact only_knowledge_trans (only_knowledge_trans k1 (k2 _)) (hc.1 _)
  refine object_flags_within_trans f ?_ ?_ (h3 _)
  · exact only_knowledge_trans k1 (k2 _)
  exact object_flags_within_trans f k1 h1 (h2 _)

/-- An object without template has no ego properties. -/
theorem has_ego_properties_of_name2_zero (E : Env) (e_info : Nat → ego_item_type)
    (o : object_type) (h : o.name2 = 0) : has_ego_properties E e_info o = false := by
  unfold has_ego_properties
  simp [h]

/-- The step "Ego item?" is within the bound when the snapshot taken of an
object without template is false. -/
theorem object_flags_within_ego_item_check (E : Env) (hc : E.changes_only_knowledge)
    (hl : E.learns_actual_flags) (f : Nat) (b : Bool) (r : ObjRef) (item : Int) (s : State)
    (hb : (s.obj r).name2 = 0 → b = false) :
    object_flags_within f s (ego_item_check E b r item s) := by
  unfold ego_item_check
  by_cases hn : (s.obj r).name2 = 0
  · rw [hb hn, has_ego_properties_of_name2_zero E s.e_info (s.obj r) hn]
    exact object_flags_within_refl f s
  · split_ifs
    · exact object_flags_within_label_as_ego E hc hl f r item s hn
    · exact object_flags_within_refl f s

/-- The step "Fully identified now?" is within the bound. -/
theorem object_flags_within_fully_identified_now (E : Env) (hl : E.learns_actual_flags)
    (f : Nat) (r : ObjRef) (s : State) :
    object_flags_within f s (fully_identified_now E r s) := by
  unfold fully_identified_now
  split_ifs
  · exact object_flags_within_of_le f _ _ (hl.2 r s)
  · exact object_flags_within_refl f s

/-- The per-object body of `notice_obj` is within the bound. -/
theorem object_flags_within_notice_obj_at (E : Env) (hc : E.changes_only_knowledge)
    (hl : E.learns_actual_flags) (f : Nat) (item : Int) (slot : Int) (r : ObjRef) (s : State) :
    object_flags_within f s (notice_obj_at E f item slot r s) := by
  unfold notice_obj_at
  simp only []
  have k1 := only_knowledge_obj_evidence E f slot r s
  have hb : ((obj_evidence E f slot r s).obj r).name2 = 0 →
      has_ego_properties E s.e_info (s.obj r) = false := by
    intro h
    rw [(k1.1 r).name2] at h
    exact has_ego_properties_of_name2_zero E s.e_info (s.obj r) h
  refine object_flags_within_trans f ?_ ?_
    (object_flags_within_fully_identified_now E hl f r _)
  · exact only_knowledge_trans k1 (only_knowledge_ego_item_check E hc _ r item _)
  exact object_flags_within_trans f k1 (object_flags_within_obj_evidence E f slot r s)
    (object_flags_within_ego_item_check E hc hl f _ r item _ hb)

/-- The equipment loop of `notice_obj` changes only knowledge and is within
the bound. -/
theorem object_flags_within_notice_obj_loop (E : Env) (hc : E.changes_only_knowledge)
    (hl : E.learns_actual_flags) (f : Nat) (item : Int) (l : List Nat) (s0 s : State)
    (hk : only_knowledge s0 s) (h : object_flags_within f s0 s) :
    object_flags_within f s0
      (l.foldl (fun (s : State) (i : Nat) => notice_obj_at E f item (i : Int) (.inven i) s)
        s) := by
  induction l generalizing s with
  | nil => exact h
  | cons i l ih =>
    rw [List.foldl_cons]
    apply ih
    · exact only_knowledge_trans hk (only_knowledge_notice_obj_at E hc f item _ _ s)
    · exact object_flags_within_trans f hk h
        (object_flags_within_notice_obj_at E hc hl f item _ _ s)

/-- The collaborators of the concrete environment add nothing to the
known-object-flag set of any object. -/
theorem sample_env_learns_actual_flags : sample_env.learns_actual_flags := by
  constructor
  · intro s r
    have ho : (sample_env.handle_stuff s).obj r = s.obj r := by cases r <;> rfl
    rw [ho]
    exact Finset.subset_union_left
  · intro r0 s r
    have ho : ((sample_env.identify_object r0 s).obj r).id_obj = (s.obj r).id_obj := by
      show ((sample_identify_object r0 s).obj r).id_obj = _
      have h2 : ∀ (t : State) (e : Nat → ego_item_type),
          ({ t with e_info := e } : State).obj r = t.obj r := by
        intro t e
        cases r <;> rfl
      have h1 : ((s.set_obj r0 { s.obj r0 with ident := (s.obj r0).ident ||| 0x08 }).obj
          r).id_obj = (s.obj r).id_obj := by
        by_cases hr : r = r0
        · subst hr
          rw [obj_set_obj_same]
        · rw [obj_set_obj_other s r0 r _ hr]
      unfold sample_identify_object
      simp only []
      split_ifs
      · rw [h2]
        exact h1
      · exact h1
    rw [ho]
    exact Finset.subset_union_left

/-- C31 (violated by the code): in a state in which nothing is known of any
object, so that every known-object-flag set is contained in the actual
object-flag set, `notice_obj(9, 3)` marks flag 9 known on the pack item, a blade
without object flags: `of_on(o_ptr->id_obj, obj_flag)` (line 437) asks nothing
of the actual flags. -/
theorem notice_obj_marks_absent_flag :
    (∀ r : ObjRef, ((uniform_state keen_blade unseen_table).obj r).id_obj ⊆
        ((uniform_state keen_blade unseen_table).obj r).flags_obj) ∧
      9 ∈ ((notice_obj sample_env 9 3 (uniform_state keen_blade unseen_table)).obj
        (target 3)).id_obj ∧
      9 ∉ ((notice_obj sample_env 9 3 (uniform_state keen_blade unseen_table)).obj
        (target 3)).flags_obj := by
  refine ⟨fun r => ?_, by decide, by decide⟩
  cases r <;> exact Finset.empty_subset _

/-- C31, amended: when the collaborators `handle_stuff` and `identify_object`
change only knowledge and add only actual object flags to known-object-flag
sets, then from a state in which the known-object-flag set of every object is
contained in its actual object-flag set, any call of `notice_obj(f, item)`,
single item or whole body, leaves the actual object-flag set of every object as
it was and its known-object-flag set contained in the actual set together with
`f` and, for an object with an ego template, the object flags of the
template. -/
theorem notice_obj_known_flags_bound (E : Env) (hc : E.changes_only_knowledge)
    (hl : E.learns_actual_flags) (f : Nat) (item : Int) (s : State)
    (h : ∀ r : ObjRef, (s.obj r).id_obj ⊆ (s.obj r).flags_obj) (r : ObjRef) :
    ((notice_obj E f item s).obj r).flags_obj = (s.obj r).flags_obj ∧
      ((notice_obj E f item s).obj r).id_obj ⊆ (s.obj r).flags_obj ∪
        insert f (if (s.obj r).name2 = 0 then ∅ else (s.e_info (s.obj r).name2).flags_obj) := by
  have hw : object_flags_within f s (notice_obj E f item s) := by
    unfold notice_obj
    split_ifs
    · exact object_flags_within_notice_obj_at E hc hl f item _ _ s
    · exact object_flags_within_notice_obj_loop E hc hl f item _ s s (only_knowledge_refl s)
        (object_flags_within_refl f s)
  have hk : only_knowledge s (notice_obj E f item s) := by
    unfold notice_obj
    split_ifs
    · exact only_knowledge_notice_obj_at E hc f item _ _ s
    · exact only_knowledge_foldl _
        (fun t i => only_knowledge_notice_obj_at E hc f item _ _ t) _ s
  refine ⟨(hk.1 r).flags_obj, fun x hx => ?_⟩
  rcases Finset.mem_union.mp (hw r hx) with h1 | h1
  · rcases Finset.mem_union.mp h1 with h2 | h2
    · exact Finset.mem_union_left _ (h r h2)
    · exact Finset.mem_union_left _ h2
  · exact Finset.mem_union_right _ h1

/-- Witness for C31, amended: flag 9 noticed on the whole body of a state in
which nothing is known; slot 30 holds a blade without template. -/
theorem notice_obj_known_flags_bound_witness :
    sample_env.changes_only_knowledge ∧ sample_env.learns_actual_flags ∧
      ((notice_obj sample_env 9 0 (uniform_state keen_blade unseen_table)).obj
        (.inven 30)).id_obj ⊆
          ((uniform_state keen_blade unseen_table).obj (.inven 30)).flags_obj ∪
            insert 9 (if ((uniform_state keen_blade unseen_table).obj (.inven 30)).name2 = 0
              then ∅
              else ((uniform_state keen_blade unseen_table).e_info
                ((uniform_state keen_blade unseen_table).obj (.inven 30)).name2).flags_obj) :=
  ⟨sample_env_changes_only_knowledge, sample_env_learns_actual_flags,
    (notice_obj_known_flags_bound sample_env sample_env_changes_only_knowledge
      sample_env_learns_actual_flags 9 0 (uniform_state keen_blade unseen_table)
      (fun r => by cases r <;> exact Finset.empty_subset _) (.inven 30)).2⟩

/-! ## Theorems: the scope of a notice call -/

/-- The pointer of a positive target `n` is inventory slot `n - 1`. -/
theorem target_pos (n : Nat) (h : 0 < n) : target (n : Int) = .inven (n - 1) := by
  unfold target
  have hp : (n : Int) > 0 := by omega
  rw [if_pos hp]
  congr 1
  omega

/-- The pointer of a negative target `-n` is floor object `n`. -/
theorem target_neg (n : Nat) (h : 0 < n) : target (-(n : Int)) = .floor n := by
  unfold target
  have hp : ¬ (-(n : Int) > 0) := by omega
  rw [if_neg hp]
  congr 1
  omega

/-- The promotion routine leaves every object but its own as it is. -/
theorem frame_label_as_ego (E : Env) (ht : E.touches_target_only) (r : ObjRef) (item : Int)
    (s : State) (r2 : ObjRef) (h : r2 ≠ r) : (label_as_ego E r item s).obj r2 = s.obj r2 := by
  unfold label_as_ego
  simp only []
  rw [obj_label_describe, ht.1, obj_label_requests, obj_set_obj_other s r r2 _ h]

/-- The step "Ego item?" leaves every object but its own as it is. -/
theorem frame_ego_item_check (E : Env) (ht : E.touches_target_only) (b : Bool) (r : ObjRef)
    (item : Int) (s : State) (r2 : ObjRef) (h : r2 ≠ r) :
    (ego_item_check E b r item s).obj r2 = s.obj r2 := by
  unfold ego_item_check
  split_ifs
  · exact frame_label_as_ego E ht r item s r2 h
  · rfl

/-- The step "Fully identified now?" leaves every object but its own as it
is. -/
theorem frame_fully_identified_now (E : Env) (ht : E.touches_target_only) (r : ObjRef)
    (s : State) (r2 : ObjRef) (h : r2 ≠ r) : (fully_identified_now E r s).obj r2 = s.obj r2 := by
  unfold fully_identified_now
  split_ifs
  · exact ht.2 r s r2 h
  · rfl

/-- The per-object body of `notice_curse` leaves every object but its own as
it is. -/
theorem frame_notice_curse_at (E : Env) (ht : E.touches_target_only) (c : Nat) (item : Int)
    (r : ObjRef) (s : State) (r2 : ObjRef) (h : r2 ≠ r) :
    (notice_curse_at E c item r s).obj r2 = s.obj r2 := by
  unfold notice_curse_at
  simp only []
  rw [frame_fully_identified_now E ht r _ r2 h]
  split_ifs
  · rw [frame_ego_item_check E ht _ r item _ r2 h]
    unfold curse_evidence
    exact obj_set_obj_other s r r2 _ h
  · rfl

/-- The per-object body of `notice_obj` leaves every object but its own as it
is. -/
theorem frame_notice_obj_at (E : Env) (ht : E.touches_target_only) (f : Nat) (item : Int)
    (slot : Int) (r : ObjRef) (s : State) (r2 : ObjRef) (h : r2 ≠ r) :
    (notice_obj_at E f item slot r s).obj r2 = s.obj r2 := by
  unfold notice_obj_at
  simp only []
  rw [frame_fully_identified_now E ht r _ r2 h, frame_ego_item_check E ht _ r item _ r2 h]
  have h1 : (s.set_obj r { s.obj r with id_obj := flag_on (s.obj r).id_obj f }).obj r2 =
      s.obj r2 := obj_set_obj_other s r r2 _ h
  unfold obj_evidence
  split_ifs
  · rw [← h1]
    cases r2 <;> rfl
  · exact h1

/-- The per-object body of `notice_other` leaves every object but its own as
it is. -/
theorem frame_notice_other_at (E : Env) (ht : E.touches_target_only) (f : Nat) (item : Int)
    (sensed : Nat → Bool) (extra : State → State) (r : ObjRef) (Q : State → Prop)
    (hx : extra_spec f r extra Q) (s : State) (r2 : ObjRef) (h : r2 ≠ r) :
    (notice_other_at E f item sensed extra r s).obj r2 = s.obj r2 := by
  unfold notice_other_at
  simp only []
  rw [frame_fully_identified_now E ht r _ r2 h, frame_ego_item_check E ht _ r item _ r2 h,
    obj_other_evidence_other E f sensed extra r Q hx s r2 h]

/-- A loop over inventory slots whose body leaves every object but the slot as
it is leaves every object that is none of the slots as it is. -/
theorem frame_foldl (step : State → Nat → State) (r2 : ObjRef)
    (hstep : ∀ s i, r2 ≠ .inven i → (step s i).obj r2 = s.obj r2) (l : List Nat)
    (hl : ∀ i ∈ l, r2 ≠ .inven i) (s : State) : (l.foldl step s).obj r2 = s.obj r2 := by
  induction l generalizing s with
  | nil => rfl
  | cons a l ih =>
    rw [List.foldl_cons, ih (fun i hi => hl i (List.mem_cons_of_mem _ hi)),
      hstep s a (hl a (List.mem_cons_self _ _))]

/-- The slots of the equipment loop are those from `INVEN_WIELD` to
`INVEN_FEET`. -/
theorem mem_equipment_slots (E : Env) (i : Nat) :
    i ∈ equipment_slots E ↔ E.INVEN_WIELD ≤ i ∧ i ≤ E.INVEN_FEET := by
  unfold equipment_slots
  rw [List.mem_range'_1]
  omega

/-- The collaborators of the concrete environment change no object but the one
`identify_object` is called on. -/
theorem sample_env_touches_target_only : sample_env.touches_target_only := by
  constructor
  · intro s r
    cases r <;> rfl
  · intro r0 s r h
    show (sample_identify_object r0 s).obj r = s.obj r
    have h2 : ∀ (t : State) (e : Nat → ego_item_type),
        ({ t with e_info := e } : State).obj r = t.obj r := by
      intro t e
      cases r <;> rfl
    unfold sample_identify_object
    simp only []
    split_ifs
    · rw [h2]
      exact obj_set_obj_other s r0 r _ h
    · exact obj_set_obj_other s r0 r _ h

/-- C32: when `handle_stuff` changes no object and `identify_object` no object
but the one it is called on, a call of `notice_curse`, `notice_obj` or
`notice_other` with a positive target `n` leaves every object but inventory slot
`n - 1` as it is, with a negative target `-n` every object but floor object `n`,
and with target 0 every object that is not an inventory slot from `INVEN_WIELD`
to `INVEN_FEET`; with target 0 the call runs the per-object body over the slots
of `equipment_slots`, which are the slots from `INVEN_WIELD` to `INVEN_FEET` in
ascending order. -/
theorem notice_calls_scope (E : Env) (ht : E.touches_target_only) (flag : Nat) (s : State) :
    (∀ n : Nat, 0 < n → ∀ r2 : ObjRef, r2 ≠ .inven (n - 1) →
      (notice_curse E flag (n : Int) s).obj r2 = s.obj r2 ∧
      (notice_obj E flag (n : Int) s).obj r2 = s.obj r2 ∧
      (notice_other E flag (n : Int) s).obj r2 = s.obj r2) ∧
    (∀ n : Nat, 0 < n → ∀ r2 : ObjRef, r2 ≠ .floor n →
      (notice_curse E flag (-(n : Int)) s).obj r2 = s.obj r2 ∧
      (notice_obj E flag (-(n : Int)) s).obj r2 = s.obj r2 ∧
      (notice_other E flag (-(n : Int)) s).obj r2 = s.obj r2) ∧
    (∀ r2 : ObjRef, (∀ i : Nat, E.INVEN_WIELD ≤ i → i ≤ E.INVEN_FEET → r2 ≠ .inven i) →
      (notice_curse E flag 0 s).obj r2 = s.obj r2 ∧
      (notice_obj E flag 0 s).obj r2 = s.obj r2 ∧
      (notice_other E flag 0 s).obj r2 = s.obj r2) ∧
    (notice_curse E flag 0 s =
        (equipment_slots E).foldl (fun s i => notice_curse_at E flag 0 (.inven i) s) s ∧
      notice_obj E flag 0 s =
        (equipment_slots E).foldl
          (fun (s : State) (i : Nat) => notice_obj_at E flag 0 (i : Int) (.inven i) s) s ∧
      notice_other E flag 0 s =
        (equipment_slots E).foldl
          (fun s i => notice_other_at E flag 0 (other_sensed_body E)
            (other_extra_body flag (.inven i)) (.inven i) s) s) ∧
    (List.Pairwise (fun i j => i < j) (equipment_slots E) ∧
      ∀ i : Nat, i ∈ equipment_slots E ↔ E.INVEN_WIELD ≤ i ∧ i ≤ E.INVEN_FEET) := by
  have single : ∀ item : Int, item ≠ 0 → ∀ r2 : ObjRef, r2 ≠ target item →
      (notice_curse E flag item s).obj r2 = s.obj r2 ∧
      (notice_obj E flag item s).obj r2 = s.obj r2 ∧
      (notice_other E flag item s).obj r2 = s.obj r2 := by
    intro item hitem r2 h
    unfold notice_curse notice_obj notice_other
    rw [if_pos hitem, if_pos hitem, if_pos hitem]
    exact ⟨frame_notice_curse_at E ht flag item _ s r2 h,
      frame_notice_obj_at E ht flag item _ _ s r2 h,
      frame_notice_other_at E ht flag item _ _ _ _ (extra_spec_single flag _) s r2 h⟩
  refine ⟨?_, ?_, ?_, ?_, ?_, mem_equipment_slots E⟩
  · intro n hn r2 h
    exact single (n : Int) (by omega) r2 (by rw [target_pos n hn]; exact h)
  · intro n hn r2 h
    exact single (-(n : Int)) (by omega) r2 (by rw [target_neg n hn]; exact h)
  · intro r2 h
    have hl : ∀ i ∈ equipment_slots E, r2 ≠ .inven i := by
      intro i hi
      have hm := (mem_equipment_slots E i).mp hi
      exact h i hm.1 hm.2
    unfold notice_curse notice_obj notice_other
    simp only [ne_eq, not_true_eq_false, if_false]
    refine ⟨?_, ?_, ?_⟩
    · exact frame_foldl _ r2 (fun t i hi => frame_notice_curse_at E ht flag 0 _ t r2 hi) _ hl s
    · exact frame_foldl _ r2 (fun t i hi => frame_notice_obj_at E ht flag 0 _ _ t r2 hi) _ hl s
    · exact frame_foldl _ r2
        (fun t i hi => frame_notice_other_at E ht flag 0 _ _ _ _ (extra_spec_body flag _) t r2 hi)
        _ hl s
  · unfold notice_curse notice_obj notice_other
    simp only [ne_eq, not_true_eq_false, if_false, and_self]
  · unfold equipment_slots
    exact List.pairwise_lt_range' _ _

/-- Witness for C32: curse 4 noticed on inventory slot 24 (target 25), which
runs the promotion, and on the whole body; slot 3, a pack slot, is left as it
was. -/
theorem notice_calls_scope_witness :
    sample_env.touches_target_only ∧
      (notice_curse sample_env 4 (25 : Nat) cursed_sword_state).obj (.inven 3) =
        cursed_sword_state.obj (.inven 3) ∧
      (notice_curse sample_env 4 0 cursed_sword_state).obj (.inven 3) =
        cursed_sword_state.obj (.inven 3) :=
  ⟨sample_env_touches_target_only,
    ((notice_calls_scope sample_env sample_env_touches_target_only 4 cursed_sword_state).1 25
      (by decide) (.inven 3) (by decide)).1,
    ((notice_calls_scope sample_env sample_env_touches_target_only 4
      cursed_sword_state).2.2.1 (.inven 3)
      (fun i h1 _ he => by
        have h2 : (3 : Nat) = i := ObjRef.inven.inj he
        have h3 : 24 ≤ i := h1
        omega)).1⟩

/-! ## Theorems: the evidence on the item named by the target -/

/-- C24: when the collaborators retract no knowledge, after `notice_obj(f, n)`
with a positive target `n` the flag `f` is in the known-object-flag set of
inventory slot `n - 1`, after `notice_obj(f, -n)` in that of floor object `n`,
and after `notice_obj(f, 0)` in that of every inventory slot from `INVEN_WIELD`
to `INVEN_FEET`; nothing is asked of the item's actual flags. -/
theorem notice_obj_marks_every_target (E : Env) (hk : E.keeps_knowledge) (f : Nat)
    (s : State) :
    (∀ n : Nat, 0 < n →
      f ∈ ((notice_obj E f (n : Int) s).obj (.inven (n - 1))).id_obj) ∧
    (∀ n : Nat, 0 < n →
      f ∈ ((notice_obj E f (-(n : Int)) s).obj (.floor n)).id_obj) ∧
    (∀ i : Nat, E.INVEN_WIELD ≤ i → i ≤ E.INVEN_FEET →
      f ∈ ((notice_obj E f 0 s).obj (.inven i)).id_obj) := by
  have single : ∀ item : Int, item ≠ 0 →
      f ∈ ((notice_obj E f item s).obj (target item)).id_obj := by
    intro item hitem
    unfold notice_obj
    rw [if_pos hitem]
    exact mem_notice_obj_at E hk f item _ _ s
  refine ⟨fun n hn => ?_, fun n hn => ?_, fun i h1 h2 => ?_⟩
  · have h := single (n : Int) (by omega)
    rw [target_pos n hn] at h
    exact h
  · have h := single (-(n : Int)) (by omega)
    rw [target_neg n hn] at h
    exact h
  · unfold notice_obj
    rw [if_neg (by simp)]
    apply mem_notice_obj_loop E hk f 0
    exact (mem_equipment_slots E i).mpr ⟨h1, h2⟩

/-- Witness for C24: object flag 9, which no sword of the state carries, is
noticed on pack item 3 (inventory slot 2), on floor object 2 and on the whole
body. -/
theorem notice_obj_marks_every_target_witness :
    sample_env.keeps_knowledge ∧
      9 ∉ (cursed_sword_state.obj (.inven 2)).flags_obj ∧
      9 ∈ ((notice_obj sample_env 9 3 cursed_sword_state).obj (.inven 2)).id_obj ∧
      9 ∈ ((notice_obj sample_env 9 (-2) cursed_sword_state).obj (.floor 2)).id_obj ∧
      9 ∈ ((notice_obj sample_env 9 0 cursed_sword_state).obj (.inven 30)).id_obj :=
  ⟨sample_env_keeps_knowledge, by decide,
    (notice_obj_marks_every_target sample_env sample_env_keeps_knowledge 9
      cursed_sword_state).1 3 (by decide),
    (notice_obj_marks_every_target sample_env sample_env_keeps_knowledge 9
      cursed_sword_state).2.1 2 (by decide),
    (notice_obj_marks_every_target sample_env sample_env_keeps_knowledge 9
      cursed_sword_state).2.2 30 (by decide) (by decide)⟩

/-- The flag `IF_TO_A` (30) is noticed on the ring of inventory slot 26 (target
27), with to-armor +3, base armour class 0, that is no armour.  The flag belongs
to the signature of `flags_other` and is not known after the call: line 536 of
`notice_other` tests `o_ptr->ac` where `flags_other` tests `o_ptr->to_a` as
well. -/
theorem notice_other_to_ac_tests_base_ac :
    sample_env.IF_TO_A = 30 ∧
      30 ∈ flags_other sample_env
        ((uniform_state protection_ring unseen_table).obj (.inven 26)) ∧
      30 ∉ ((notice_other sample_env 30 27 (uniform_state protection_ring unseen_table)).obj
        (.inven 26)).id_other := by
  decide

/-- Iterating steps that leave the template table as it is leaves it as it
is. -/
theorem e_info_foldl {α : Type} (f : State → α → State)
    (hf : ∀ s a, (f s a).e_info = s.e_info) (l : List α) (s : State) :
    (l.foldl f s).e_info = s.e_info := by
  induction l generalizing s with
  | nil => rfl
  | cons a l ih => rw [List.foldl_cons, ih, hf]

/-- The promotion routine leaves the template table as it is. -/
theorem e_info_label_as_ego_of_templates (E : Env) (hl : E.leaves_templates) (r : ObjRef)
    (item : Int) (s : State) : (label_as_ego E r item s).e_info = s.e_info := by
  unfold label_as_ego
  simp only []
  rw [e_info_label_describe, hl.1]
  exact (p_ptr_sets_set_obj s r _).2.2

/-- The step "Ego item?" leaves the template table as it is. -/
theorem e_info_ego_item_check (E : Env) (hl : E.leaves_templates) (b : Bool) (r : ObjRef)
    (item : Int) (s : State) : (ego_item_check E b r item s).e_info = s.e_info := by
  unfold ego_item_check
  split_ifs
  · exact e_info_label_as_ego_of_templates E hl r item s
  · rfl

/-- The step "Fully identified now?" leaves the template table as it is:
`identify_object` is called on a functionally known object only. -/
theorem e_info_fully_identified_now (E : Env) (hl : E.leaves_templates) (r : ObjRef)
    (s : State) : (fully_identified_now E r s).e_info = s.e_info := by
  unfold fully_identified_now
  split_ifs with h
  · exact hl.2 r s h
  · rfl

/-- The per-object body of `notice_curse` leaves the template table as it
is. -/
theorem e_info_notice_curse_at (E : Env) (hl : E.leaves_templates) (c : Nat) (item : Int)
    (r : ObjRef) (s : State) : (notice_curse_at E c item r s).e_info = s.e_info := by
  unfold notice_curse_at
  simp only []
  rw [e_info_fully_identified_now E hl]
  split_ifs
  · rw [e_info_ego_item_check E hl]
    unfold curse_evidence
    exact (p_ptr_sets_set_obj s r _).2.2
  · rfl

/-- The per-object body of `notice_obj` leaves the template table as it is. -/
theorem e_info_notice_obj_at (E : Env) (hl : E.leaves_templates) (f : Nat) (item : Int)
    (slot : Int) (r : ObjRef) (s : State) :
    (notice_obj_at E f item slot r s).e_info = s.e_info := by
  unfold notice_obj_at
  simp only []
  rw [e_info_fully_identified_now E hl, e_info_ego_item_check E hl]
  exact (same_templates_obj_evidence E f slot r s).1

/-- The per-object body of `notice_other` leaves the template table as it
is. -/
theorem e_info_notice_other_at (E : Env) (hl : E.leaves_templates) (f : Nat) (item : Int)
    (sensed : Nat → Bool) (extra : State → State) (hx : ∀ t, same_templates t (extra t))
    (r : ObjRef) (s : State) :
    (notice_other_at E f item sensed extra r s).e_info = s.e_info := by
  unfold notice_other_at
  simp only []
  rw [e_info_fully_identified_now E hl, e_info_ego_item_check E hl]
  exact (same_templates_other_evidence E f sensed extra hx r s).1

/-- The collaborators of the concrete environment leave the template table as
it is: the template of a functionally known object has been seen already. -/
theorem sample_env_leaves_templates : sample_env.leaves_templates := by
  constructor
  · intro s
    rfl
  · intro r s h
    show (sample_identify_object r s).e_info = s.e_info
    rw [sample_identify_object_of_known r s h]
    exact (p_ptr_sets_set_obj s r _).2.2

/-- C39: when the collaborators `handle_stuff` and `identify_object` change
only knowledge and leave the template table as it is (`identify_object` when it
is called on a functionally known object), so does every call of
`notice_curse`, `notice_obj`, `notice_other` and `label_as_ego`: after the call
every inventory slot and floor object has the kind, artifact and template
indices, the numeric properties, the actual object flags and the actual curses
it had, and the table of ego templates is the table before the call, the flag
`everseen` of every template included. -/
theorem notice_calls_change_only_knowledge (E : Env) (hc : E.changes_only_knowledge)
    (hl : E.leaves_templates) (flag : Nat) (item : Int) (s : State) :
    ((∀ r : ObjRef, same_actual (s.obj r) ((notice_curse E flag item s).obj r)) ∧
        (notice_curse E flag item s).e_info = s.e_info) ∧
      ((∀ r : ObjRef, same_actual (s.obj r) ((notice_obj E flag item s).obj r)) ∧
        (notice_obj E flag item s).e_info = s.e_info) ∧
      ((∀ r : ObjRef, same_actual (s.obj r) ((notice_other E flag item s).obj r)) ∧
        (notice_other E flag item s).e_info = s.e_info) ∧
      ∀ r0 : ObjRef,
        (∀ r : ObjRef, same_actual (s.obj r) ((label_as_ego E r0 item s).obj r)) ∧
          (label_as_ego E r0 item s).e_info = s.e_info := by
  refine ⟨⟨?_, ?_⟩, ⟨?_, ?_⟩, ⟨?_, ?_⟩, fun r0 =>
    ⟨(only_knowledge_label_as_ego E hc r0 item s).1,
      e_info_label_as_ego_of_templates E hl r0 item s⟩⟩
  · unfold notice_curse
    split_ifs
    · exact (only_knowledge_notice_curse_at E hc flag item _ s).1
    · exact (only_knowledge_foldl _
        (fun t i => only_knowledge_notice_curse_at E hc flag item _ t) _ s).1
  · unfold notice_curse
    split_ifs
    · exact e_info_notice_curse_at E hl flag item _ s
    · exact e_info_foldl _ (fun t i => e_info_notice_curse_at E hl flag item _ t) _ s
  · unfold notice_obj
    split_ifs
    · exact (only_knowledge_notice_obj_at E hc flag item _ _ s).1
    · exact (only_knowledge_foldl _
        (fun t i => only_knowledge_notice_obj_at E hc flag item _ _ t) _ s).1
  · unfold notice_obj
    split_ifs
    · exact e_info_notice_obj_at E hl flag item _ _ s
    · exact e_info_foldl _ (fun t i => e_info_notice_obj_at E hl flag item _ _ t) _ s
  · unfold notice_other
    split_ifs
    · exact (only_knowledge_notice_other_at E hc flag item _ _
        (only_knowledge_other_extra_single flag) _ s).1
    · exact (only_knowledge_foldl _
        (fun t i => only_knowledge_notice_other_at E hc flag item _ _
          (only_knowledge_other_extra_body flag _) _ t) _ s).1
  · unfold notice_other
    split_ifs
    · exact e_info_notice_other_at E hl flag item _ _
        (same_templates_other_extra_single flag) _ s
    · exact e_info_foldl _
        (fun t i => e_info_notice_other_at E hl flag item _ _
          (same_templates_other_extra_body flag _) _ t) _ s

/-- Witness for C39: curse 4 noticed on the wielded ego sword, which reveals
the ego type and runs the promotion; the sword keeps its actual curses and the
table of templates is the table before the call. -/
theorem notice_calls_change_only_knowledge_witness :
    (sample_env.changes_only_knowledge ∧ sample_env.leaves_templates) ∧
      ((notice_curse sample_env 4 25 cursed_sword_state).obj (.inven 24)).flags_curse =
        (cursed_sword_state.obj (.inven 24)).flags_curse ∧
      (notice_curse sample_env 4 25 cursed_sword_state).e_info = cursed_sword_state.e_info :=
  ⟨⟨sample_env_changes_only_knowledge, sample_env_leaves_templates⟩,
    ((notice_calls_change_only_knowledge sample_env sample_env_changes_only_knowledge
      sample_env_leaves_templates 4 25 cursed_sword_state).1.1 (.inven 24)).flags_curse,
    (notice_calls_change_only_knowledge sample_env sample_env_changes_only_knowledge
      sample_env_leaves_templates 4 25 cursed_sword_state).1.2⟩

end FAangband
